import Mathlib

/-!
# Explorer++ list view: asynchronous info tips and icons

A shallow embedding of the parts of `ShellBrowser/ListView.cpp` that queue
background lookups (info tips, icons) for list-view rows and apply their
results, of its handlers for middle clicks and for the header menu, and of the
functions of `MsgHandler.cpp` that open an item, followed by theorems about
them.

Conventions of the embedding:

* `int` values are `Int`; the places where a value is narrowed or widened
  (`WPARAM`, `static_cast<int>`, `UINT`) are explicit functions.
* `std::wstring` / `TCHAR` buffers are lists of characters, one list element
  per `wchar_t`.
* The list-view control `m_hListView` is a list of rows; every mutating
  message the code sends to it is also appended to a call log.
* Calls into the shell and into resources (`GetItemInfoTip`, `LoadString`,
  `CreateFileTimeString`) are fields of a `Shell` record passed explicitly.
* A `std::future` is either still pending (it holds the captured values of the
  lambda) or ready (it holds the lambda's return value).
-/

namespace ExplorerPlusPlus

/-! ## Basic Win32 types -/

/-- A `std::wstring` or NUL-free `TCHAR` buffer content, one element per `wchar_t`. -/
abbrev WString := List Char

/-- A window handle. -/
abbrev HWND := Nat

/-- A module handle. -/
abbrev HINSTANCE := Nat

/-- An absolute item id list, as an opaque comparable handle. -/
abbrev PIDL := Nat

/-- Win32 `FILETIME`. -/
structure FILETIME where
  dwLowDateTime : Nat
  dwHighDateTime : Nat
deriving DecidableEq, Repr

/-- The fields of `WIN32_FIND_DATA` that the list view code reads. -/
structure WIN32_FIND_DATA where
  dwFileAttributes : Nat
  ftLastWriteTime : FILETIME
  nFileSizeHigh : Nat
  nFileSizeLow : Nat
  cFileName : WString
deriving DecidableEq, Repr

/-- `FILE_ATTRIBUTE_DIRECTORY`. -/
def FILE_ATTRIBUTE_DIRECTORY : Nat := 0x10

/-- `FILE_ATTRIBUTE_ARCHIVE`. -/
def FILE_ATTRIBUTE_ARCHIVE : Nat := 0x20

/-- `LVIF_TEXT`. -/
def LVIF_TEXT : Nat := 0x1

/-- `LVIF_IMAGE`. -/
def LVIF_IMAGE : Nat := 0x2

/-- `LVIF_STATE`. -/
def LVIF_STATE : Nat := 0x8

/-- `LVIF_DI_SETITEM`. -/
def LVIF_DI_SETITEM : Nat := 0x1000

/-- `LVIS_OVERLAYMASK`. -/
def LVIS_OVERLAYMASK : Nat := 0x0F00

/-- Conversion of an `int` to a 32-bit unsigned value (`UINT`). -/
def toUINT (i : Int) : Nat := (i % 4294967296).toNat

/-- Conversion of an `int` to `WPARAM` (a 64-bit unsigned value): sign extension. -/
def toWPARAM (i : Int) : Nat := (i % 18446744073709551616).toNat

/-- Narrowing of an integer value to `int`: the low 32 bits, read as two's complement. -/
def toInt32 (i : Int) : Int := (i + 2147483648) % 4294967296 - 2147483648

/-- The conversion `static_cast<int>(wParam)`. -/
def wparamToInt (w : Nat) : Int := toInt32 (w : Int)

/-- The values an `int` can hold. -/
def IsInt32 (i : Int) : Prop := -2147483648 ≤ i ∧ i < 2147483648

instance (i : Int) : Decidable (IsInt32 i) := by
  unfold IsInt32; infer_instance

/-- The operator `&` on two `int` values: the bitwise and of their 32-bit patterns. -/
def bitand32 (a b : Int) : Int := toInt32 ((toUINT a &&& toUINT b : Nat) : Int)

/-- The macro `INDEXTOOVERLAYMASK(i)`, which is `i << 8`, stored in a `UINT`. -/
def INDEXTOOVERLAYMASK (i : Int) : Nat := toUINT (i * 2 ^ 8)

/-- The C string a `std::wstring` yields through `c_str()`: it ends at the first NUL. -/
def c_str (s : WString) : WString := s.takeWhile (fun c => c != Char.ofNat 0)

/-- The function `StringCchCopy(dest, cchDest, src)`: the content of `dest` afterwards, which is
`src` truncated to `cchDest - 1` characters. -/
def StringCchCopy (cchDest : Nat) (src : WString) : WString := src.take (cchDest - 1)

/-! ## Items, configuration, results -/

/-- The fields of `ShellBrowser::ItemInfo_t` read by the list view code. -/
structure ItemInfo_t where
  pidlComplete : PIDL
  wfd : WIN32_FIND_DATA
  parsingName : WString
  editingName : WString
deriving DecidableEq, Repr

/-- The copy of an item that a background job carries (`BasicItemInfo_t`). -/
structure BasicItemInfo_t where
  pidlComplete : PIDL
  wfd : WIN32_FIND_DATA
deriving DecidableEq, Repr

/-- The enumeration `InfoTipType`. -/
inductive InfoTipType where
  | System
  | Custom
deriving DecidableEq, Repr

/-- The enumeration `ViewMode`. -/
inductive ViewMode where
  | ExtraLargeIcons
  | LargeIcons
  | Icons
  | SmallIcons
  | List
  | Details
  | Tiles
  | Thumbnails
deriving DecidableEq, Repr

/-- The enumeration `ColumnType`, by its numeric value. -/
abbrev ColumnType := Nat

/-- The part of `GlobalFolderSettings` read by the list view code. -/
structure GlobalFolderSettings where
  showFriendlyDates : Bool
  showExtensions : Bool
  hideLinkExtension : Bool
deriving DecidableEq, Repr

/-- The part of `Config` read by the code embedded here. -/
structure Config where
  showInfoTips : Bool
  infoTipType : InfoTipType
  openTabsInForeground : Bool
  checkBoxSelection : Bool
  handleZipFiles : Bool
  alwaysOpenNewTab : Bool
  globalFolderSettings : GlobalFolderSettings
deriving DecidableEq, Repr

/-- The structure `ShellBrowser::InfoTipResult`. -/
structure InfoTipResult where
  itemInternalIndex : Int
  infoTip : WString
deriving DecidableEq, Repr

/-- The values captured by the lambda that `QueueInfoTipTask` pushes to the thread pool
(`this` is not a copy; the lambda reads `m_hListView` and `m_hResourceModule` through it when it
runs). -/
structure InfoTipTask where
  infoTipResultId : Int
  internalIndex : Int
  basicItemInfo : BasicItemInfo_t
  configCopy : Config
  virtualFolder : Bool
  existingInfoTip : WString
deriving DecidableEq, Repr

/-- A `std::future<std::optional<InfoTipResult>>`: the job has not run yet, or it has returned. -/
inductive InfoTipFuture where
  | pending (task : InfoTipTask)
  | ready (value : Option InfoTipResult)
deriving DecidableEq, Repr

/-- The messages `ListViewProc` dispatches on. -/
inductive UMsg where
  | WM_MBUTTONDOWN
  | WM_MBUTTONUP
  | WM_RBUTTONDOWN
  | WM_CLIPBOARDUPDATE
  | WM_TIMER
  | WM_NOTIFY
  | WM_APP_COLUMN_RESULT_READY
  | WM_APP_THUMBNAIL_RESULT_READY
  | WM_APP_INFO_TIP_READY
  | WM_APP_SHELL_NOTIFY
  | other (code : Nat)
deriving DecidableEq, Repr

/-- A message posted to a window with `PostMessage`. -/
structure PostedMessage where
  hwnd : HWND
  uMsg : UMsg
  wParam : Nat
  lParam : Int
deriving DecidableEq, Repr

/-- Win32 `LVITEM`, the fields used here. -/
structure LVITEM where
  mask : Nat
  iItem : Int
  iSubItem : Int
  state : Nat
  stateMask : Nat
  iImage : Int
  lParam : Int
deriving DecidableEq, Repr

/-- One row of the list-view control: the application value `lParam` (the internal index of the
item shown), its image, its state bits and the text of its info tip. -/
structure ListViewRow where
  lParam : Int
  iImage : Int
  state : Nat
  infoTip : WString
deriving DecidableEq, Repr

/-- A mutating message sent to the list-view control. -/
inductive ListViewCall where
  | SetItem (item : LVITEM)
  | SetInfoTip (iItem : Int) (iSubItem : Int) (pszText : WString)
  | SetItemState (iItem : Int) (data : Nat) (mask : Nat)
deriving DecidableEq, Repr

/-- An entry of the icon cache (`CachedIcon`). -/
structure CachedIcon where
  filePath : WString
  iconIndex : Int
deriving DecidableEq, Repr

/-- A job handed to `IconFetcher::QueueIconTask`: the item and the internal index captured by the
callback, which calls `ProcessIconResult(internalIndex, iconIndex)`. -/
structure IconTask where
  pidl : PIDL
  internalIndex : Int
deriving DecidableEq, Repr

/-- The part of `m_directoryState` read here. -/
structure DirectoryState where
  virtualFolder : Bool
deriving DecidableEq, Repr

/-- The part of `m_folderSettings` read here. -/
structure FolderSettings where
  viewMode : ViewMode
  showInGroups : Bool
deriving DecidableEq, Repr

/-- The state of a `ShellBrowser` together with the windows it owns: the rows of `m_hListView`,
the log of mutating calls made on it, the messages posted so far, and the tabs created through
`m_tabNavigation->CreateNewTab(pidl, switchToNewTab)`. -/
structure ShellBrowser where
  m_hListView : HWND
  m_hResourceModule : HINSTANCE
  listView : List ListViewRow
  listViewCalls : List ListViewCall
  postedMessages : List PostedMessage
  m_config : Config
  m_directoryState : DirectoryState
  m_folderSettings : FolderSettings
  m_itemInfoMap : List (Int × ItemInfo_t)
  m_infoTipResultIDCounter : Int
  m_infoTipResults : List (Int × InfoTipFuture)
  m_cachedIcons : List CachedIcon
  m_iFolderIcon : Int
  m_iFileIcon : Int
  m_getDragImageMessage : Nat
  m_middleButtonItem : Int
  iconTasks : List IconTask
  columnTasks : List (Int × ColumnType)
  thumbnailTasks : List Int
  createdTabs : List (PIDL × Bool)
deriving DecidableEq, Repr

/-- String resources named in the code. -/
inductive StringResource where
  | IDS_GENERAL_DATEMODIFIED
deriving DecidableEq, Repr

/-- The external lookups a job performs. `GetItemInfoTip` returns the `HRESULT` and the text;
`LoadString instance id cch` returns the content of the buffer afterwards;
`CreateFileTimeString ft cch friendly` returns the buffer when it succeeds. -/
structure Shell where
  GetItemInfoTip : PIDL → Int × WString
  LoadString : HINSTANCE → StringResource → Nat → WString
  CreateFileTimeString : FILETIME → Nat → Bool → Option WString

/-- The macro `FAILED(hr)`. -/
def FAILED (hr : Int) : Bool := decide (hr < 0)

/-- What a C++ call can throw here. -/
inductive Exception where
  | out_of_range
  | runtime_error
  | assertion_failed
deriving DecidableEq, Repr

/-- The outcome of a member function that may throw: the state it leaves and either its return
value or the exception. -/
inductive Outcome (α : Type) where
  | returned (s : ShellBrowser) (value : α)
  | threw (s : ShellBrowser) (what : Exception)
deriving DecidableEq, Repr

/-- The state an outcome leaves behind. -/
def Outcome.state {α : Type} : Outcome α → ShellBrowser
  | .returned s _ => s
  | .threw s _ => s

/-! ## Maps keyed by `int` -/

/-- The call `m.find(key)`: the mapped value if the key is present. -/
def mapFind {β : Type} (m : List (Int × β)) (key : Int) : Option β :=
  match m with
  | [] => none
  | (k, v) :: rest => if k = key then some v else mapFind rest key

/-- The call `m.erase(itr)` for the entry of `key` (keys of a map are unique). -/
def mapErase {β : Type} (m : List (Int × β)) (key : Int) : List (Int × β) :=
  match m with
  | [] => []
  | (k, v) :: rest => if k = key then mapErase rest key else (k, v) :: mapErase rest key

/-- The call `m.insert({key, value})`: nothing is inserted when the key is already present. -/
def mapInsert {β : Type} (m : List (Int × β)) (key : Int) (value : β) : List (Int × β) :=
  match mapFind m key with
  | some _ => m
  | none => m ++ [(key, value)]

/-- Replacement of the value stored for `key` (a future becoming ready). -/
def mapSet {β : Type} (m : List (Int × β)) (key : Int) (value : β) : List (Int × β) :=
  match m with
  | [] => []
  | (k, v) :: rest =>
    if k = key then (k, value) :: mapSet rest key value else (k, v) :: mapSet rest key value

/-! ## The list-view control -/

/-- Application of `f` to row `i`, if there is one. -/
def updateRow (rows : List ListViewRow) (i : Nat) (f : ListViewRow → ListViewRow) :
    List ListViewRow :=
  match rows, i with
  | [], _ => []
  | r :: rest, 0 => f r :: rest
  | r :: rest, n + 1 => r :: updateRow rest n f

/-- Position of the first row whose `lParam` is `internalIndex`. -/
def locateRow (rows : List ListViewRow) (internalIndex : Int) : Option Nat :=
  match rows with
  | [] => none
  | r :: rest =>
    if r.lParam = internalIndex then some 0 else (locateRow rest internalIndex).map (· + 1)

/-- Modelled from the spec: `locateRowFor(internalIndex) -> optional row position` of the item
registry. `ShellBrowser::LocateItemByInternalIndex` is declared in the repository but its body is
not among the source files; it is taken to search the rows of the list view for the one whose
`lParam` is the internal index. -/
def LocateItemByInternalIndex (s : ShellBrowser) (internalIndex : Int) : Option Nat :=
  locateRow s.listView internalIndex

/-- The message `ListView_SetItem`: for a row that exists, the image is replaced when the mask has
`LVIF_IMAGE`, and the state bits selected by `stateMask` are replaced when it has `LVIF_STATE`.
The call is logged. -/
def ListView_SetItem (s : ShellBrowser) (lvItem : LVITEM) : ShellBrowser :=
  { s with
    listViewCalls := s.listViewCalls ++ [ListViewCall.SetItem lvItem]
    listView :=
      if lvItem.iItem < 0 then s.listView
      else updateRow s.listView lvItem.iItem.toNat (fun r =>
        { r with
          iImage := if lvItem.mask &&& LVIF_IMAGE = LVIF_IMAGE then lvItem.iImage else r.iImage
          state :=
            if lvItem.mask &&& LVIF_STATE = LVIF_STATE then
              (r.state &&& (4294967295 ^^^ lvItem.stateMask)) ||| (lvItem.state &&& lvItem.stateMask)
            else r.state }) }

/-- The message `ListView_SetInfoTip`: the text becomes the info tip of the row. The call is
logged. -/
def ListView_SetInfoTip (s : ShellBrowser) (iItem iSubItem : Int) (pszText : WString) :
    ShellBrowser :=
  { s with
    listViewCalls := s.listViewCalls ++ [ListViewCall.SetInfoTip iItem iSubItem pszText]
    listView :=
      if iItem < 0 then s.listView
      else updateRow s.listView iItem.toNat (fun r => { r with infoTip := pszText }) }

/-! ## Icons -/

/-- The function `ShellBrowser::ProcessIconResult`. -/
def ProcessIconResult (s : ShellBrowser) (internalIndex iconIndex : Int) : ShellBrowser :=
  match LocateItemByInternalIndex s internalIndex with
  | none => s
  | some index =>
    ListView_SetItem s
      { mask := LVIF_IMAGE ||| LVIF_STATE
        iItem := (index : Int)
        iSubItem := 0
        iImage := iconIndex
        stateMask := LVIS_OVERLAYMASK
        state := INDEXTOOVERLAYMASK (iconIndex >>> 24)
        lParam := 0 }

/-! ## Info tips -/

/-- Modelled from the spec: `get(internalIndex) -> Item`, which fails with `NotFound` for an index
that is retired or never existed. `ShellBrowser::getBasicItemInfo` is not among the source files;
it is taken to copy the entry of `m_itemInfoMap`, as `m_itemInfoMap.at(internalIndex)` does in
`GetItemByIndex`. -/
def getBasicItemInfo (s : ShellBrowser) (internalIndex : Int) : Option BasicItemInfo_t :=
  (mapFind s.m_itemInfoMap internalIndex).map
    (fun itemInfo => { pidlComplete := itemInfo.pidlComplete, wfd := itemInfo.wfd })

/-- Modelled from the spec: part of the view state a job snapshots at submission.
`ShellBrowser::InVirtualFolder` is not among the source files; it is taken to return the flag
`m_directoryState.virtualFolder`, which `OnListViewEndLabelEdit` reads directly. -/
def InVirtualFolder (s : ShellBrowser) : Bool := s.m_directoryState.virtualFolder

/-- The function `ShellBrowser::GetInfoTipAsync`: the messages it posts and its return value. -/
def GetInfoTipAsync (shell : Shell) (listView : HWND) (infoTipResultId internalIndex : Int)
    (basicItemInfo : BasicItemInfo_t) (config : Config) (hInstance : HINSTANCE)
    (virtualFolder : Bool) : List PostedMessage × Option InfoTipResult :=
  let infoTip : Option WString :=
    if config.infoTipType = InfoTipType.System ∨ virtualFolder = true then
      let hr := (shell.GetItemInfoTip basicItemInfo.pidlComplete).1
      let infoTipText := (shell.GetItemInfoTip basicItemInfo.pidlComplete).2
      if FAILED hr then none else some infoTipText
    else
      let dateModified := shell.LoadString hInstance StringResource.IDS_GENERAL_DATEMODIFIED 64
      match shell.CreateFileTimeString basicItemInfo.wfd.ftLastWriteTime 256
          config.globalFolderSettings.showFriendlyDates with
      | none => none
      | some fileModificationText => some (dateModified ++ [':', ' '] ++ fileModificationText)
  match infoTip with
  | none => ([], none)
  | some text =>
    ([{ hwnd := listView, uMsg := UMsg.WM_APP_INFO_TIP_READY,
        wParam := toWPARAM infoTipResultId, lParam := 0 }],
     some { itemInternalIndex := internalIndex, infoTip := text })

/-- The body of the lambda pushed by `QueueInfoTipTask`, run on a worker thread while the
browser is in state `this`: the messages posted and the value returned. -/
def runInfoTipTask (shell : Shell) (this : ShellBrowser) (t : InfoTipTask) :
    List PostedMessage × Option InfoTipResult :=
  let r := GetInfoTipAsync shell this.m_hListView t.infoTipResultId t.internalIndex
    t.basicItemInfo t.configCopy this.m_hResourceModule t.virtualFolder
  match r.2 with
  | some result =>
    if t.existingInfoTip ≠ [] then
      (r.1, some { result with
        infoTip := t.existingInfoTip ++ [Char.ofNat 10] ++ result.infoTip })
    else (r.1, some result)
  | none => (r.1, none)

/-- The function `ShellBrowser::QueueInfoTipTask`. The counter is advanced before
`getBasicItemInfo` can throw. -/
def QueueInfoTipTask (s : ShellBrowser) (internalIndex : Int) (existingInfoTip : WString) :
    Outcome Unit :=
  let infoTipResultId := s.m_infoTipResultIDCounter
  let s1 := { s with m_infoTipResultIDCounter := toInt32 (s.m_infoTipResultIDCounter + 1) }
  match getBasicItemInfo s1 internalIndex with
  | none => Outcome.threw s1 Exception.out_of_range
  | some basicItemInfo =>
    let configCopy := s1.m_config
    let virtualFolder := InVirtualFolder s1
    let result := InfoTipFuture.pending
      { infoTipResultId := infoTipResultId
        internalIndex := internalIndex
        basicItemInfo := basicItemInfo
        configCopy := configCopy
        virtualFolder := virtualFolder
        existingInfoTip := existingInfoTip }
    Outcome.returned
      { s1 with m_infoTipResults := mapInsert s1.m_infoTipResults infoTipResultId result } ()

/-- A worker thread of `m_infoTipsThreadPool` runs the job queued under `infoTipResultId`: the
messages of the job are posted and its future becomes ready. -/
def workerRunInfoTipTask (shell : Shell) (s : ShellBrowser) (infoTipResultId : Int) :
    ShellBrowser :=
  match mapFind s.m_infoTipResults infoTipResultId with
  | some (InfoTipFuture.pending t) =>
    { s with
      postedMessages := s.postedMessages ++ (runInfoTipTask shell s t).1
      m_infoTipResults :=
        mapSet s.m_infoTipResults infoTipResultId
          (InfoTipFuture.ready (runInfoTipTask shell s t).2) }
  | _ => s

/-- The call `future.get()`: a ready future yields its value; on a pending one the caller waits
until the worker has run the job, so the job runs (and posts) first. -/
def InfoTipFuture.get (shell : Shell) (this : ShellBrowser) :
    InfoTipFuture → List PostedMessage × Option InfoTipResult
  | InfoTipFuture.pending t => runInfoTipTask shell this t
  | InfoTipFuture.ready value => ([], value)

/-- The function `ShellBrowser::ProcessInfoTipResult`. -/
def ProcessInfoTipResult (shell : Shell) (s : ShellBrowser) (infoTipResultId : Int) :
    ShellBrowser :=
  match mapFind s.m_infoTipResults infoTipResultId with
  | none => s
  | some itr =>
    let result := (itr.get shell s).2
    let s1 := { s with
      postedMessages := s.postedMessages ++ (itr.get shell s).1
      m_infoTipResults := mapErase s.m_infoTipResults infoTipResultId }
    match result with
    | none => s1
    | some r =>
      match LocateItemByInternalIndex s1 r.itemInternalIndex with
      | none => s1
      | some index => ListView_SetInfoTip s1 (index : Int) 0 (StringCchCopy 256 (c_str r.infoTip))

/-- The info-tip result that `ProcessInfoTipResult` obtains for `infoTipResultId` in state `s`, if
the id has an entry and its job produced one. -/
def infoTipResultOf (shell : Shell) (s : ShellBrowser) (infoTipResultId : Int) :
    Option InfoTipResult :=
  (mapFind s.m_infoTipResults infoTipResultId).bind (fun itr => (itr.get shell s).2)

/-- The external lookup of an info-tip job fails: `GetItemInfoTip` returns a failure code in the
branch for system info tips and virtual folders, or `CreateFileTimeString` fails in the branch
for the modification date. -/
def lookupFails (shell : Shell) (basicItemInfo : BasicItemInfo_t) (config : Config)
    (virtualFolder : Bool) : Bool :=
  if config.infoTipType = InfoTipType.System ∨ virtualFolder = true then
    FAILED (shell.GetItemInfoTip basicItemInfo.pidlComplete).1
  else
    (shell.CreateFileTimeString basicItemInfo.wfd.ftLastWriteTime 256
      config.globalFolderSettings.showFriendlyDates).isNone

/-- The id has a job that has not run yet, the job carries that id, and its lookup succeeds. -/
def pendingJobSucceeds (shell : Shell) (s : ShellBrowser) (infoTipResultId : Int) : Bool :=
  match mapFind s.m_infoTipResults infoTipResultId with
  | some (InfoTipFuture.pending t) =>
    decide (t.infoTipResultId = infoTipResultId)
      && !(lookupFails shell t.basicItemInfo t.configCopy t.virtualFolder)
  | _ => false

/-- The message a successful info-tip job posts to the list view. -/
def infoTipReadyMessage (listView : HWND) (infoTipResultId : Int) : PostedMessage :=
  { hwnd := listView, uMsg := UMsg.WM_APP_INFO_TIP_READY, wParam := toWPARAM infoTipResultId,
    lParam := 0 }

/-- The call `ProcessInfoTipResult` makes on the list view for `infoTipResultId` in state `s`:
`ListView_SetInfoTip` on the row of the result, if there is a result and its index resolves. -/
def infoTipCallFor (shell : Shell) (s : ShellBrowser) (infoTipResultId : Int) :
    Option ListViewCall :=
  (infoTipResultOf shell s infoTipResultId).bind (fun r =>
    (LocateItemByInternalIndex s r.itemInternalIndex).map (fun index =>
      ListViewCall.SetInfoTip (index : Int) 0 (StringCchCopy 256 (c_str r.infoTip))))

/-- Results processed one after the other, in the order of the list. -/
def processInfoTipResults (shell : Shell) (s : ShellBrowser) (ids : List Int) : ShellBrowser :=
  ids.foldl (ProcessInfoTipResult shell) s

/-- Icon results `(internalIndex, iconIndex)` delivered one after the other to
`ProcessIconResult`, in the order of the list. -/
def processIconResults (s : ShellBrowser) (results : List (Int × Int)) : ShellBrowser :=
  results.foldl (fun st r => ProcessIconResult st r.1 r.2) s

/-- Jobs run by the worker one after the other, in the order of the list. -/
def workerRunInfoTipTasks (shell : Shell) (s : ShellBrowser) (ids : List Int) : ShellBrowser :=
  ids.foldl (workerRunInfoTipTask shell) s

/-- The events that act on the info-tip table and the rows: a call of `QueueInfoTipTask`, a
worker running a queued job, and the delivery of an info-tip or icon result. -/
inductive BrowserEvent where
  | queueInfoTip (internalIndex : Int) (existingInfoTip : WString)
  | workerRuns (infoTipResultId : Int)
  | infoTipReady (infoTipResultId : Int)
  | iconReady (internalIndex : Int) (iconIndex : Int)
deriving DecidableEq, Repr

/-- The state after one event. -/
def applyEvent (shell : Shell) (s : ShellBrowser) : BrowserEvent → ShellBrowser
  | BrowserEvent.queueInfoTip internalIndex existingInfoTip =>
    (QueueInfoTipTask s internalIndex existingInfoTip).state
  | BrowserEvent.workerRuns infoTipResultId => workerRunInfoTipTask shell s infoTipResultId
  | BrowserEvent.infoTipReady infoTipResultId => ProcessInfoTipResult shell s infoTipResultId
  | BrowserEvent.iconReady internalIndex iconIndex => ProcessIconResult s internalIndex iconIndex

/-- The state after a sequence of events, in the order of the list. -/
def applyEvents (shell : Shell) (s : ShellBrowser) (events : List BrowserEvent) : ShellBrowser :=
  events.foldl (applyEvent shell) s

/-- Changes made to a browser after a job was submitted: the item map, the live configuration,
the directory state and the rows are replaced. -/
def changedAfterSubmission (s : ShellBrowser) (items : List (Int × ItemInfo_t))
    (config : Config) (directoryState : DirectoryState) (rows : List ListViewRow) :
    ShellBrowser :=
  { s with
    m_itemInfoMap := items
    m_config := config
    m_directoryState := directoryState
    listView := rows }

/-! ## Display information -/

/-- Win32 `POINT`. -/
structure POINT where
  x : Int
  y : Int
deriving DecidableEq, Repr

/-- Win32 `LV_HITTESTINFO` as `ListView_HitTest` fills it: the flags and the item hit. -/
structure LV_HITTESTINFO where
  flags : Nat
  iItem : Int
deriving DecidableEq, Repr

/-- Member functions called by the handlers below whose bodies are not among the source files,
and the hit test of the list-view control, which depends on its layout. -/
structure Helpers where
  GetColumnTypeByIndex : ShellBrowser → Int → Option ColumnType
  GetCachedThumbnailIndex : ShellBrowser → ItemInfo_t → Option Int
  GetIconThumbnail : ShellBrowser → Int → Int
  otherMessage : ShellBrowser → UMsg → Nat → Int → ShellBrowser
  ListView_HitTest : ShellBrowser → POINT → LV_HITTESTINFO

/-- Modelled from the spec: `submit(job)` of the task queue. `IconFetcher::QueueIconTask` is not
among the source files; the job is recorded with the item and the internal index that the
callback captures. -/
def QueueIconTask (s : ShellBrowser) (pidl : PIDL) (internalIndex : Int) : ShellBrowser :=
  { s with iconTasks := s.iconTasks ++ [{ pidl := pidl, internalIndex := internalIndex }] }

/-- Modelled from the spec: `submit(job)` of the task queue. `ShellBrowser::QueueColumnTask` is
not among the source files; the job is recorded with its item and column. -/
def QueueColumnTask (s : ShellBrowser) (internalIndex : Int) (columnType : ColumnType) :
    ShellBrowser :=
  { s with columnTasks := s.columnTasks ++ [(internalIndex, columnType)] }

/-- Modelled from the spec: `submit(job)` of the task queue. `ShellBrowser::QueueThumbnailTask` is
not among the source files; the job is recorded with its item. -/
def QueueThumbnailTask (s : ShellBrowser) (internalIndex : Int) : ShellBrowser :=
  { s with thumbnailTasks := s.thumbnailTasks ++ [internalIndex] }

/-- Modelled from the spec: the "small LRU-style cache keyed by item identity". The container
`CachedIcons` is not among the source files; `m_cachedIcons->findByPath(path)` is taken to yield
the first cache entry stored for the path, or `end()` when there is none. -/
def findByPath (cache : List CachedIcon) (path : WString) : Option CachedIcon :=
  cache.find? (fun c => decide (c.filePath = path))

/-- The function `ShellBrowser::GetCachedIconIndex`. -/
def GetCachedIconIndex (s : ShellBrowser) (itemInfo : ItemInfo_t) : Option Int :=
  match findByPath s.m_cachedIcons itemInfo.parsingName with
  | none => none
  | some cachedItr => some cachedItr.iconIndex

/-- The function `ShellBrowser::OnListViewGetDisplayInfo`, on the `LVITEM` of the notification;
the value returned is the `LVITEM` as the handler leaves it. `m_itemInfoMap.at` throws
`std::out_of_range` for a missing index and `assert(columnType)` fails for a missing column. -/
def OnListViewGetDisplayInfo (h : Helpers) (s : ShellBrowser) (plvItem : LVITEM) :
    Outcome LVITEM :=
  let internalIndex := toInt32 plvItem.lParam
  if s.m_folderSettings.viewMode = ViewMode.Thumbnails
      ∧ plvItem.mask &&& LVIF_IMAGE = LVIF_IMAGE then
    match mapFind s.m_itemInfoMap internalIndex with
    | none => Outcome.threw s Exception.out_of_range
    | some itemInfo =>
      let iImage :=
        match h.GetCachedThumbnailIndex s itemInfo with
        | some cachedThumbnailIndex => cachedThumbnailIndex
        | none => h.GetIconThumbnail s internalIndex
      Outcome.returned (QueueThumbnailTask s internalIndex)
        { plvItem with iImage := iImage, mask := plvItem.mask ||| LVIF_DI_SETITEM }
  else
    let afterColumn : Outcome Unit :=
      if s.m_folderSettings.viewMode = ViewMode.Details
          ∧ plvItem.mask &&& LVIF_TEXT = LVIF_TEXT then
        match h.GetColumnTypeByIndex s plvItem.iSubItem with
        | none => Outcome.threw s Exception.assertion_failed
        | some columnType => Outcome.returned (QueueColumnTask s internalIndex columnType) ()
      else Outcome.returned s ()
    match afterColumn with
    | Outcome.threw s1 what => Outcome.threw s1 what
    | Outcome.returned s1 _ =>
      if plvItem.mask &&& LVIF_IMAGE = LVIF_IMAGE then
        match mapFind s1.m_itemInfoMap internalIndex with
        | none => Outcome.threw s1 Exception.out_of_range
        | some itemInfo =>
          let iImage :=
            match GetCachedIconIndex s1 itemInfo with
            | some cachedIconIndex => bitand32 cachedIconIndex 0x0FFF
            | none =>
              if itemInfo.wfd.dwFileAttributes &&& FILE_ATTRIBUTE_DIRECTORY
                  = FILE_ATTRIBUTE_DIRECTORY then s1.m_iFolderIcon
              else s1.m_iFileIcon
          Outcome.returned (QueueIconTask s1 itemInfo.pidlComplete internalIndex)
            { plvItem with iImage := iImage, mask := plvItem.mask ||| LVIF_DI_SETITEM }
      else
        Outcome.returned s1 { plvItem with mask := plvItem.mask ||| LVIF_DI_SETITEM }

/-! ## Middle clicks -/

/-- `LVHT_NOWHERE`. -/
def LVHT_NOWHERE : Nat := 0x1

/-- `LVHT_ONITEMLABEL`. -/
def LVHT_ONITEMLABEL : Nat := 0x4

/-- `LVIS_FOCUSED`. -/
def LVIS_FOCUSED : Nat := 0x1

/-- `MK_SHIFT`. -/
def MK_SHIFT : Nat := 0x4

/-- Narrowing of an integer value to `SHORT`: the low 16 bits, read as two's complement. -/
def toInt16 (i : Int) : Int := (i + 32768) % 65536 - 32768

/-- The point `POINTSTOPOINT(pt, MAKEPOINTS(lParam))`: the low word and the high word of
`lParam`, each as a `SHORT`. -/
def MAKEPOINTS (lParam : Int) : POINT := { x := toInt16 lParam, y := toInt16 (lParam >>> 16) }

/-- The macro `ListView_SetItemState(hwnd, i, data, mask)`: the state bits selected by `mask` are
replaced in row `i`, or in every row when `i` is -1. The call is logged. -/
def ListView_SetItemState (s : ShellBrowser) (i : Int) (data mask : Nat) : ShellBrowser :=
  { s with
    listViewCalls := s.listViewCalls ++ [ListViewCall.SetItemState i data mask]
    listView :=
      if i = -1 then
        s.listView.map (fun r =>
          { r with state := (r.state &&& (4294967295 ^^^ mask)) ||| (data &&& mask) })
      else if i < 0 then s.listView
      else updateRow s.listView i.toNat (fun r =>
        { r with state := (r.state &&& (4294967295 ^^^ mask)) ||| (data &&& mask) }) }

/-- The function `ShellBrowser::GetItemInternalIndex`: the `lParam` of the row, as an `int`; it
throws `std::runtime_error` when `ListView_GetItem` fails, which it does for an index that is
not a row. -/
def GetItemInternalIndex (s : ShellBrowser) (item : Int) : Except Exception Int :=
  if item < 0 then Except.error Exception.runtime_error
  else
    match s.listView[item.toNat]? with
    | some row => Except.ok (toInt32 row.lParam)
    | none => Except.error Exception.runtime_error

/-- The function `ShellBrowser::GetItemByIndex`; `m_itemInfoMap.at` throws `std::out_of_range`
for a missing index. -/
def GetItemByIndex (s : ShellBrowser) (index : Int) : Except Exception ItemInfo_t :=
  match GetItemInternalIndex s index with
  | Except.error what => Except.error what
  | Except.ok internalIndex =>
    match mapFind s.m_itemInfoMap internalIndex with
    | some itemInfo => Except.ok itemInfo
    | none => Except.error Exception.out_of_range

/-- The function `ShellBrowser::OnListViewMButtonDown`. -/
def OnListViewMButtonDown (h : Helpers) (s : ShellBrowser) (pt : POINT) : ShellBrowser :=
  let ht := h.ListView_HitTest s pt
  if ht.flags ≠ LVHT_NOWHERE ∧ ht.iItem ≠ -1 then
    ListView_SetItemState { s with m_middleButtonItem := ht.iItem } ht.iItem LVIS_FOCUSED
      LVIS_FOCUSED
  else { s with m_middleButtonItem := -1 }

/-- The function `ShellBrowser::OnListViewMButtonUp`; a tab created through
`m_tabNavigation->CreateNewTab(pidl, switchToNewTab)` is appended to `createdTabs`. -/
def OnListViewMButtonUp (h : Helpers) (s : ShellBrowser) (pt : POINT) (keysDown : Nat) :
    Outcome Unit :=
  let ht := h.ListView_HitTest s pt
  if ht.flags = LVHT_NOWHERE then Outcome.returned s ()
  else if ht.iItem ≠ s.m_middleButtonItem then Outcome.returned s ()
  else
    match GetItemByIndex s s.m_middleButtonItem with
    | Except.error what => Outcome.threw s what
    | Except.ok itemInfo =>
      if itemInfo.wfd.dwFileAttributes &&& (FILE_ATTRIBUTE_DIRECTORY ||| FILE_ATTRIBUTE_ARCHIVE)
          = 0 then Outcome.returned s ()
      else
        let switchToNewTab :=
          if keysDown &&& MK_SHIFT = MK_SHIFT then !s.m_config.openTabsInForeground
          else s.m_config.openTabsInForeground
        Outcome.returned
          { s with createdTabs := s.createdTabs ++ [(itemInfo.pidlComplete, switchToNewTab)] } ()

/-! ## The window procedure -/

/-- The function `ShellBrowser::ListViewProc`, as far as the state of the browser goes: the
middle-button messages and the info-tip message go to their handlers; the handlers of the other
messages are not embedded here and are the `otherMessage` helper. An exception of a handler
leaves the state the handler had reached. -/
def ListViewProc (shell : Shell) (h : Helpers) (s : ShellBrowser) (uMsg : UMsg) (wParam : Nat)
    (lParam : Int) : ShellBrowser :=
  if s.m_getDragImageMessage ≠ 0 ∧ uMsg = UMsg.other s.m_getDragImageMessage then s
  else
    match uMsg with
    | UMsg.WM_MBUTTONDOWN => OnListViewMButtonDown h s (MAKEPOINTS lParam)
    | UMsg.WM_MBUTTONUP =>
      (OnListViewMButtonUp h s (MAKEPOINTS lParam) (wParam % 4294967296)).state
    | UMsg.WM_APP_INFO_TIP_READY => ProcessInfoTipResult shell s (wparamToInt wParam)
    | m => h.otherMessage s m wParam lParam

/-- The message loop delivers posted messages to `ListViewProc`, in the order of the list. -/
def dispatchMessages (shell : Shell) (h : Helpers) (s : ShellBrowser)
    (msgs : List PostedMessage) : ShellBrowser :=
  msgs.foldl (fun st m => ListViewProc shell h st m.uMsg m.wParam m.lParam) s

/-! ## View generations -/

/-- Modelled from the spec: the `viewGeneration` stamp, "incremented whenever the view is
cleared/reset, e.g. on navigation to a new folder". The source keeps no such value; it is carried
next to the browser state. -/
structure View where
  browser : ShellBrowser
  viewGeneration : Nat
deriving DecidableEq, Repr

/-- Modelled from the spec: a view reset. The code that resets the view is not among the source
files; following the spec it advances `viewGeneration`, installs the rows and items of the new
folder, and leaves jobs in flight ("stale jobs are left to run to completion"). -/
def View.reset (v : View) (rows : List ListViewRow) (items : List (Int × ItemInfo_t)) : View :=
  { browser := { v.browser with listView := rows, m_itemInfoMap := items }
    viewGeneration := v.viewGeneration + 1 }

/-! ## Sample data -/

/-- A shell in which item 0 has no info tip (the lookup fails with `E_FAIL`), every other item
has the info tip `tip`, and a file time formats only when its high part is not zero. -/
def sampleShell : Shell where
  GetItemInfoTip := fun pidl => if pidl = 0 then (-2147467259, []) else (0, ['t', 'i', 'p'])
  LoadString := fun _ _ _ => ['D', 'a', 't', 'e']
  CreateFileTimeString := fun ft _ _ =>
    if ft.dwHighDateTime = 0 then none else some ['n', 'o', 'w']

/-- Helpers for a browser with a single column; the handlers of other messages do nothing, and
a point hits the row whose number is its `y`. -/
def sampleHelpers : Helpers where
  GetColumnTypeByIndex := fun _ i => if i = 0 then some 0 else none
  GetCachedThumbnailIndex := fun _ _ => none
  GetIconThumbnail := fun _ _ => 0
  otherMessage := fun s _ _ _ => s
  ListView_HitTest := fun s pt =>
    if 0 ≤ pt.y ∧ pt.y < s.listView.length then { flags := LVHT_ONITEMLABEL, iItem := pt.y }
    else { flags := LVHT_NOWHERE, iItem := -1 }

/-- A sample item: a file or a directory with the given id list and path. -/
def sampleItem (pidl : PIDL) (attributes : Nat) (path : WString) : ItemInfo_t :=
  { pidlComplete := pidl
    wfd :=
      { dwFileAttributes := attributes
        ftLastWriteTime := { dwLowDateTime := 0, dwHighDateTime := 1 }
        nFileSizeHigh := 0
        nFileSizeLow := 0
        cFileName := path }
    parsingName := path
    editingName := path }

/-- A sample browser showing the given rows and items in icon view, with system info tips and
nothing queued. -/
def sampleBrowser (rows : List ListViewRow) (items : List (Int × ItemInfo_t)) : ShellBrowser where
  m_hListView := 100
  m_hResourceModule := 200
  listView := rows
  listViewCalls := []
  postedMessages := []
  m_config :=
    { showInfoTips := true, infoTipType := InfoTipType.System, openTabsInForeground := false,
      checkBoxSelection := false, handleZipFiles := false, alwaysOpenNewTab := false,
      globalFolderSettings :=
        { showFriendlyDates := true, showExtensions := true, hideLinkExtension := false } }
  m_directoryState := { virtualFolder := false }
  m_folderSettings := { viewMode := ViewMode.Icons, showInGroups := false }
  m_itemInfoMap := items
  m_infoTipResultIDCounter := 0
  m_infoTipResults := []
  m_cachedIcons := []
  m_iFolderIcon := 3
  m_iFileIcon := 4
  m_getDragImageMessage := 0
  m_middleButtonItem := -1
  iconTasks := []
  columnTasks := []
  thumbnailTasks := []
  createdTabs := []

/-- A row showing the item with the given internal index, with the default file icon and no
info tip yet. -/
def sampleRow (internalIndex : Int) : ListViewRow where
  lParam := internalIndex
  iImage := 4
  state := 0
  infoTip := []

/-! ## Scenarios -/

/-- Two info-tip jobs for the item with internal index 5, queued one after the other with the
existing texts `A` and `B` (result ids 0 and 1), both run by the worker. -/
def twoJobsForOneRow : ShellBrowser :=
  workerRunInfoTipTasks sampleShell
    (QueueInfoTipTask
      (QueueInfoTipTask (sampleBrowser [sampleRow 5] [(5, sampleItem 9 0 ['a'])]) 5 ['A']).state
      5 ['B']).state
    [0, 1]

/-- The `LVITEM` of a display-info request for the image of the row that shows the item with the
given internal index. -/
def imageRequest (internalIndex : Int) : LVITEM :=
  { mask := LVIF_IMAGE, iItem := 0, iSubItem := 0, state := 0, stateMask := 0, iImage := 0,
    lParam := internalIndex }

/-- Generation 1 of a view: the item with internal index 7 is shown, its icon has been requested
and an info-tip job for it has been queued (result id 0) and run. -/
def generationOne : View :=
  { browser :=
      workerRunInfoTipTask sampleShell
        (QueueInfoTipTask
          (OnListViewGetDisplayInfo sampleHelpers
            (sampleBrowser [sampleRow 7] [(7, sampleItem 9 0 ['o', 'l', 'd'])])
            (imageRequest 7)).state
          7 []).state
        0
    viewGeneration := 1 }

/-- Generation 2: the view was reset and now shows another item under internal index 7. -/
def generationTwo : View :=
  generationOne.reset [sampleRow 7] [(7, sampleItem 11 0 ['n', 'e', 'w'])]

/-- A browser in which an info-tip job (result id 0) was queued and run for the item with
internal index 7, after which the row of that item was removed; the row of item 5 remains. -/
def retiredIndexState : ShellBrowser :=
  { workerRunInfoTipTask sampleShell
      (QueueInfoTipTask
        (sampleBrowser [sampleRow 5, sampleRow 7]
          [(5, sampleItem 9 0 ['a']), (7, sampleItem 10 0 ['b'])])
        7 []).state
      0 with
    listView := [sampleRow 5] }

/-- A browser in which an info-tip job (result id 0) is queued for item 5, whose id list is 0, the
one for which the sample shell has no info tip. -/
def failingJobState : ShellBrowser :=
  (QueueInfoTipTask (sampleBrowser [sampleRow 5] [(5, sampleItem 0 0 ['a'])]) 5 ['A']).state

/-- A browser whose icon cache holds an icon, with overlay index 2, for the item shown. -/
def cachedIconBrowser : ShellBrowser :=
  { sampleBrowser [sampleRow 5] [(5, sampleItem 9 0 ['a'])] with
    m_cachedIcons := [{ filePath := ['a'], iconIndex := 0x02000007 }] }

/-- A browser showing a directory (index 5) and a file (index 6), with nothing cached. -/
def folderAndFileBrowser : ShellBrowser :=
  sampleBrowser [sampleRow 5, sampleRow 6]
    [(5, sampleItem 9 FILE_ATTRIBUTE_DIRECTORY ['d']), (6, sampleItem 10 0 ['f'])]

/-- A burst: info-tip jobs queued for the rows of items 5 and 6 (result ids 0 and 1), none of
them run yet. -/
def burstQueued : ShellBrowser :=
  (QueueInfoTipTask (QueueInfoTipTask folderAndFileBrowser 5 []).state 6 []).state

/-- The burst after the worker has completed both jobs and before any result is processed. -/
def burstCompleted : ShellBrowser :=
  workerRunInfoTipTasks sampleShell burstQueued [0, 1]

/-- A browser whose icon cache holds, for the item shown, the image index 4103 (`0x1007`) with
overlay index 2. -/
def largeIconIndexBrowser : ShellBrowser :=
  { sampleBrowser [sampleRow 5] [(5, sampleItem 9 0 ['a'])] with
    m_cachedIcons := [{ filePath := ['a'], iconIndex := 0x02001007 }] }

/-! ## Opening items (`MsgHandler.cpp`) -/

/-- The enumeration `OpenFolderDisposition`. -/
inductive OpenFolderDisposition where
  | CurrentTab
  | BackgroundTab
  | ForegroundTab
  | NewWindow
deriving DecidableEq, Repr

/-- The members of `Explorerplusplus` read by the code below. -/
structure Explorerplusplus where
  m_config : Config
  m_hContainer : HWND
deriving DecidableEq, Repr

/-- The function `Explorerplusplus::DetermineOpenDisposition`. -/
def DetermineOpenDisposition (app : Explorerplusplus)
    (isMiddleButtonDown isCtrlKeyDown isShiftKeyDown : Bool) : OpenFolderDisposition :=
  if isMiddleButtonDown || isCtrlKeyDown then
    if !isShiftKeyDown then
      if app.m_config.openTabsInForeground then OpenFolderDisposition.ForegroundTab
      else OpenFolderDisposition.BackgroundTab
    else
      if app.m_config.openTabsInForeground then OpenFolderDisposition.BackgroundTab
      else OpenFolderDisposition.ForegroundTab
  else if isShiftKeyDown then OpenFolderDisposition.NewWindow
  else OpenFolderDisposition.CurrentTab

/-- `SFGAO_FOLDER`. -/
def SFGAO_FOLDER : Nat := 0x20000000

/-- `SFGAO_STREAM`. -/
def SFGAO_STREAM : Nat := 0x00400000

/-- `SFGAO_LINK`. -/
def SFGAO_LINK : Nat := 0x00010000

/-- `CSIDL_CONTROLS`. -/
def CSIDL_CONTROLS : Nat := 0x0003

/-- `SHGDN_FORPARSING`. -/
def SHGDN_FORPARSING : Nat := 0x8000

/-- `MAX_PATH`. -/
def MAX_PATH : Nat := 260

/-- `SW_SHOWNORMAL`. -/
def SW_SHOWNORMAL : Nat := 1

/-- `S_OK`. -/
def S_OK : Int := 0

/-- `S_FALSE`. -/
def S_FALSE : Int := 1

/-- `E_FAIL`, as a signed 32-bit value. -/
def E_FAIL : Int := -2147467259

/-- The macro `SUCCEEDED(hr)`. -/
def SUCCEEDED (hr : Int) : Bool := decide (0 ≤ hr)

/-- `EMPTY_STRING`. -/
def EMPTY_STRING : WString := []

/-- The parsing name of the category view of the control panel, as given in the comment of
`OpenItem` (the constant `CONTROL_PANEL_CATEGORY_VIEW` is declared outside the source files). -/
def CONTROL_PANEL_CATEGORY_VIEW : WString :=
  "::\x7b26EE0668-A00A-44D7-9371-BEB064C98683\x7d".toList

/-- A test `(value & flag)` used as a condition. -/
def hasFlag (value flag : Nat) : Bool := decide (value &&& flag ≠ 0)

/-- The shell functions `OpenItem` calls. Each returns its `HRESULT` (where it has one) and its
output: `GetItemAttributes pidl mask` and `GetItemAttributesOfPath path mask` return the attributes
found; `ResolveLink hwnd flags linkFilename cch` returns the target path. -/
structure ShellNamespace where
  SHGetFolderLocation : Nat → Int × PIDL
  SHParseDisplayName : WString → Int × PIDL
  ILIsParent : PIDL → PIDL → Bool → Bool
  ArePidlsEquivalent : PIDL → PIDL → Bool
  GetItemAttributes : PIDL → Nat → Int × Nat
  GetItemAttributesOfPath : WString → Nat → Int × Nat
  GetDisplayName : PIDL → Nat → WString
  ResolveLink : HWND → Nat → WString → Nat → Int × WString
  ExpandEnvironmentStringsWrapper : WString → Option WString

/-- The calls by which `OpenItem` opens something. -/
inductive OpenItemCall where
  | OpenFolderItem (pidlItem : PIDL) (openFolderDisposition : OpenFolderDisposition)
  | OpenFileItem (pidlItem : PIDL) (szParameters : WString)
  | ShellExecute (hwnd : HWND) (lpOperation lpFile lpParameters : WString) (nShowCmd : Nat)
deriving DecidableEq, Repr

/-- The value of `bControlPanelParent` in `OpenItem`: the item is a child of the control panel, in
its icon view or in its category view. -/
def bControlPanelParent (ns : ShellNamespace) (pidlItem : PIDL) : Bool :=
  let controlPanel := ns.SHGetFolderLocation CSIDL_CONTROLS
  let first : Bool :=
    SUCCEEDED controlPanel.1
      && (ns.ILIsParent controlPanel.2 pidlItem false
        && !ns.ArePidlsEquivalent controlPanel.2 pidlItem)
  if !first then
    let categoryView := ns.SHParseDisplayName CONTROL_PANEL_CATEGORY_VIEW
    if SUCCEEDED categoryView.1
        && (ns.ILIsParent categoryView.2 pidlItem false
          && !ns.ArePidlsEquivalent categoryView.2 pidlItem) then true
    else first
  else first

/-- The branch of `OpenItem` for a shortcut: the final value of `hr` and the calls made before the
test `FAILED(hr)`. -/
def resolveShortcut (ns : ShellNamespace) (app : Explorerplusplus) (pidlItem : PIDL)
    (openFolderDisposition : OpenFolderDisposition) : Int × List OpenItemCall :=
  let itemPath := ns.GetDisplayName pidlItem SHGDN_FORPARSING
  let resolved := ns.ResolveLink app.m_hContainer 0 (c_str itemPath) MAX_PATH
  if resolved.1 = S_OK then
    let target := ns.GetItemAttributesOfPath resolved.2 (SFGAO_FOLDER ||| SFGAO_STREAM)
    if SUCCEEDED target.1 then
      if (hasFlag target.2 SFGAO_FOLDER && !hasFlag target.2 SFGAO_STREAM)
          || (hasFlag target.2 SFGAO_FOLDER && hasFlag target.2 SFGAO_STREAM
            && app.m_config.handleZipFiles) then
        let pidlTarget := ns.SHParseDisplayName resolved.2
        if SUCCEEDED pidlTarget.1 then
          (pidlTarget.1, [OpenItemCall.OpenFolderItem pidlTarget.2 openFolderDisposition])
        else (pidlTarget.1, [])
      else (E_FAIL, [])
    else (target.1, [])
  else (resolved.1, [])

/-- The function `Explorerplusplus::OpenItem(PCIDLIST_ABSOLUTE, OpenFolderDisposition)`: the
calls it makes, in order. -/
def OpenItem (ns : ShellNamespace) (app : Explorerplusplus) (pidlItem : PIDL)
    (openFolderDisposition : OpenFolderDisposition) : List OpenItemCall :=
  let controlPanelParent := bControlPanelParent ns pidlItem
  let attributes := ns.GetItemAttributes pidlItem (SFGAO_FOLDER ||| SFGAO_STREAM ||| SFGAO_LINK)
  let uAttributes := attributes.2
  if SUCCEEDED attributes.1 then
    if hasFlag uAttributes SFGAO_FOLDER && hasFlag uAttributes SFGAO_STREAM then
      if app.m_config.handleZipFiles then
        [OpenItemCall.OpenFolderItem pidlItem openFolderDisposition]
      else [OpenItemCall.OpenFileItem pidlItem EMPTY_STRING]
    else if hasFlag uAttributes SFGAO_FOLDER && !controlPanelParent then
      [OpenItemCall.OpenFolderItem pidlItem openFolderDisposition]
    else if hasFlag uAttributes SFGAO_LINK && !controlPanelParent then
      let shortcut := resolveShortcut ns app pidlItem openFolderDisposition
      if FAILED shortcut.1 then
        shortcut.2 ++ [OpenItemCall.OpenFileItem pidlItem EMPTY_STRING]
      else shortcut.2
    else if controlPanelParent && hasFlag uAttributes SFGAO_FOLDER then
      let parsingPath := ns.GetDisplayName pidlItem SHGDN_FORPARSING
      match ns.ExpandEnvironmentStringsWrapper "%windir%\\explorer.exe".toList with
      | some explorerPath =>
        [OpenItemCall.ShellExecute app.m_hContainer ['o', 'p', 'e', 'n'] (c_str explorerPath)
          (c_str parsingPath) SW_SHOWNORMAL]
      | none => []
    else [OpenItemCall.OpenFileItem pidlItem EMPTY_STRING]
  else []

/-- What `OpenFolderItem` does with a folder. -/
inductive OpenFolderAction where
  | BrowseFolder (pidlItem : PIDL)
  | CreateNewTab (pidlItem : PIDL) (selected : Bool)
  | OpenDirectoryInNewWindow (pidlItem : PIDL)
deriving DecidableEq, Repr

/-- The function `Explorerplusplus::OpenFolderItem`. -/
def OpenFolderItem (app : Explorerplusplus) (pidlItem : PIDL)
    (openFolderDisposition : OpenFolderDisposition) : OpenFolderAction :=
  let disposition :=
    if app.m_config.alwaysOpenNewTab
        && decide (openFolderDisposition = OpenFolderDisposition.CurrentTab) then
      OpenFolderDisposition.ForegroundTab
    else openFolderDisposition
  match disposition with
  | OpenFolderDisposition.CurrentTab => OpenFolderAction.BrowseFolder pidlItem
  | OpenFolderDisposition.BackgroundTab => OpenFolderAction.CreateNewTab pidlItem false
  | OpenFolderDisposition.ForegroundTab => OpenFolderAction.CreateNewTab pidlItem true
  | OpenFolderDisposition.NewWindow => OpenFolderAction.OpenDirectoryInNewWindow pidlItem

/-- A sample application with the configuration of the sample browser and the given setting for
zip files. -/
def sampleApp (handleZipFiles : Bool) : Explorerplusplus :=
  { m_config := { (sampleBrowser [] []).m_config with handleZipFiles := handleZipFiles }
    m_hContainer := 300 }

/-- A sample shell namespace. Nothing is a child of the control panel. Item 1 is a zip file
(folder and stream), item 2 a folder, every other item a shortcut; a shortcut resolves with the
given result to the path `t`, which is a folder and parses to item 2. -/
def sampleNamespace (resolveResult : Int) : ShellNamespace :=
  { SHGetFolderLocation := fun _ => (0, 50)
    SHParseDisplayName := fun _ => (0, 2)
    ILIsParent := fun _ _ _ => false
    ArePidlsEquivalent := fun _ _ => false
    GetItemAttributes := fun pidl _ =>
      if pidl = 1 then (0, SFGAO_FOLDER ||| SFGAO_STREAM)
      else if pidl = 2 then (0, SFGAO_FOLDER)
      else (0, SFGAO_LINK)
    GetItemAttributesOfPath := fun _ _ => (0, SFGAO_FOLDER)
    GetDisplayName := fun _ _ => ['l']
    ResolveLink := fun _ _ _ _ => (resolveResult, ['t'])
    ExpandEnvironmentStringsWrapper := fun _ => none }

/-! ## The header menu (`ShellBrowser/ListView.cpp`) -/

/-- The fields of `Column_t` used by the header menu. -/
structure Column_t where
  type : ColumnType
  bChecked : Bool
  iWidth : Int
deriving DecidableEq, Repr

/-- The enumerators of `ColumnType` named by the common-column lists. The enumeration is declared
outside the source files, so their values are taken as given (`Type_` stands for
`ColumnType::Type`). -/
structure ColumnTypeEnum where
  Name : ColumnType
  Type_ : ColumnType
  Size : ColumnType
  DateModified : ColumnType
  Authors : ColumnType
  Title : ColumnType
  VirtualComments : ColumnType
  TotalSize : ColumnType
  FreeSpace : ColumnType
  FileSystem : ColumnType
  NetworkAdaptorStatus : ColumnType
  Owner : ColumnType
  PrinterNumDocuments : ColumnType
  PrinterStatus : ColumnType
  PrinterComments : ColumnType
  PrinterLocation : ColumnType
  OriginalLocation : ColumnType
  DateDeleted : ColumnType
deriving DecidableEq, Repr

/-- `COMMON_REAL_FOLDER_COLUMNS`. -/
def COMMON_REAL_FOLDER_COLUMNS (c : ColumnTypeEnum) : List ColumnType :=
  [c.Name, c.Type_, c.Size, c.DateModified, c.Authors, c.Title]

/-- `COMMON_CONTROL_PANEL_COLUMNS`. -/
def COMMON_CONTROL_PANEL_COLUMNS (c : ColumnTypeEnum) : List ColumnType :=
  [c.Name, c.VirtualComments]

/-- `COMMON_MY_COMPUTER_COLUMNS`. -/
def COMMON_MY_COMPUTER_COLUMNS (c : ColumnTypeEnum) : List ColumnType :=
  [c.Name, c.Type_, c.TotalSize, c.FreeSpace, c.VirtualComments, c.FileSystem]

/-- `COMMON_NETWORK_CONNECTIONS_COLUMNS`. -/
def COMMON_NETWORK_CONNECTIONS_COLUMNS (c : ColumnTypeEnum) : List ColumnType :=
  [c.Name, c.Type_, c.NetworkAdaptorStatus, c.Owner]

/-- `COMMON_NETWORK_COLUMNS`. -/
def COMMON_NETWORK_COLUMNS (c : ColumnTypeEnum) : List ColumnType :=
  [c.Name, c.VirtualComments]

/-- `COMMON_PRINTERS_COLUMNS`. -/
def COMMON_PRINTERS_COLUMNS (c : ColumnTypeEnum) : List ColumnType :=
  [c.Name, c.PrinterNumDocuments, c.PrinterStatus, c.PrinterComments, c.PrinterLocation]

/-- `COMMON_RECYCLE_BIN_COLUMNS`. -/
def COMMON_RECYCLE_BIN_COLUMNS (c : ColumnTypeEnum) : List ColumnType :=
  [c.Name, c.OriginalLocation, c.DateDeleted, c.Size, c.Type_, c.DateModified]

/-- `CSIDL_DRIVES`. -/
def CSIDL_DRIVES : Nat := 0x0011

/-- `CSIDL_BITBUCKET`. -/
def CSIDL_BITBUCKET : Nat := 0x000a

/-- `CSIDL_CONNECTIONS`. -/
def CSIDL_CONNECTIONS : Nat := 0x0031

/-- `CSIDL_NETWORK`. -/
def CSIDL_NETWORK : Nat := 0x0012

/-- `CSIDL_PRINTERS`. -/
def CSIDL_PRINTERS : Nat := 0x0004

/-- `MFS_CHECKED`. -/
def MFS_CHECKED : Nat := 0x8

/-- `MFS_ENABLED`. -/
def MFS_ENABLED : Nat := 0x0

/-- `MIIM_STRING | MIIM_STATE | MIIM_ID`. -/
def MIIM_STRING_STATE_ID : Nat := 0x40 ||| 0x1 ||| 0x2

/-- Win32 `MENUITEMINFO`, the fields set by the header menu code. -/
structure MENUITEMINFO where
  fMask : Nat
  fState : Nat
  wID : Nat
  dwTypeData : WString
deriving DecidableEq, Repr

/-- What the header menu code takes from outside the source files: the values of the column
enumerators, `CompareVirtualFolders`, the name of a column
(`ResourceHelper::LoadString(m_hResourceModule, LookupColumnNameStringIndex(type))`) and the
command id `IDM_HEADER_MORE`. -/
structure HeaderMenuHelpers where
  columnTypes : ColumnTypeEnum
  CompareVirtualFolders : WString → Nat → Bool
  columnName : ColumnType → WString
  IDM_HEADER_MORE : Int

/-- The function `GetColumnHeaderMenuList`. -/
def GetColumnHeaderMenuList (e : HeaderMenuHelpers) (directory : WString) : List ColumnType :=
  if e.CompareVirtualFolders (c_str directory) CSIDL_DRIVES then
    COMMON_MY_COMPUTER_COLUMNS e.columnTypes
  else if e.CompareVirtualFolders (c_str directory) CSIDL_CONTROLS then
    COMMON_CONTROL_PANEL_COLUMNS e.columnTypes
  else if e.CompareVirtualFolders (c_str directory) CSIDL_BITBUCKET then
    COMMON_RECYCLE_BIN_COLUMNS e.columnTypes
  else if e.CompareVirtualFolders (c_str directory) CSIDL_CONNECTIONS then
    COMMON_NETWORK_CONNECTIONS_COLUMNS e.columnTypes
  else if e.CompareVirtualFolders (c_str directory) CSIDL_NETWORK then
    COMMON_NETWORK_COLUMNS e.columnTypes
  else if e.CompareVirtualFolders (c_str directory) CSIDL_PRINTERS then
    COMMON_PRINTERS_COLUMNS e.columnTypes
  else COMMON_REAL_FOLDER_COLUMNS e.columnTypes

/-- The call `InsertMenuItem(menu, position, TRUE, &mii)`: the item is inserted before the item
at the position, or appended when the menu is shorter. -/
def InsertMenuItem (menu : List MENUITEMINFO) (position : Nat) (mii : MENUITEMINFO) :
    List MENUITEMINFO :=
  match menu, position with
  | menu, 0 => mii :: menu
  | [], _ + 1 => [mii]
  | first :: rest, n + 1 => first :: InsertMenuItem rest n mii

/-- The local variables of the loop of `OnListViewHeaderRightClick`, with the menu being built. -/
structure HeaderMenuLoop where
  headerMenu : List MENUITEMINFO
  menuItemMappings : List (Int × ColumnType)
  totalInserted : Nat
  commonColumnPosition : Nat
deriving DecidableEq, Repr

/-- The test of the loop: the column is checked or is one of the common columns. -/
def shownInHeaderMenu (commonColumns : List ColumnType) (column : Column_t) : Bool :=
  column.bChecked || decide (column.type ∈ commonColumns)

/-- The `MENUITEMINFO` the loop fills in for a column and an id. -/
def headerMenuItem (e : HeaderMenuHelpers) (id : Nat) (column : Column_t) : MENUITEMINFO :=
  { fMask := MIIM_STRING_STATE_ID
    fState := if column.bChecked then MFS_CHECKED else MFS_ENABLED
    wID := id
    dwTypeData := e.columnName column.type }

/-- One iteration of the loop of `OnListViewHeaderRightClick`. -/
def headerMenuStep (e : HeaderMenuHelpers) (commonColumns : List ColumnType)
    (st : HeaderMenuLoop) (column : Column_t) : HeaderMenuLoop :=
  let inCommonColumns : Bool := decide (column.type ∈ commonColumns)
  if !column.bChecked && !inCommonColumns then st
  else
    let currentPosition :=
      if inCommonColumns then st.commonColumnPosition else st.totalInserted
    let id := st.totalInserted + 1
    { headerMenu := InsertMenuItem st.headerMenu currentPosition (headerMenuItem e id column)
      menuItemMappings := mapInsert st.menuItemMappings (id : Int) column.type
      totalInserted := st.totalInserted + 1
      commonColumnPosition :=
        if inCommonColumns then st.commonColumnPosition + 1 else st.commonColumnPosition }

/-- The loop of `OnListViewHeaderRightClick` over `*m_pActiveColumns`, started on the menu loaded
from the resources. -/
def buildHeaderMenu (e : HeaderMenuHelpers) (activeColumns : List Column_t)
    (directory : WString) (headerMenu : List MENUITEMINFO) : HeaderMenuLoop :=
  activeColumns.foldl (headerMenuStep e (GetColumnHeaderMenuList e directory))
    { headerMenu := headerMenu, menuItemMappings := [], totalInserted := 0,
      commonColumnPosition := 0 }

/-- What a selection in the header menu does: the argument of `SetCurrentColumns`, if it is
called, whether `m_navigationController->Refresh()` is called, and whether the dialog of
`OnShowMoreColumnsSelected` is shown. -/
structure ColumnMenuEffect where
  setCurrentColumns : Option (List Column_t)
  refresh : Bool
  showMoreColumns : Bool
deriving DecidableEq, Repr

/-- The search `std::find_if` for the first column of the type, followed by
`itr->bChecked = !itr->bChecked`; nothing, when there is no such column. -/
def toggleColumn (columns : List Column_t) (columnType : ColumnType) : Option (List Column_t) :=
  match columns with
  | [] => none
  | column :: rest =>
    if column.type = columnType then some ({ column with bChecked := !column.bChecked } :: rest)
    else (toggleColumn rest columnType).map (fun toggled => column :: toggled)

/-- The function `ShellBrowser::OnColumnMenuItemSelected`, on the value `currentColumns` of
`GetCurrentColumns()`; `menuItemMappings.at` throws `std::out_of_range` for an id that is not
mapped. -/
def OnColumnMenuItemSelected (currentColumns : List Column_t) (menuItemId : Int)
    (menuItemMappings : List (Int × ColumnType)) : Except Exception ColumnMenuEffect :=
  match mapFind menuItemMappings menuItemId with
  | none => Except.error Exception.out_of_range
  | some columnType =>
    match toggleColumn currentColumns columnType with
    | none => Except.ok { setCurrentColumns := none, refresh := false, showMoreColumns := false }
    | some toggled =>
      Except.ok
        { setCurrentColumns := some toggled
          refresh := decide (menuItemId = 1)
          showMoreColumns := false }

/-- The function `ShellBrowser::OnListViewHeaderMenuItemSelected`. -/
def OnListViewHeaderMenuItemSelected (e : HeaderMenuHelpers) (currentColumns : List Column_t)
    (menuItemId : Int) (menuItemMappings : List (Int × ColumnType)) :
    Except Exception ColumnMenuEffect :=
  if menuItemId = e.IDM_HEADER_MORE then
    Except.ok { setCurrentColumns := none, refresh := false, showMoreColumns := true }
  else OnColumnMenuItemSelected currentColumns menuItemId menuItemMappings

/-- The function `ShellBrowser::OnListViewHeaderRightClick`: the menu built, and what the command
`cmd` returned by `TrackPopupMenu` leads to. `activeColumns` is `*m_pActiveColumns`, `directory`
is `m_directoryState.directory`, `headerMenu` is the menu loaded from the resources and
`currentColumns` is the value of `GetCurrentColumns()`. -/
def OnListViewHeaderRightClick (e : HeaderMenuHelpers) (activeColumns : List Column_t)
    (directory : WString) (headerMenu : List MENUITEMINFO) (cmd : Int)
    (currentColumns : List Column_t) : HeaderMenuLoop × Except Exception ColumnMenuEffect :=
  let built := buildHeaderMenu e activeColumns directory headerMenu
  if cmd = 0 then
    (built, Except.ok { setCurrentColumns := none, refresh := false, showMoreColumns := false })
  else
    (built, OnListViewHeaderMenuItemSelected e currentColumns cmd built.menuItemMappings)

/-- Sample values for the column enumerators. -/
def sampleColumnTypes : ColumnTypeEnum :=
  { Name := 1, Type_ := 2, Size := 3, DateModified := 4, Authors := 21, Title := 19,
    VirtualComments := 28, TotalSize := 29, FreeSpace := 30, FileSystem := 31,
    NetworkAdaptorStatus := 39, Owner := 8, PrinterNumDocuments := 35, PrinterStatus := 36,
    PrinterComments := 37, PrinterLocation := 38, OriginalLocation := 33, DateDeleted := 34 }

/-- Sample helpers for the header menu: every directory is a real folder, the name of a column is
empty, and `IDM_HEADER_MORE` is 1000. -/
def sampleHeaderMenuHelpers : HeaderMenuHelpers :=
  { columnTypes := sampleColumnTypes
    CompareVirtualFolders := fun _ _ => false
    columnName := fun _ => []
    IDM_HEADER_MORE := 1000 }

/-- A column of the given type, checked or not. -/
def sampleColumn (type : ColumnType) (bChecked : Bool) : Column_t :=
  { type := type, bChecked := bChecked, iWidth := 100 }

/-- The item `More...` that the header menu holds when it is loaded. -/
def moreItem : MENUITEMINFO :=
  { fMask := MIIM_STRING_STATE_ID, fState := MFS_ENABLED, wID := 1000,
    dwTypeData := ['M', 'o', 'r', 'e'] }

/-- The columns the header menu lists, numbered from 1 in the order of the active columns: the
statement of the menu order is given in terms of this list. -/
def headerMenuEntries (commonColumns : List ColumnType) (activeColumns : List Column_t) :
    List (Nat × Column_t) :=
  List.enumFrom 1 (activeColumns.filter (shownInHeaderMenu commonColumns))

/-- Active columns whose first column is neither checked nor common, followed by the checked
column `Name`. -/
def hiddenFirstColumn : List Column_t := [sampleColumn 5 false, sampleColumn 1 true]

/-- Active columns of which `Name` (1) and `Size` (3) are common and the others are not. -/
def mixedColumns : List Column_t :=
  [sampleColumn 5 true, sampleColumn 1 true, sampleColumn 6 false, sampleColumn 3 false,
    sampleColumn 7 true]

/-! ## Lemmas on maps -/

theorem mapFind_mapErase_self {β : Type} (m : List (Int × β)) (key : Int) :
    mapFind (mapErase m key) key = none := by
  induction m with
  | nil => rfl
  | cons e rest ih =>
    obtain ⟨k, v⟩ := e
    by_cases hk : k = key
    · simpa [mapErase, hk] using ih
    · simpa [mapErase, mapFind, hk] using ih

theorem mapFind_mapErase_ne {β : Type} (m : List (Int × β)) (key other : Int)
    (hne : other ≠ key) : mapFind (mapErase m key) other = mapFind m other := by
  induction m with
  | nil => rfl
  | cons e rest ih =>
    obtain ⟨k, v⟩ := e
    by_cases hk : k = key
    · subst hk
      have hko : ¬ k = other := fun h => hne h.symm
      simpa [mapErase, mapFind, hko] using ih
    · by_cases hko : k = other
      · subst hko
        simp [mapErase, mapFind, hk]
      · simpa [mapErase, mapFind, hk, hko] using ih

theorem mapErase_of_mapFind_none {β : Type} (m : List (Int × β)) (key : Int)
    (h : mapFind m key = none) : mapErase m key = m := by
  induction m with
  | nil => rfl
  | cons e rest ih =>
    obtain ⟨k, v⟩ := e
    by_cases hk : k = key
    · simp [mapFind, hk] at h
    · simp only [mapFind, hk, if_false] at h
      simp [mapErase, hk, ih h]

theorem mapFind_append {β : Type} (m n : List (Int × β)) (key : Int) :
    mapFind (m ++ n) key = (mapFind m key).orElse (fun _ => mapFind n key) := by
  induction m with
  | nil => simp [mapFind]
  | cons e rest ih =>
    obtain ⟨k, w⟩ := e
    by_cases hk : k = key
    · simp [mapFind, hk]
    · simpa [mapFind, hk] using ih

theorem mapFind_mapSet_self {β : Type} (m : List (Int × β)) (key : Int) (v : β) :
    mapFind (mapSet m key v) key = (mapFind m key).map (fun _ => v) := by
  induction m with
  | nil => rfl
  | cons e rest ih =>
    obtain ⟨k, w⟩ := e
    by_cases hk : k = key
    · simp [mapSet, mapFind, hk]
    · simpa [mapSet, mapFind, hk] using ih

theorem mapFind_mapSet_ne {β : Type} (m : List (Int × β)) (key other : Int) (v : β)
    (hne : other ≠ key) : mapFind (mapSet m key v) other = mapFind m other := by
  induction m with
  | nil => rfl
  | cons e rest ih =>
    obtain ⟨k, w⟩ := e
    by_cases hk : k = key
    · subst hk
      have hko : ¬ k = other := fun h => hne h.symm
      simpa [mapSet, mapFind, hko] using ih
    · by_cases hko : k = other
      · subst hko
        simp [mapSet, mapFind, hk]
      · simpa [mapSet, mapFind, hk, hko] using ih

/-! ## Lemmas on rows -/

theorem locateRow_updateRow (rows : List ListViewRow) (i : Nat) (f : ListViewRow → ListViewRow)
    (hf : ∀ r, (f r).lParam = r.lParam) (internalIndex : Int) :
    locateRow (updateRow rows i f) internalIndex = locateRow rows internalIndex := by
  induction rows generalizing i with
  | nil => simp [updateRow]
  | cons r rest ih =>
    cases i with
    | zero => simp [updateRow, locateRow, hf]
    | succ n => simp [updateRow, locateRow, ih n]

theorem getElem?_updateRow_self (rows : List ListViewRow) (i : Nat)
    (f : ListViewRow → ListViewRow) : (updateRow rows i f)[i]? = (rows[i]?).map f := by
  induction rows generalizing i with
  | nil => simp [updateRow]
  | cons r rest ih =>
    cases i with
    | zero => simp [updateRow]
    | succ n => simpa [updateRow] using ih n

theorem locateRow_lt (rows : List ListViewRow) (internalIndex : Int) (i : Nat)
    (h : locateRow rows internalIndex = some i) : i < rows.length := by
  induction rows generalizing i with
  | nil => simp [locateRow] at h
  | cons r rest ih =>
    by_cases hr : r.lParam = internalIndex
    · simp [locateRow, hr] at h
      subst h
      simp
    · simp only [locateRow, hr, if_false, Option.map_eq_some'] at h
      obtain ⟨j, hj, rfl⟩ := h
      have := ih j hj
      simp
      omega

/-! ## Lemmas on `ProcessInfoTipResult` and `ProcessIconResult` -/

theorem ProcessInfoTipResult_of_not_found (shell : Shell) (s : ShellBrowser) (id : Int)
    (h : mapFind s.m_infoTipResults id = none) : ProcessInfoTipResult shell s id = s := by
  simp [ProcessInfoTipResult, h]

theorem ProcessInfoTipResult_results (shell : Shell) (s : ShellBrowser) (id : Int) :
    (ProcessInfoTipResult shell s id).m_infoTipResults = mapErase s.m_infoTipResults id := by
  unfold ProcessInfoTipResult
  cases h : mapFind s.m_infoTipResults id with
  | none => simp [mapErase_of_mapFind_none _ _ h]
  | some itr =>
    simp only
    cases (itr.get shell s).2 with
    | none => rfl
    | some r =>
      simp only
      cases LocateItemByInternalIndex _ r.itemInternalIndex <;> rfl

theorem ProcessInfoTipResult_handles (shell : Shell) (s : ShellBrowser) (id : Int) :
    (ProcessInfoTipResult shell s id).m_hListView = s.m_hListView
      ∧ (ProcessInfoTipResult shell s id).m_hResourceModule = s.m_hResourceModule := by
  unfold ProcessInfoTipResult
  cases h : mapFind s.m_infoTipResults id with
  | none => simp
  | some itr =>
    simp only
    cases (itr.get shell s).2 with
    | none => simp
    | some r =>
      simp only
      cases LocateItemByInternalIndex _ r.itemInternalIndex <;> simp [ListView_SetInfoTip]

theorem ProcessInfoTipResult_unchanged (shell : Shell) (s : ShellBrowser) (id : Int)
    (h : ∀ r, infoTipResultOf shell s id = some r →
      LocateItemByInternalIndex s r.itemInternalIndex = none) :
    (ProcessInfoTipResult shell s id).listView = s.listView
      ∧ (ProcessInfoTipResult shell s id).listViewCalls = s.listViewCalls := by
  unfold ProcessInfoTipResult
  unfold infoTipResultOf at h
  cases hf : mapFind s.m_infoTipResults id with
  | none => simp
  | some itr =>
    simp only [hf, Option.some_bind] at h
    simp only
    cases hr : (itr.get shell s).2 with
    | none => simp
    | some r =>
      have hl := h r hr
      simp only [LocateItemByInternalIndex] at hl ⊢
      simp [hl]

theorem ProcessInfoTipResult_applied (shell : Shell) (s : ShellBrowser) (id : Int)
    (r : InfoTipResult) (row : Nat) (hr : infoTipResultOf shell s id = some r)
    (hrow : LocateItemByInternalIndex s r.itemInternalIndex = some row) :
    (ProcessInfoTipResult shell s id).listView
        = updateRow s.listView row
            (fun x => { x with infoTip := StringCchCopy 256 (c_str r.infoTip) })
      ∧ (ProcessInfoTipResult shell s id).listViewCalls
        = s.listViewCalls
            ++ [ListViewCall.SetInfoTip (row : Int) 0 (StringCchCopy 256 (c_str r.infoTip))] := by
  unfold ProcessInfoTipResult
  unfold infoTipResultOf at hr
  cases hf : mapFind s.m_infoTipResults id with
  | none => simp [hf] at hr
  | some itr =>
    simp only [hf, Option.some_bind] at hr
    simp only [hr]
    simp only [LocateItemByInternalIndex] at hrow ⊢
    simp [hrow, ListView_SetInfoTip]

theorem ProcessInfoTipResult_locate (shell : Shell) (s : ShellBrowser) (id : Int)
    (internalIndex : Int) :
    LocateItemByInternalIndex (ProcessInfoTipResult shell s id) internalIndex
      = LocateItemByInternalIndex s internalIndex := by
  cases hr : infoTipResultOf shell s id with
  | none =>
    have := (ProcessInfoTipResult_unchanged shell s id (by simp [hr])).1
    simp [LocateItemByInternalIndex, this]
  | some r =>
    cases hrow : LocateItemByInternalIndex s r.itemInternalIndex with
    | none =>
      have := (ProcessInfoTipResult_unchanged shell s id (by
        intro r2 h2; rw [hr] at h2; cases h2; exact hrow)).1
      simp [LocateItemByInternalIndex, this]
    | some row =>
      have := (ProcessInfoTipResult_applied shell s id r row hr hrow).1
      simp only [LocateItemByInternalIndex, this]
      apply locateRow_updateRow
      intro x
      rfl

theorem runInfoTipTask_congr (shell : Shell) (s s2 : ShellBrowser) (t : InfoTipTask)
    (h1 : s2.m_hListView = s.m_hListView) (h2 : s2.m_hResourceModule = s.m_hResourceModule) :
    runInfoTipTask shell s2 t = runInfoTipTask shell s t := by
  simp [runInfoTipTask, h1, h2]

theorem ProcessInfoTipResult_resultOf_ne (shell : Shell) (s : ShellBrowser) (id other : Int)
    (hne : other ≠ id) :
    infoTipResultOf shell (ProcessInfoTipResult shell s id) other
      = infoTipResultOf shell s other := by
  unfold infoTipResultOf
  rw [ProcessInfoTipResult_results, mapFind_mapErase_ne _ _ _ hne]
  cases mapFind s.m_infoTipResults other with
  | none => rfl
  | some itr =>
    cases itr with
    | ready v => rfl
    | pending t =>
      have hh := ProcessInfoTipResult_handles shell s id
      simp [InfoTipFuture.get, runInfoTipTask_congr shell s _ t hh.1 hh.2]

theorem ProcessIconResult_of_unlocated (s : ShellBrowser) (internalIndex iconIndex : Int)
    (h : LocateItemByInternalIndex s internalIndex = none) :
    ProcessIconResult s internalIndex iconIndex = s := by
  simp [ProcessIconResult, h]

theorem ProcessIconResult_locate (s : ShellBrowser) (internalIndex iconIndex other : Int) :
    LocateItemByInternalIndex (ProcessIconResult s internalIndex iconIndex) other
      = LocateItemByInternalIndex s other := by
  unfold ProcessIconResult
  cases h : LocateItemByInternalIndex s internalIndex with
  | none => rfl
  | some index =>
    simp only [LocateItemByInternalIndex, ListView_SetItem]
    have : ¬ ((index : Int) < 0) := by omega
    simp only [this, if_false]
    apply locateRow_updateRow
    intro x
    rfl

theorem ProcessIconResult_image (s : ShellBrowser) (internalIndex iconIndex : Int) (row : Nat)
    (h : LocateItemByInternalIndex s internalIndex = some row) :
    ((ProcessIconResult s internalIndex iconIndex).listView[row]?).map (fun r => r.iImage)
      = some iconIndex := by
  have hlt := locateRow_lt _ _ _ h
  unfold ProcessIconResult
  simp only [h, ListView_SetItem]
  have : ¬ ((row : Int) < 0) := by omega
  simp only [this, if_false, Int.toNat_ofNat, getElem?_updateRow_self]
  have hm : (LVIF_IMAGE ||| LVIF_STATE) &&& LVIF_IMAGE = LVIF_IMAGE := by decide
  simp [hm, List.getElem?_eq_getElem hlt]

theorem processInfoTipResults_locate (shell : Shell) (s : ShellBrowser) (ids : List Int)
    (internalIndex : Int) :
    LocateItemByInternalIndex (processInfoTipResults shell s ids) internalIndex
      = LocateItemByInternalIndex s internalIndex := by
  induction ids generalizing s with
  | nil => rfl
  | cons id rest ih =>
    simp only [processInfoTipResults, List.foldl_cons] at ih ⊢
    rw [ih, ProcessInfoTipResult_locate]

theorem processInfoTipResults_resultOf (shell : Shell) (s : ShellBrowser) (ids : List Int)
    (other : Int) (hother : other ∉ ids) :
    infoTipResultOf shell (processInfoTipResults shell s ids) other
      = infoTipResultOf shell s other := by
  induction ids generalizing s with
  | nil => rfl
  | cons id rest ih =>
    simp only [List.mem_cons, not_or] at hother
    simp only [processInfoTipResults, List.foldl_cons] at ih ⊢
    rw [ih _ hother.2, ProcessInfoTipResult_resultOf_ne _ _ _ _ hother.1]

theorem processIconResults_locate (s : ShellBrowser) (results : List (Int × Int))
    (internalIndex : Int) :
    LocateItemByInternalIndex (processIconResults s results) internalIndex
      = LocateItemByInternalIndex s internalIndex := by
  induction results generalizing s with
  | nil => rfl
  | cons r rest ih =>
    simp only [processIconResults, List.foldl_cons] at ih ⊢
    rw [ih, ProcessIconResult_locate]

/-! ## Lemmas on the header menu -/

theorem InsertMenuItem_append (before after : List MENUITEMINFO) (mii : MENUITEMINFO) :
    InsertMenuItem (before ++ after) before.length mii = before ++ mii :: after := by
  induction before with
  | nil => cases after <;> simp [InsertMenuItem]
  | cons first rest ih => simpa [InsertMenuItem] using ih

theorem mapInsert_of_keys_lt (m : List (Int × ColumnType)) (key : Int) (value : ColumnType)
    (h : ∀ p ∈ m, p.1 < key) : mapInsert m key value = m ++ [(key, value)] := by
  have hnone : mapFind m key = none := by
    induction m with
    | nil => rfl
    | cons p rest ih =>
      obtain ⟨k, v⟩ := p
      have hk : k < key := h (k, v) (List.mem_cons_self _ _)
      have hne : ¬ k = key := by omega
      simp only [mapFind, hne, if_false]
      exact ih (fun q hq => h q (List.mem_cons_of_mem _ hq))
  simp [mapInsert, hnone]

/-- The loop of `OnListViewHeaderRightClick`, started in a state whose menu is the common entries
`common`, the other entries `others` and the loaded items `loaded`: it ends with the new common
entries appended to the common ones and the new other entries appended to the other ones, and
numbers the entries from `totalInserted + 1` on. -/
theorem headerMenu_foldl (e : HeaderMenuHelpers) (commonColumns : List ColumnType)
    (columns : List Column_t) (common others loaded : List MENUITEMINFO)
    (mappings : List (Int × ColumnType)) (total : Nat)
    (htotal : total = common.length + others.length)
    (hmappings : ∀ p ∈ mappings, p.1 ≤ (total : Int)) :
    columns.foldl (headerMenuStep e commonColumns)
        { headerMenu := common ++ others ++ loaded, menuItemMappings := mappings,
          totalInserted := total, commonColumnPosition := common.length }
      = { headerMenu :=
            (common ++
              ((List.enumFrom (total + 1)
                  (columns.filter (shownInHeaderMenu commonColumns))).filter
                (fun p => decide (p.2.type ∈ commonColumns))).map
                (fun p => headerMenuItem e p.1 p.2))
            ++ (others ++
              ((List.enumFrom (total + 1)
                  (columns.filter (shownInHeaderMenu commonColumns))).filter
                (fun p => !decide (p.2.type ∈ commonColumns))).map
                (fun p => headerMenuItem e p.1 p.2))
            ++ loaded
          menuItemMappings :=
            mappings ++
              (List.enumFrom (total + 1)
                (columns.filter (shownInHeaderMenu commonColumns))).map
                (fun p => ((p.1 : Int), p.2.type))
          totalInserted := total + (columns.filter (shownInHeaderMenu commonColumns)).length
          commonColumnPosition :=
            common.length +
              ((List.enumFrom (total + 1)
                  (columns.filter (shownInHeaderMenu commonColumns))).filter
                (fun p => decide (p.2.type ∈ commonColumns))).length } := by
  induction columns generalizing common others mappings total with
  | nil => simp
  | cons column rest ih =>
    by_cases hcommon : column.type ∈ commonColumns
    · have hshown : shownInHeaderMenu commonColumns column = true := by
        simp [shownInHeaderMenu, hcommon]
      have hins : mapInsert mappings ((total + 1 : Nat) : Int) column.type
          = mappings ++ [(((total + 1 : Nat) : Int), column.type)] :=
        mapInsert_of_keys_lt _ _ _ (fun p hp => by
          have := hmappings p hp
          push_cast
          omega)
      have hstep : headerMenuStep e commonColumns
          { headerMenu := common ++ others ++ loaded, menuItemMappings := mappings,
            totalInserted := total, commonColumnPosition := common.length } column
          = { headerMenu := (common ++ [headerMenuItem e (total + 1) column]) ++ others ++ loaded
              menuItemMappings := mappings ++ [(((total + 1 : Nat) : Int), column.type)]
              totalInserted := total + 1
              commonColumnPosition := (common ++ [headerMenuItem e (total + 1) column]).length }
          := by
        simp only [headerMenuStep, hcommon, decide_True, Bool.not_true, Bool.and_false,
          Bool.false_eq_true, if_false, if_true, hins]
        rw [List.append_assoc common others loaded, InsertMenuItem_append]
        simp
      rw [List.foldl_cons, hstep,
        ih (common ++ [headerMenuItem e (total + 1) column]) others
          (mappings ++ [(((total + 1 : Nat) : Int), column.type)]) (total + 1)
          (by simp; omega)
          (by
            intro p hp
            rcases List.mem_append.1 hp with hp | hp
            · have := hmappings p hp
              push_cast
              omega
            · simp at hp
              rw [hp]
              push_cast
              omega)]
      simp [List.filter_cons, hshown, List.enumFrom_cons, hcommon, Nat.add_assoc]
      omega
    · by_cases hchecked : column.bChecked = true
      · have hshown : shownInHeaderMenu commonColumns column = true := by
          simp [shownInHeaderMenu, hchecked]
        have hins : mapInsert mappings ((total + 1 : Nat) : Int) column.type
            = mappings ++ [(((total + 1 : Nat) : Int), column.type)] :=
          mapInsert_of_keys_lt _ _ _ (fun p hp => by
            have := hmappings p hp
            push_cast
            omega)
        have hstep : headerMenuStep e commonColumns
            { headerMenu := common ++ others ++ loaded, menuItemMappings := mappings,
              totalInserted := total, commonColumnPosition := common.length } column
            = { headerMenu :=
                  common ++ (others ++ [headerMenuItem e (total + 1) column]) ++ loaded
                menuItemMappings := mappings ++ [(((total + 1 : Nat) : Int), column.type)]
                totalInserted := total + 1
                commonColumnPosition := common.length } := by
          simp only [headerMenuStep, hcommon, hchecked, decide_False, Bool.not_true,
            Bool.false_and, Bool.false_eq_true, if_false, hins]
          have hlen : total = (common ++ others).length := by simp [htotal]
          rw [hlen, InsertMenuItem_append]
          simp
        rw [List.foldl_cons, hstep,
          ih common (others ++ [headerMenuItem e (total + 1) column])
            (mappings ++ [(((total + 1 : Nat) : Int), column.type)]) (total + 1)
            (by simp; omega)
            (by
              intro p hp
              rcases List.mem_append.1 hp with hp | hp
              · have := hmappings p hp
                push_cast
                omega
              · simp at hp
                rw [hp]
                push_cast
                omega)]
        simp [List.filter_cons, hshown, List.enumFrom_cons, hcommon, Nat.add_assoc]
        omega
      · have hshown : shownInHeaderMenu commonColumns column = false := by
          simp [shownInHeaderMenu, hchecked, hcommon]
        have hstep : headerMenuStep e commonColumns
            { headerMenu := common ++ others ++ loaded, menuItemMappings := mappings,
              totalInserted := total, commonColumnPosition := common.length } column
            = { headerMenu := common ++ others ++ loaded, menuItemMappings := mappings,
                totalInserted := total, commonColumnPosition := common.length } := by
          simp [headerMenuStep, hcommon, hchecked]
        rw [List.foldl_cons, hstep, ih common others mappings total htotal hmappings]
        simp [List.filter_cons, hshown]

/-! ## Results applied in processing order -/

/-- C1 (as amended): among results for one row, the value the row ends with is the payload of the
result processed last, whatever the result ids are. For info tips: when the ids `earlier` are
processed and then `last`, whose result `r` targets a row, the info tip of that row is the text of
`r` as copied into the 256-character buffer. For icons: when the results `earlier` are delivered
and then `(internalIndex, iconIndex)`, the image of the row of `internalIndex` is `iconIndex`. -/
theorem last_processed_result_applied (shell : Shell) (s : ShellBrowser) (earlier : List Int)
    (last : Int) (r : InfoTipResult) (row : Nat) (earlierIcons : List (Int × Int))
    (internalIndex iconIndex : Int) (iconRow : Nat)
    (hlast : last ∉ earlier)
    (hr : infoTipResultOf shell s last = some r)
    (hrow : LocateItemByInternalIndex s r.itemInternalIndex = some row)
    (hicon : LocateItemByInternalIndex s internalIndex = some iconRow) :
    (((processInfoTipResults shell s (earlier ++ [last])).listView[row]?).map
        (fun x => x.infoTip) = some (StringCchCopy 256 (c_str r.infoTip)))
      ∧ (((processIconResults s (earlierIcons ++ [(internalIndex, iconIndex)])).listView[iconRow]?).map
        (fun x => x.iImage) = some iconIndex) := by
  constructor
  · have h1 : processInfoTipResults shell s (earlier ++ [last])
        = ProcessInfoTipResult shell (processInfoTipResults shell s earlier) last := by
      simp [processInfoTipResults, List.foldl_append]
    have hr2 := processInfoTipResults_resultOf shell s earlier last hlast
    rw [hr] at hr2
    have hrow2 := processInfoTipResults_locate shell s earlier r.itemInternalIndex
    rw [hrow] at hrow2
    have happ := (ProcessInfoTipResult_applied shell _ last r row hr2 hrow2).1
    have hlt := locateRow_lt _ _ _ hrow2
    rw [h1, happ, getElem?_updateRow_self]
    simp [List.getElem?_eq_getElem hlt]
  · have h1 : processIconResults s (earlierIcons ++ [(internalIndex, iconIndex)])
        = ProcessIconResult (processIconResults s earlierIcons) internalIndex iconIndex := by
      simp [processIconResults, List.foldl_append]
    have hrow2 := processIconResults_locate s earlierIcons internalIndex
    rw [hicon] at hrow2
    rw [h1]
    exact ProcessIconResult_image _ _ _ _ hrow2

/-- C3: a result for an internal index that resolves to no row is dropped.
`ProcessIconResult` leaves the whole state as it was, and `ProcessInfoTipResult`, for an id whose
result (if any) targets that index, changes no row and sends no message to the list view; both
are total functions, so they return. -/
theorem retired_index_safety (shell : Shell) (s : ShellBrowser) (internalIndex iconIndex : Int)
    (infoTipResultId : Int)
    (hretired : LocateItemByInternalIndex s internalIndex = none)
    (htarget : ∀ r, infoTipResultOf shell s infoTipResultId = some r →
      r.itemInternalIndex = internalIndex) :
    ProcessIconResult s internalIndex iconIndex = s
      ∧ (ProcessInfoTipResult shell s infoTipResultId).listView = s.listView
      ∧ (ProcessInfoTipResult shell s infoTipResultId).listViewCalls = s.listViewCalls := by
  refine ⟨ProcessIconResult_of_unlocated s internalIndex iconIndex hretired, ?_⟩
  apply ProcessInfoTipResult_unchanged
  intro r hr
  rw [htarget r hr]
  exact hretired

/-- C6: `ProcessInfoTipResult` consumes the entry of its id and only that entry. Afterwards the id
has no entry and every other id has the entry it had; a second call with the same id changes
nothing, and a call with an id that has no entry changes nothing. -/
theorem result_consumed_exactly_once (shell : Shell) (s : ShellBrowser)
    (infoTipResultId : Int) :
    mapFind (ProcessInfoTipResult shell s infoTipResultId).m_infoTipResults infoTipResultId = none
      ∧ (∀ other, other ≠ infoTipResultId →
          mapFind (ProcessInfoTipResult shell s infoTipResultId).m_infoTipResults other
            = mapFind s.m_infoTipResults other)
      ∧ ProcessInfoTipResult shell (ProcessInfoTipResult shell s infoTipResultId) infoTipResultId
          = ProcessInfoTipResult shell s infoTipResultId
      ∧ (mapFind s.m_infoTipResults infoTipResultId = none →
          ProcessInfoTipResult shell s infoTipResultId = s) := by
  have h1 : mapFind (ProcessInfoTipResult shell s infoTipResultId).m_infoTipResults
      infoTipResultId = none := by
    rw [ProcessInfoTipResult_results]
    exact mapFind_mapErase_self _ _
  refine ⟨h1, ?_, ?_, ?_⟩
  · intro other hne
    rw [ProcessInfoTipResult_results]
    exact mapFind_mapErase_ne _ _ _ hne
  · exact ProcessInfoTipResult_of_not_found shell _ _ h1
  · exact ProcessInfoTipResult_of_not_found shell s _

/-- C1 (witness): job 0 processed after job 1 leaves the text of job 0 on the row, and icon 8
delivered after icon 7 leaves icon 8. -/
theorem last_processed_result_applied_witness :
    (0 : Int) ∉ [(1 : Int)]
      ∧ infoTipResultOf sampleShell twoJobsForOneRow 0
          = some { itemInternalIndex := 5, infoTip := ['A', Char.ofNat 10, 't', 'i', 'p'] }
      ∧ LocateItemByInternalIndex twoJobsForOneRow 5 = some 0
      ∧ (((processInfoTipResults sampleShell twoJobsForOneRow ([1] ++ [0])).listView[0]?).map
          (fun x => x.infoTip)
            = some (StringCchCopy 256 (c_str ['A', Char.ofNat 10, 't', 'i', 'p'])))
      ∧ (((processIconResults twoJobsForOneRow ([(5, 7)] ++ [(5, 8)])).listView[0]?).map
          (fun x => x.iImage) = some 8) :=
  have h := last_processed_result_applied sampleShell twoJobsForOneRow [1] 0
    { itemInternalIndex := 5, infoTip := ['A', Char.ofNat 10, 't', 'i', 'p'] } 0 [(5, 7)] 5 8 0
    (by decide) (by decide) (by decide) (by decide)
  ⟨by decide, by decide, by decide, h.1, h.2⟩

/-- C1 (counterexample): jobs 0 and 1 target the same row and 1 is the greater id, with the
payload that starts with `B`. When result 1 is processed before result 0, the row ends with the
payload of job 0, not with that of job 1; the older result was not discarded. -/
theorem no_stale_overwrite_counterexample :
    infoTipResultOf sampleShell twoJobsForOneRow 0
        = some { itemInternalIndex := 5, infoTip := ['A', Char.ofNat 10, 't', 'i', 'p'] }
      ∧ infoTipResultOf sampleShell twoJobsForOneRow 1
        = some { itemInternalIndex := 5, infoTip := ['B', Char.ofNat 10, 't', 'i', 'p'] }
      ∧ LocateItemByInternalIndex twoJobsForOneRow 5 = some 0
      ∧ ((processInfoTipResults sampleShell twoJobsForOneRow [1, 0]).listView[0]?).map
          (fun x => x.infoTip) = some ['A', Char.ofNat 10, 't', 'i', 'p']
      ∧ ((processInfoTipResults sampleShell twoJobsForOneRow [1, 0]).listView[0]?).map
          (fun x => x.infoTip) ≠ some ['B', Char.ofNat 10, 't', 'i', 'p']
      ∧ (processInfoTipResults sampleShell twoJobsForOneRow [1, 0]).listViewCalls
        = [ListViewCall.SetInfoTip 0 0 ['B', Char.ofNat 10, 't', 'i', 'p'],
           ListViewCall.SetInfoTip 0 0 ['A', Char.ofNat 10, 't', 'i', 'p']] := by
  decide

/-- C3 (witness): item 7 has no row any more; its icon result and its info-tip result (id 0)
leave the remaining row alone. -/
theorem retired_index_safety_witness :
    LocateItemByInternalIndex retiredIndexState 7 = none
      ∧ infoTipResultOf sampleShell retiredIndexState 0
          = some { itemInternalIndex := 7, infoTip := ['t', 'i', 'p'] }
      ∧ ProcessIconResult retiredIndexState 7 8 = retiredIndexState
      ∧ (ProcessInfoTipResult sampleShell retiredIndexState 0).listView
          = retiredIndexState.listView
      ∧ (ProcessInfoTipResult sampleShell retiredIndexState 0).listViewCalls
          = retiredIndexState.listViewCalls :=
  ⟨by decide, by decide,
    retired_index_safety sampleShell retiredIndexState 7 8 0 (by decide) (by
      intro r hr
      have h0 : infoTipResultOf sampleShell retiredIndexState 0
          = some { itemInternalIndex := 7, infoTip := ['t', 'i', 'p'] } := by decide
      rw [h0] at hr
      cases hr
      rfl)⟩

/-- C6 (witness): result 0 of the two queued jobs is present, is consumed by the first call, and
result 1 stays. -/
theorem result_consumed_exactly_once_witness :
    mapFind twoJobsForOneRow.m_infoTipResults 0 ≠ none
      ∧ mapFind (ProcessInfoTipResult sampleShell twoJobsForOneRow 0).m_infoTipResults 0 = none
      ∧ mapFind (ProcessInfoTipResult sampleShell twoJobsForOneRow 0).m_infoTipResults 1
          = mapFind twoJobsForOneRow.m_infoTipResults 1
      ∧ ProcessInfoTipResult sampleShell
          (ProcessInfoTipResult sampleShell twoJobsForOneRow 0) 0
          = ProcessInfoTipResult sampleShell twoJobsForOneRow 0 :=
  have h := result_consumed_exactly_once sampleShell twoJobsForOneRow 0
  ⟨by decide, h.1, h.2.1 1 (by decide), h.2.2.1⟩

/-! ## View resets -/

/-- C2 (counterexample): the info-tip job and the icon job for index 7 were submitted in
generation 1 and the view was then reset to generation 2, which shows another item under index 7.
Processing either result in generation 2 changes the row of the new item. -/
theorem generation_isolation_counterexample :
    generationOne.viewGeneration = 1
      ∧ generationTwo.viewGeneration = 2
      ∧ generationOne.browser.iconTasks = [{ pidl := 9, internalIndex := 7 }]
      ∧ infoTipResultOf sampleShell generationTwo.browser 0
          = some { itemInternalIndex := 7, infoTip := ['t', 'i', 'p'] }
      ∧ generationTwo.browser.listView = [sampleRow 7]
      ∧ (ProcessInfoTipResult sampleShell generationTwo.browser 0).listView
          = [{ sampleRow 7 with infoTip := ['t', 'i', 'p'] }]
      ∧ (ProcessInfoTipResult sampleShell generationTwo.browser 0).listView
          ≠ generationTwo.browser.listView
      ∧ (ProcessIconResult generationTwo.browser 7 8).listView
          = [{ sampleRow 7 with iImage := 8 }]
      ∧ (ProcessIconResult generationTwo.browser 7 8).listView
          ≠ generationTwo.browser.listView := by
  decide

/-- C2 (as amended): after a view reset, a result whose internal index resolves to no row of the
new view is discarded. `ProcessIconResult` leaves the state as it is, and `ProcessInfoTipResult`,
for an id whose result (if any) targets that index, changes no row and sends nothing to the list
view. The generation itself is not consulted. -/
theorem reset_discards_unresolved_results (shell : Shell) (v : View)
    (rows : List ListViewRow) (items : List (Int × ItemInfo_t))
    (internalIndex iconIndex infoTipResultId : Int)
    (hgone : locateRow rows internalIndex = none)
    (htarget : ∀ r, infoTipResultOf shell (v.reset rows items).browser infoTipResultId = some r →
      r.itemInternalIndex = internalIndex) :
    (v.reset rows items).viewGeneration = v.viewGeneration + 1
      ∧ ProcessIconResult (v.reset rows items).browser internalIndex iconIndex
          = (v.reset rows items).browser
      ∧ (ProcessInfoTipResult shell (v.reset rows items).browser infoTipResultId).listView = rows
      ∧ (ProcessInfoTipResult shell (v.reset rows items).browser infoTipResultId).listViewCalls
          = v.browser.listViewCalls := by
  have hloc : LocateItemByInternalIndex (v.reset rows items).browser internalIndex = none := hgone
  refine ⟨rfl, ProcessIconResult_of_unlocated _ _ _ hloc, ?_⟩
  have h := ProcessInfoTipResult_unchanged shell (v.reset rows items).browser infoTipResultId
    (by intro r hr; rw [htarget r hr]; exact hloc)
  exact h

/-- C2 (witness): generation 1 reset to a view that shows only item 5; the results for index 7
change nothing. -/
theorem reset_discards_unresolved_results_witness :
    locateRow [sampleRow 5] 7 = none
      ∧ infoTipResultOf sampleShell
          (generationOne.reset [sampleRow 5] [(5, sampleItem 11 0 ['n', 'e', 'w'])]).browser 0
          = some { itemInternalIndex := 7, infoTip := ['t', 'i', 'p'] }
      ∧ (generationOne.reset [sampleRow 5] [(5, sampleItem 11 0 ['n', 'e', 'w'])]).viewGeneration
          = generationOne.viewGeneration + 1
      ∧ ProcessIconResult
          (generationOne.reset [sampleRow 5] [(5, sampleItem 11 0 ['n', 'e', 'w'])]).browser 7 8
          = (generationOne.reset [sampleRow 5] [(5, sampleItem 11 0 ['n', 'e', 'w'])]).browser
      ∧ (ProcessInfoTipResult sampleShell
          (generationOne.reset [sampleRow 5] [(5, sampleItem 11 0 ['n', 'e', 'w'])]).browser
          0).listView = [sampleRow 5]
      ∧ (ProcessInfoTipResult sampleShell
          (generationOne.reset [sampleRow 5] [(5, sampleItem 11 0 ['n', 'e', 'w'])]).browser
          0).listViewCalls = generationOne.browser.listViewCalls :=
  ⟨by decide, by decide,
    reset_discards_unresolved_results sampleShell generationOne [sampleRow 5]
      [(5, sampleItem 11 0 ['n', 'e', 'w'])] 7 8 0 (by decide) (by
        intro r hr
        have h0 : infoTipResultOf sampleShell
            (generationOne.reset [sampleRow 5] [(5, sampleItem 11 0 ['n', 'e', 'w'])]).browser 0
            = some { itemInternalIndex := 7, infoTip := ['t', 'i', 'p'] } := by decide
        rw [h0] at hr
        cases hr
        rfl)⟩

/-! ## Failed lookups -/

theorem GetInfoTipAsync_of_lookupFails (shell : Shell) (listView : HWND)
    (infoTipResultId internalIndex : Int) (basicItemInfo : BasicItemInfo_t) (config : Config)
    (hInstance : HINSTANCE) (virtualFolder : Bool)
    (hfail : lookupFails shell basicItemInfo config virtualFolder = true) :
    GetInfoTipAsync shell listView infoTipResultId internalIndex basicItemInfo config hInstance
      virtualFolder = ([], none) := by
  unfold lookupFails at hfail
  unfold GetInfoTipAsync
  by_cases hb : config.infoTipType = InfoTipType.System ∨ virtualFolder = true
  · simp only [hb, if_true] at hfail ⊢
    simp [hfail]
  · simp only [hb, if_false] at hfail ⊢
    rw [Option.isNone_iff_eq_none] at hfail
    simp [hfail]

theorem runInfoTipTask_of_lookupFails (shell : Shell) (this : ShellBrowser) (t : InfoTipTask)
    (hfail : lookupFails shell t.basicItemInfo t.configCopy t.virtualFolder = true) :
    runInfoTipTask shell this t = ([], none) := by
  unfold runInfoTipTask
  rw [GetInfoTipAsync_of_lookupFails _ _ _ _ _ _ _ _ hfail]

/-- C7: a failed lookup produces no result. `GetInfoTipAsync` returns no value and posts no
message; the worker that runs such a job posts nothing and leaves an empty result; and
`ProcessInfoTipResult` on an empty result changes no row, sends nothing to the list view and
posts nothing. -/
theorem failed_lookup_produces_no_result (shell : Shell) (s : ShellBrowser)
    (infoTipResultId : Int) (t : InfoTipTask)
    (hqueued : mapFind s.m_infoTipResults infoTipResultId = some (InfoTipFuture.pending t))
    (hfail : lookupFails shell t.basicItemInfo t.configCopy t.virtualFolder = true) :
    GetInfoTipAsync shell s.m_hListView t.infoTipResultId t.internalIndex t.basicItemInfo
        t.configCopy s.m_hResourceModule t.virtualFolder = ([], none)
      ∧ (workerRunInfoTipTask shell s infoTipResultId).postedMessages = s.postedMessages
      ∧ mapFind (workerRunInfoTipTask shell s infoTipResultId).m_infoTipResults infoTipResultId
          = some (InfoTipFuture.ready none)
      ∧ (∀ (s2 : ShellBrowser) (id : Int),
          mapFind s2.m_infoTipResults id = some (InfoTipFuture.ready none) →
            (ProcessInfoTipResult shell s2 id).listView = s2.listView
              ∧ (ProcessInfoTipResult shell s2 id).listViewCalls = s2.listViewCalls
              ∧ (ProcessInfoTipResult shell s2 id).postedMessages = s2.postedMessages) := by
  refine ⟨GetInfoTipAsync_of_lookupFails _ _ _ _ _ _ _ _ hfail, ?_, ?_, ?_⟩
  · simp [workerRunInfoTipTask, hqueued, runInfoTipTask_of_lookupFails shell s t hfail]
  · simp [workerRunInfoTipTask, hqueued, runInfoTipTask_of_lookupFails shell s t hfail,
      mapFind_mapSet_self]
  · intro s2 id h2
    simp [ProcessInfoTipResult, h2, InfoTipFuture.get]

/-- C7 (witness): the job queued for the item without an info tip fails; the worker posts nothing
and processing its empty result leaves the row as it was. -/
theorem failed_lookup_produces_no_result_witness :
    mapFind failingJobState.m_infoTipResults 0
        = some (InfoTipFuture.pending
            { infoTipResultId := 0, internalIndex := 5,
              basicItemInfo := { pidlComplete := 0, wfd := (sampleItem 0 0 ['a']).wfd },
              configCopy := failingJobState.m_config, virtualFolder := false,
              existingInfoTip := ['A'] })
      ∧ (workerRunInfoTipTask sampleShell failingJobState 0).postedMessages = []
      ∧ mapFind (workerRunInfoTipTask sampleShell failingJobState 0).m_infoTipResults 0
          = some (InfoTipFuture.ready none)
      ∧ (ProcessInfoTipResult sampleShell
          (workerRunInfoTipTask sampleShell failingJobState 0) 0).listView = [sampleRow 5]
      ∧ (ProcessInfoTipResult sampleShell
          (workerRunInfoTipTask sampleShell failingJobState 0) 0).listViewCalls = [] :=
  have h := failed_lookup_produces_no_result sampleShell failingJobState 0
    { infoTipResultId := 0, internalIndex := 5,
      basicItemInfo := { pidlComplete := 0, wfd := (sampleItem 0 0 ['a']).wfd },
      configCopy := failingJobState.m_config, virtualFolder := false,
      existingInfoTip := ['A'] } (by decide) (by decide)
  have h2 := h.2.2.2 (workerRunInfoTipTask sampleShell failingJobState 0) 0 h.2.2.1
  ⟨by decide, h.2.1, h.2.2.1, h2.1, h2.2.1⟩

/-! ## Display information -/

theorem or_and_self_right (m d : Nat) : (m ||| d) &&& d = d := by
  apply Nat.eq_of_testBit_eq
  intro i
  simp only [Nat.testBit_and, Nat.testBit_or]
  cases m.testBit i <;> cases d.testBit i <;> rfl

/-- C9 (counterexample): the icon of the item is in the cache and the request uses it, yet the
handler still hands a new icon job for the item to the icon fetcher. -/
theorem cached_icon_counterexample :
    GetCachedIconIndex cachedIconBrowser (sampleItem 9 0 ['a']) = some 0x02000007
      ∧ cachedIconBrowser.m_folderSettings.viewMode ≠ ViewMode.Thumbnails
      ∧ cachedIconBrowser.iconTasks = []
      ∧ OnListViewGetDisplayInfo sampleHelpers cachedIconBrowser (imageRequest 5)
          = Outcome.returned
              { cachedIconBrowser with iconTasks := [{ pidl := 9, internalIndex := 5 }] }
              { imageRequest 5 with iImage := 7, mask := LVIF_IMAGE ||| LVIF_DI_SETITEM }
      ∧ (OnListViewGetDisplayInfo sampleHelpers cachedIconBrowser (imageRequest 5)).state.iconTasks
          ≠ cachedIconBrowser.iconTasks := by
  decide

theorem bitand32_low_of_small (v : Int) (hsmall : toUINT v &&& 0x00FFF000 = 0) :
    bitand32 v 0x0FFF = bitand32 v 0x00FFFFFF := by
  have h1 : toUINT 0x0FFF = 0x0FFF := by decide
  have h2 : toUINT 0x00FFFFFF = 0x0FFF ||| 0x00FFF000 := by decide
  unfold bitand32
  rw [h1, h2, Nat.and_or_distrib_left, hsmall, Nat.or_zero]

theorem bitand32_0FFF_bits (v : Int) :
    toUINT (bitand32 v 0x0FFF) &&& 0xFF000000 = 0
      ∧ toUINT (bitand32 v 0x0FFF) &&& 0x0FFF = toUINT v &&& 0x0FFF := by
  have h1 : toUINT 0x0FFF = 0x0FFF := by decide
  have hle : toUINT v &&& 0x0FFF ≤ 0x0FFF := Nat.and_le_right
  have key : ∀ n : Nat, n ≤ 0x0FFF → toInt32 (n : Int) = (n : Int) ∧ toUINT (n : Int) = n := by
    intro n hn
    constructor
    · unfold toInt32
      omega
    · unfold toUINT
      omega
  have h2 := (key _ hle).1
  have h3 := (key _ hle).2
  have h4 : (0x0FFF : Nat) &&& 0xFF000000 = 0 := by decide
  have h5 : (0x0FFF : Nat) &&& 0x0FFF = 0x0FFF := by decide
  unfold bitand32
  rw [h1, h2, h3]
  refine ⟨?_, ?_⟩
  · rw [Nat.and_assoc, h4, Nat.and_zero]
  · rw [Nat.and_assoc, h5]

/-- C9 (as amended): for every item whose icon is cached, a display-info request with
`LVIF_IMAGE` outside thumbnails mode returns and appends exactly one icon job, for the item and
its internal index, to the jobs of the icon fetcher (after the column job, when one is due in
details mode). It changes only the image and the mask of the `LVITEM`: `LVIF_DI_SETITEM` is set,
and the image is taken from the cached value, with the upper eight bits zero and the low twelve
bits those of the cached value; for a cached value whose image index is below 4096 the image is
exactly the cached value without its upper eight bits. -/
theorem cached_icon_used_and_job_queued (h : Helpers) (s : ShellBrowser) (plvItem : LVITEM)
    (itemInfo : ItemInfo_t) (cachedIconIndex : Int) (columnType : ColumnType)
    (hmode : s.m_folderSettings.viewMode ≠ ViewMode.Thumbnails)
    (himage : plvItem.mask &&& LVIF_IMAGE = LVIF_IMAGE)
    (hcolumn : s.m_folderSettings.viewMode = ViewMode.Details
        ∧ plvItem.mask &&& LVIF_TEXT = LVIF_TEXT →
      h.GetColumnTypeByIndex s plvItem.iSubItem = some columnType)
    (hitem : mapFind s.m_itemInfoMap (toInt32 plvItem.lParam) = some itemInfo)
    (hcached : GetCachedIconIndex s itemInfo = some cachedIconIndex) :
    (OnListViewGetDisplayInfo h s plvItem).state.iconTasks
        = s.iconTasks
          ++ [{ pidl := itemInfo.pidlComplete, internalIndex := toInt32 plvItem.lParam }]
      ∧ ∃ item : LVITEM,
          OnListViewGetDisplayInfo h s plvItem
            = Outcome.returned
                (QueueIconTask
                  (if s.m_folderSettings.viewMode = ViewMode.Details
                      ∧ plvItem.mask &&& LVIF_TEXT = LVIF_TEXT then
                    QueueColumnTask s (toInt32 plvItem.lParam) columnType
                  else s)
                  itemInfo.pidlComplete (toInt32 plvItem.lParam))
                item
          ∧ item = { plvItem with
              iImage := item.iImage
              mask := plvItem.mask ||| LVIF_DI_SETITEM }
          ∧ toUINT item.iImage &&& 0xFF000000 = 0
          ∧ toUINT item.iImage &&& 0x0FFF = toUINT cachedIconIndex &&& 0x0FFF
          ∧ (toUINT cachedIconIndex &&& 0x00FFF000 = 0 →
              item.iImage = bitand32 cachedIconIndex 0x00FFFFFF) := by
  have hout : OnListViewGetDisplayInfo h s plvItem
      = Outcome.returned
          (QueueIconTask
            (if s.m_folderSettings.viewMode = ViewMode.Details
                ∧ plvItem.mask &&& LVIF_TEXT = LVIF_TEXT then
              QueueColumnTask s (toInt32 plvItem.lParam) columnType
            else s)
            itemInfo.pidlComplete (toInt32 plvItem.lParam))
          { plvItem with
            iImage := bitand32 cachedIconIndex 0x0FFF
            mask := plvItem.mask ||| LVIF_DI_SETITEM } := by
    unfold OnListViewGetDisplayInfo
    have hthumb : ¬ (s.m_folderSettings.viewMode = ViewMode.Thumbnails
        ∧ plvItem.mask &&& LVIF_IMAGE = LVIF_IMAGE) := fun hc => hmode hc.1
    simp only [hthumb, if_false]
    by_cases hd : s.m_folderSettings.viewMode = ViewMode.Details
        ∧ plvItem.mask &&& LVIF_TEXT = LVIF_TEXT
    · have hc : GetCachedIconIndex (QueueColumnTask s (toInt32 plvItem.lParam) columnType)
          itemInfo = some cachedIconIndex := hcached
      have hi : mapFind (QueueColumnTask s (toInt32 plvItem.lParam) columnType).m_itemInfoMap
          (toInt32 plvItem.lParam) = some itemInfo := hitem
      simp only [hd, and_self, if_true, hcolumn hd, himage, hi, hc]
    · simp only [hd, if_false, himage, if_true, hitem, hcached]
  have hbits := bitand32_0FFF_bits cachedIconIndex
  refine ⟨?_, _, hout, rfl, hbits.1, hbits.2, fun hsmall => bitand32_low_of_small _ hsmall⟩
  rw [hout]
  by_cases hd : s.m_folderSettings.viewMode = ViewMode.Details
      ∧ plvItem.mask &&& LVIF_TEXT = LVIF_TEXT
  · simp [hd, Outcome.state, QueueIconTask, QueueColumnTask]
  · simp [hd, Outcome.state, QueueIconTask]

/-- C9 (witness): for the cached icon `0x02000007` one icon job, for item 9 with internal
index 5, is queued, and the image reported is 7, the cached value without its upper eight
bits. -/
theorem cached_icon_used_and_job_queued_witness :
    cachedIconBrowser.m_folderSettings.viewMode ≠ ViewMode.Thumbnails
      ∧ (imageRequest 5).mask &&& LVIF_IMAGE = LVIF_IMAGE
      ∧ mapFind cachedIconBrowser.m_itemInfoMap (toInt32 (imageRequest 5).lParam)
          = some (sampleItem 9 0 ['a'])
      ∧ GetCachedIconIndex cachedIconBrowser (sampleItem 9 0 ['a']) = some 0x02000007
      ∧ (OnListViewGetDisplayInfo sampleHelpers cachedIconBrowser
          (imageRequest 5)).state.iconTasks
          = cachedIconBrowser.iconTasks
            ++ [{ pidl := (sampleItem 9 0 ['a']).pidlComplete
                  internalIndex := toInt32 (imageRequest 5).lParam }]
      ∧ OnListViewGetDisplayInfo sampleHelpers cachedIconBrowser (imageRequest 5)
          = Outcome.returned
              { cachedIconBrowser with iconTasks := [{ pidl := 9, internalIndex := 5 }] }
              { imageRequest 5 with
                iImage := bitand32 0x02000007 0x00FFFFFF
                mask := LVIF_IMAGE ||| LVIF_DI_SETITEM } :=
  have h := cached_icon_used_and_job_queued sampleHelpers cachedIconBrowser (imageRequest 5)
    (sampleItem 9 0 ['a']) 0x02000007 0 (by decide) (by decide) (by decide) (by decide)
    (by decide)
  ⟨by decide, by decide, by decide, by decide, h.1,
    match h.2 with
    | ⟨item, hout, hfields, _, _, hexact⟩ => by
      rw [hout, hfields, hexact (by decide)]
      decide⟩

/-- C10: for an item with no cached icon, a display-info request with `LVIF_IMAGE` outside
thumbnails mode returns with the default folder icon as the image when the attributes of the item
contain `FILE_ATTRIBUTE_DIRECTORY` and with the default file icon when they do not (so, the two
icons being different, the image is the folder icon exactly for directories), and
`LVIF_DI_SETITEM` is set in the mask it returns. -/
theorem placeholder_icon (h : Helpers) (s : ShellBrowser) (plvItem : LVITEM)
    (itemInfo : ItemInfo_t) (columnType : ColumnType)
    (hmode : s.m_folderSettings.viewMode ≠ ViewMode.Thumbnails)
    (himage : plvItem.mask &&& LVIF_IMAGE = LVIF_IMAGE)
    (hcolumn : s.m_folderSettings.viewMode = ViewMode.Details
        ∧ plvItem.mask &&& LVIF_TEXT = LVIF_TEXT →
      h.GetColumnTypeByIndex s plvItem.iSubItem = some columnType)
    (hitem : mapFind s.m_itemInfoMap (toInt32 plvItem.lParam) = some itemInfo)
    (hcached : GetCachedIconIndex s itemInfo = none) :
    OnListViewGetDisplayInfo h s plvItem
        = Outcome.returned
            (QueueIconTask
              (if s.m_folderSettings.viewMode = ViewMode.Details
                  ∧ plvItem.mask &&& LVIF_TEXT = LVIF_TEXT then
                QueueColumnTask s (toInt32 plvItem.lParam) columnType
              else s)
              itemInfo.pidlComplete (toInt32 plvItem.lParam))
            { plvItem with
              iImage :=
                if itemInfo.wfd.dwFileAttributes &&& FILE_ATTRIBUTE_DIRECTORY
                    = FILE_ATTRIBUTE_DIRECTORY then s.m_iFolderIcon
                else s.m_iFileIcon
              mask := plvItem.mask ||| LVIF_DI_SETITEM }
      ∧ (s.m_iFolderIcon ≠ s.m_iFileIcon →
          ((if itemInfo.wfd.dwFileAttributes &&& FILE_ATTRIBUTE_DIRECTORY
                = FILE_ATTRIBUTE_DIRECTORY then s.m_iFolderIcon
            else s.m_iFileIcon) = s.m_iFolderIcon ↔
            itemInfo.wfd.dwFileAttributes &&& FILE_ATTRIBUTE_DIRECTORY
              = FILE_ATTRIBUTE_DIRECTORY))
      ∧ (plvItem.mask ||| LVIF_DI_SETITEM) &&& LVIF_DI_SETITEM = LVIF_DI_SETITEM := by
  refine ⟨?_, ?_, or_and_self_right _ _⟩
  · unfold OnListViewGetDisplayInfo
    have hthumb : ¬ (s.m_folderSettings.viewMode = ViewMode.Thumbnails
        ∧ plvItem.mask &&& LVIF_IMAGE = LVIF_IMAGE) := fun hc => hmode hc.1
    simp only [hthumb, if_false]
    by_cases hd : s.m_folderSettings.viewMode = ViewMode.Details
        ∧ plvItem.mask &&& LVIF_TEXT = LVIF_TEXT
    · have hc : GetCachedIconIndex (QueueColumnTask s (toInt32 plvItem.lParam) columnType)
          itemInfo = none := hcached
      have hi : mapFind (QueueColumnTask s (toInt32 plvItem.lParam) columnType).m_itemInfoMap
          (toInt32 plvItem.lParam) = some itemInfo := hitem
      simp only [hd, and_self, if_true, hcolumn hd, himage, hi, hc]
      rfl
    · simp only [hd, if_false, himage, if_true, hitem, hcached]
  · intro hne
    by_cases hdir : itemInfo.wfd.dwFileAttributes &&& FILE_ATTRIBUTE_DIRECTORY
        = FILE_ATTRIBUTE_DIRECTORY
    · simp [hdir]
    · simp only [hdir, if_false, iff_false]
      exact fun hc => hne hc.symm

/-- C10 (witness): in details mode with text and image requested, the directory gets the folder
icon 3 and the file the file icon 4; both requests queue a column job and an icon job. -/
theorem placeholder_icon_witness :
    (OnListViewGetDisplayInfo sampleHelpers
          { folderAndFileBrowser with
            m_folderSettings := { viewMode := ViewMode.Details, showInGroups := false } }
          { imageRequest 5 with mask := LVIF_TEXT ||| LVIF_IMAGE }
        = Outcome.returned
            { folderAndFileBrowser with
              m_folderSettings := { viewMode := ViewMode.Details, showInGroups := false }
              columnTasks := [(5, 0)]
              iconTasks := [{ pidl := 9, internalIndex := 5 }] }
            { imageRequest 5 with
              iImage := 3, mask := LVIF_TEXT ||| LVIF_IMAGE ||| LVIF_DI_SETITEM })
      ∧ (OnListViewGetDisplayInfo sampleHelpers folderAndFileBrowser (imageRequest 6)
        = Outcome.returned
            { folderAndFileBrowser with iconTasks := [{ pidl := 10, internalIndex := 6 }] }
            { imageRequest 6 with iImage := 4, mask := LVIF_IMAGE ||| LVIF_DI_SETITEM }) :=
  ⟨(placeholder_icon sampleHelpers
      { folderAndFileBrowser with
        m_folderSettings := { viewMode := ViewMode.Details, showInGroups := false } }
      { imageRequest 5 with mask := LVIF_TEXT ||| LVIF_IMAGE }
      (sampleItem 9 FILE_ATTRIBUTE_DIRECTORY ['d']) 0 (by decide) (by decide) (by decide)
      (by decide) (by decide)).1,
    (placeholder_icon sampleHelpers folderAndFileBrowser (imageRequest 6)
      (sampleItem 10 0 ['f']) 0 (by decide) (by decide) (by decide) (by decide)
      (by decide)).1⟩

/-! ## Result ids -/

theorem toInt32_of_IsInt32 (i : Int) (h : IsInt32 i) : toInt32 i = i := by
  unfold IsInt32 at h
  unfold toInt32
  omega

theorem mapFind_none_of_keys_lt {β : Type} (m : List (Int × β)) (key : Int)
    (h : ∀ e ∈ m, e.1 < key) : mapFind m key = none := by
  induction m with
  | nil => rfl
  | cons e rest ih =>
    obtain ⟨k, v⟩ := e
    have hk : k < key := h (k, v) (List.mem_cons_self _ _)
    have hne : ¬ k = key := by omega
    simp only [mapFind, hne, if_false]
    exact ih (fun e he => h e (List.mem_cons_of_mem _ he))

theorem fst_mem_of_mem_mapErase {β : Type} (m : List (Int × β)) (key : Int) (e : Int × β)
    (h : e ∈ mapErase m key) : e ∈ m := by
  induction m with
  | nil => simp [mapErase] at h
  | cons x rest ih =>
    obtain ⟨k, v⟩ := x
    by_cases hk : k = key
    · simp only [mapErase, hk, if_true] at h
      exact List.mem_cons_of_mem _ (ih h)
    · simp only [mapErase, hk, if_false, List.mem_cons] at h
      rcases h with h | h
      · simp [h]
      · exact List.mem_cons_of_mem _ (ih h)

theorem key_mem_of_mem_mapSet {β : Type} (m : List (Int × β)) (key : Int) (value : β)
    (e : Int × β) (h : e ∈ mapSet m key value) : ∃ x ∈ m, x.1 = e.1 := by
  induction m with
  | nil => simp [mapSet] at h
  | cons x rest ih =>
    obtain ⟨k, v⟩ := x
    by_cases hk : k = key
    · simp only [mapSet, hk, if_true, List.mem_cons] at h
      rcases h with h | h
      · exact ⟨(k, v), List.mem_cons_self _ _, by simp [h, hk]⟩
      · obtain ⟨y, hy, hy2⟩ := ih h
        exact ⟨y, List.mem_cons_of_mem _ hy, hy2⟩
    · simp only [mapSet, hk, if_false, List.mem_cons] at h
      rcases h with h | h
      · exact ⟨(k, v), List.mem_cons_self _ _, by simp [h]⟩
      · obtain ⟨y, hy, hy2⟩ := ih h
        exact ⟨y, List.mem_cons_of_mem _ hy, hy2⟩

theorem QueueInfoTipTask_returned (s : ShellBrowser) (internalIndex : Int)
    (existingInfoTip : WString) (basicItemInfo : BasicItemInfo_t)
    (hitem : getBasicItemInfo s internalIndex = some basicItemInfo)
    (hint : IsInt32 (s.m_infoTipResultIDCounter + 1))
    (hfresh : mapFind s.m_infoTipResults s.m_infoTipResultIDCounter = none) :
    QueueInfoTipTask s internalIndex existingInfoTip
      = Outcome.returned
          { s with
            m_infoTipResultIDCounter := s.m_infoTipResultIDCounter + 1
            m_infoTipResults := s.m_infoTipResults ++
              [(s.m_infoTipResultIDCounter, InfoTipFuture.pending
                { infoTipResultId := s.m_infoTipResultIDCounter
                  internalIndex := internalIndex
                  basicItemInfo := basicItemInfo
                  configCopy := s.m_config
                  virtualFolder := InVirtualFolder s
                  existingInfoTip := existingInfoTip })] } () := by
  have hi : getBasicItemInfo
      { s with m_infoTipResultIDCounter := s.m_infoTipResultIDCounter + 1 }
      internalIndex = some basicItemInfo := hitem
  unfold QueueInfoTipTask
  simp only [toInt32_of_IsInt32 _ hint, hi, mapInsert, hfresh]
  rfl

theorem QueueInfoTipTask_state (s : ShellBrowser) (internalIndex : Int)
    (existingInfoTip : WString) :
    (QueueInfoTipTask s internalIndex existingInfoTip).state.m_infoTipResultIDCounter
        = toInt32 (s.m_infoTipResultIDCounter + 1)
      ∧ ∀ e ∈ (QueueInfoTipTask s internalIndex existingInfoTip).state.m_infoTipResults,
          e ∈ s.m_infoTipResults ∨ e.1 = s.m_infoTipResultIDCounter := by
  unfold QueueInfoTipTask
  simp only
  cases getBasicItemInfo
      { s with m_infoTipResultIDCounter := toInt32 (s.m_infoTipResultIDCounter + 1) }
      internalIndex with
  | none => exact ⟨rfl, fun e he => Or.inl he⟩
  | some b =>
    refine ⟨rfl, ?_⟩
    intro e he
    simp only [Outcome.state, mapInsert] at he
    cases hf : mapFind s.m_infoTipResults s.m_infoTipResultIDCounter with
    | some v =>
      simp only [hf] at he
      exact Or.inl he
    | none =>
      simp only [hf, List.mem_append, List.mem_singleton] at he
      rcases he with he | he
      · exact Or.inl he
      · exact Or.inr (by rw [he])

theorem workerRunInfoTipTask_frame (shell : Shell) (s : ShellBrowser) (id : Int) :
    (workerRunInfoTipTask shell s id).m_infoTipResultIDCounter = s.m_infoTipResultIDCounter
      ∧ (workerRunInfoTipTask shell s id).m_hListView = s.m_hListView
      ∧ (workerRunInfoTipTask shell s id).m_hResourceModule = s.m_hResourceModule
      ∧ (workerRunInfoTipTask shell s id).listView = s.listView
      ∧ (workerRunInfoTipTask shell s id).listViewCalls = s.listViewCalls
      ∧ ∀ e ∈ (workerRunInfoTipTask shell s id).m_infoTipResults,
          ∃ x ∈ s.m_infoTipResults, x.1 = e.1 := by
  unfold workerRunInfoTipTask
  cases h : mapFind s.m_infoTipResults id with
  | none => exact ⟨rfl, rfl, rfl, rfl, rfl, fun e he => ⟨e, he, rfl⟩⟩
  | some itr =>
    cases itr with
    | ready v => exact ⟨rfl, rfl, rfl, rfl, rfl, fun e he => ⟨e, he, rfl⟩⟩
    | pending t =>
      exact ⟨rfl, rfl, rfl, rfl, rfl, fun e he => key_mem_of_mem_mapSet _ _ _ e he⟩

theorem ProcessInfoTipResult_counter (shell : Shell) (s : ShellBrowser) (id : Int) :
    (ProcessInfoTipResult shell s id).m_infoTipResultIDCounter = s.m_infoTipResultIDCounter := by
  unfold ProcessInfoTipResult
  cases h : mapFind s.m_infoTipResults id with
  | none => rfl
  | some itr =>
    simp only
    cases (itr.get shell s).2 with
    | none => rfl
    | some r =>
      simp only
      cases LocateItemByInternalIndex _ r.itemInternalIndex <;> rfl

theorem ProcessIconResult_frame (s : ShellBrowser) (internalIndex iconIndex : Int) :
    (ProcessIconResult s internalIndex iconIndex).m_infoTipResultIDCounter
        = s.m_infoTipResultIDCounter
      ∧ (ProcessIconResult s internalIndex iconIndex).m_infoTipResults = s.m_infoTipResults := by
  unfold ProcessIconResult
  cases LocateItemByInternalIndex s internalIndex <;> exact ⟨rfl, rfl⟩

/-- The ids in the table are below the counter, and the counter has room for `n` more calls. -/
theorem applyEvent_ids_below_counter (shell : Shell) (s : ShellBrowser) (event : BrowserEvent)
    (n : Nat) (hlow : -2147483648 ≤ s.m_infoTipResultIDCounter)
    (hroom : s.m_infoTipResultIDCounter + ((n : Int) + 1) < 2147483648)
    (hbelow : ∀ e ∈ s.m_infoTipResults, e.1 < s.m_infoTipResultIDCounter) :
    s.m_infoTipResultIDCounter ≤ (applyEvent shell s event).m_infoTipResultIDCounter
      ∧ (applyEvent shell s event).m_infoTipResultIDCounter + (n : Int) < 2147483648
      ∧ ∀ e ∈ (applyEvent shell s event).m_infoTipResults,
          e.1 < (applyEvent shell s event).m_infoTipResultIDCounter := by
  cases event with
  | queueInfoTip internalIndex existingInfoTip =>
    have hq := QueueInfoTipTask_state s internalIndex existingInfoTip
    have hint : IsInt32 (s.m_infoTipResultIDCounter + 1) := by
      unfold IsInt32
      omega
    simp only [applyEvent]
    rw [hq.1, toInt32_of_IsInt32 _ hint]
    refine ⟨by omega, by omega, ?_⟩
    intro e he
    rcases hq.2 e he with h | h
    · have := hbelow e h
      omega
    · omega
  | workerRuns id =>
    have hw := workerRunInfoTipTask_frame shell s id
    simp only [applyEvent]
    rw [hw.1]
    refine ⟨le_refl _, by omega, ?_⟩
    intro e he
    obtain ⟨x, hx, hxe⟩ := hw.2.2.2.2.2 e he
    have := hbelow x hx
    omega
  | infoTipReady id =>
    simp only [applyEvent]
    rw [ProcessInfoTipResult_counter, ProcessInfoTipResult_results]
    refine ⟨le_refl _, by omega, ?_⟩
    intro e he
    exact hbelow e (fst_mem_of_mem_mapErase _ _ e he)
  | iconReady internalIndex iconIndex =>
    have hi := ProcessIconResult_frame s internalIndex iconIndex
    simp only [applyEvent]
    rw [hi.1, hi.2]
    exact ⟨le_refl _, by omega, hbelow⟩

theorem applyEvents_ids_below_counter (shell : Shell) (s : ShellBrowser)
    (events : List BrowserEvent) (hlow : -2147483648 ≤ s.m_infoTipResultIDCounter)
    (hroom : s.m_infoTipResultIDCounter + (events.length : Int) < 2147483648)
    (hbelow : ∀ e ∈ s.m_infoTipResults, e.1 < s.m_infoTipResultIDCounter) :
    s.m_infoTipResultIDCounter ≤ (applyEvents shell s events).m_infoTipResultIDCounter
      ∧ (applyEvents shell s events).m_infoTipResultIDCounter < 2147483648
      ∧ ∀ e ∈ (applyEvents shell s events).m_infoTipResults,
          e.1 < (applyEvents shell s events).m_infoTipResultIDCounter := by
  induction events generalizing s with
  | nil => exact ⟨le_refl _, by simpa using hroom, hbelow⟩
  | cons event rest ih =>
    simp only [List.length_cons, Nat.cast_add, Nat.cast_one] at hroom
    have h1 := applyEvent_ids_below_counter shell s event rest.length hlow hroom hbelow
    have h2 := ih (applyEvent shell s event) (by omega) h1.2.1 h1.2.2
    simp only [applyEvents, List.foldl_cons] at h2 ⊢
    exact ⟨by omega, h2.2.1, h2.2.2⟩

/-- C5: result ids are unique and increasing. A call of `QueueInfoTipTask` for an item of the
item map returns, uses the current counter value as the id of the job, advances the counter by
exactly one and appends exactly one entry, under that id, which had no entry before. After any
events that follow (further calls, worker runs, deliveries), the counter is strictly greater than
that id, has no entry, and exceeds every id in the table, so the next call gets a strictly
greater id that no job has. The counter is an `int` short of wrap-around. -/
theorem result_ids_unique_and_increasing (shell : Shell) (s : ShellBrowser)
    (internalIndex : Int) (existingInfoTip : WString) (basicItemInfo : BasicItemInfo_t)
    (later : List BrowserEvent)
    (hitem : getBasicItemInfo s internalIndex = some basicItemInfo)
    (hlow : -2147483648 ≤ s.m_infoTipResultIDCounter)
    (hroom : s.m_infoTipResultIDCounter + ((later.length : Int) + 1) < 2147483648)
    (hbelow : ∀ e ∈ s.m_infoTipResults, e.1 < s.m_infoTipResultIDCounter) :
    QueueInfoTipTask s internalIndex existingInfoTip
        = Outcome.returned
            { s with
              m_infoTipResultIDCounter := s.m_infoTipResultIDCounter + 1
              m_infoTipResults := s.m_infoTipResults ++
                [(s.m_infoTipResultIDCounter, InfoTipFuture.pending
                  { infoTipResultId := s.m_infoTipResultIDCounter
                    internalIndex := internalIndex
                    basicItemInfo := basicItemInfo
                    configCopy := s.m_config
                    virtualFolder := InVirtualFolder s
                    existingInfoTip := existingInfoTip })] } ()
      ∧ mapFind s.m_infoTipResults s.m_infoTipResultIDCounter = none
      ∧ s.m_infoTipResultIDCounter
          < (applyEvents shell (QueueInfoTipTask s internalIndex existingInfoTip).state
              later).m_infoTipResultIDCounter
      ∧ mapFind
          (applyEvents shell (QueueInfoTipTask s internalIndex existingInfoTip).state
            later).m_infoTipResults
          (applyEvents shell (QueueInfoTipTask s internalIndex existingInfoTip).state
            later).m_infoTipResultIDCounter = none
      ∧ ∀ e ∈ (applyEvents shell (QueueInfoTipTask s internalIndex existingInfoTip).state
            later).m_infoTipResults,
          e.1 < (applyEvents shell (QueueInfoTipTask s internalIndex existingInfoTip).state
            later).m_infoTipResultIDCounter := by
  have hfresh := mapFind_none_of_keys_lt _ _ hbelow
  have hint : IsInt32 (s.m_infoTipResultIDCounter + 1) := by
    unfold IsInt32
    omega
  have hq := QueueInfoTipTask_returned s internalIndex existingInfoTip basicItemInfo hitem hint
    hfresh
  have h1 := applyEvent_ids_below_counter shell s
    (BrowserEvent.queueInfoTip internalIndex existingInfoTip) later.length hlow hroom hbelow
  simp only [applyEvent] at h1
  have hc : (QueueInfoTipTask s internalIndex existingInfoTip).state.m_infoTipResultIDCounter
      = s.m_infoTipResultIDCounter + 1 := by
    rw [hq]
    rfl
  have h2 := applyEvents_ids_below_counter shell
    (QueueInfoTipTask s internalIndex existingInfoTip).state later (by omega) h1.2.1 h1.2.2
  refine ⟨hq, hfresh, by omega, mapFind_none_of_keys_lt _ _ h2.2.2, h2.2.2⟩

/-- C5 (witness): the first call on the sample browser gets id 0; after a second call, a worker
run and a delivery, the counter is 2 and the only id in the table is 1. -/
theorem result_ids_unique_and_increasing_witness :
    getBasicItemInfo (sampleBrowser [sampleRow 5] [(5, sampleItem 9 0 ['a'])]) 5
        = some { pidlComplete := 9, wfd := (sampleItem 9 0 ['a']).wfd }
      ∧ (QueueInfoTipTask (sampleBrowser [sampleRow 5] [(5, sampleItem 9 0 ['a'])]) 5
          ['A']).state.m_infoTipResultIDCounter = 1
      ∧ (0 : Int)
          < (applyEvents sampleShell
              (QueueInfoTipTask (sampleBrowser [sampleRow 5] [(5, sampleItem 9 0 ['a'])]) 5
                ['A']).state
              [BrowserEvent.queueInfoTip 5 ['B'], BrowserEvent.workerRuns 0,
                BrowserEvent.infoTipReady 0]).m_infoTipResultIDCounter
      ∧ (applyEvents sampleShell
              (QueueInfoTipTask (sampleBrowser [sampleRow 5] [(5, sampleItem 9 0 ['a'])]) 5
                ['A']).state
              [BrowserEvent.queueInfoTip 5 ['B'], BrowserEvent.workerRuns 0,
                BrowserEvent.infoTipReady 0]).m_infoTipResultIDCounter = 2
      ∧ (applyEvents sampleShell
              (QueueInfoTipTask (sampleBrowser [sampleRow 5] [(5, sampleItem 9 0 ['a'])]) 5
                ['A']).state
              [BrowserEvent.queueInfoTip 5 ['B'], BrowserEvent.workerRuns 0,
                BrowserEvent.infoTipReady 0]).m_infoTipResults.map (fun e => e.1) = [1] :=
  have h := result_ids_unique_and_increasing sampleShell
    (sampleBrowser [sampleRow 5] [(5, sampleItem 9 0 ['a'])]) 5 ['A']
    { pidlComplete := 9, wfd := (sampleItem 9 0 ['a']).wfd }
    [BrowserEvent.queueInfoTip 5 ['B'], BrowserEvent.workerRuns 0, BrowserEvent.infoTipReady 0]
    (by decide) (by decide) (by decide) (by decide)
  ⟨by decide, by decide, h.2.2.1, by decide, by decide⟩

/-! ## Snapshots -/

theorem workerRunInfoTipTask_pending (shell : Shell) (s : ShellBrowser) (id : Int)
    (t : InfoTipTask) (h : mapFind s.m_infoTipResults id = some (InfoTipFuture.pending t)) :
    (workerRunInfoTipTask shell s id).postedMessages
        = s.postedMessages ++ (runInfoTipTask shell s t).1
      ∧ (workerRunInfoTipTask shell s id).m_infoTipResults
        = mapSet s.m_infoTipResults id (InfoTipFuture.ready (runInfoTipTask shell s t).2) := by
  simp [workerRunInfoTipTask, h]

theorem GetInfoTipAsync_snd (shell : Shell) (listView1 listView2 : HWND)
    (infoTipResultId internalIndex : Int) (basicItemInfo : BasicItemInfo_t) (config : Config)
    (hInstance : HINSTANCE) (virtualFolder : Bool) :
    (GetInfoTipAsync shell listView1 infoTipResultId internalIndex basicItemInfo config
        hInstance virtualFolder).2
      = (GetInfoTipAsync shell listView2 infoTipResultId internalIndex basicItemInfo config
        hInstance virtualFolder).2 := by
  unfold GetInfoTipAsync
  dsimp only
  split <;> rfl

theorem runInfoTipTask_snd (shell : Shell) (s s2 : ShellBrowser) (t : InfoTipTask)
    (h : s2.m_hResourceModule = s.m_hResourceModule) :
    (runInfoTipTask shell s2 t).2 = (runInfoTipTask shell s t).2 := by
  unfold runInfoTipTask
  dsimp only
  rw [h, GetInfoTipAsync_snd shell s2.m_hListView s.m_hListView]
  split <;> (try split) <;> rfl

/-- C8: an info-tip job runs on the values copied when it was queued. Two browsers that agree on
the counter, on the item, on the configuration, on the virtual-folder flag and on the resource
module queue, for the same index and existing text, jobs with the same result: whatever item
map, configuration, directory state and rows each browser has by the time the job runs, the
value the worker stores, and the value `ProcessInfoTipResult` obtains, is the one computed from
the copied values and the shell lookups alone. -/
theorem jobs_run_on_snapshots (shell : Shell) (s1 s2 : ShellBrowser) (internalIndex : Int)
    (existingInfoTip : WString) (basicItemInfo : BasicItemInfo_t)
    (items1 items2 : List (Int × ItemInfo_t)) (config1 config2 : Config)
    (directoryState1 directoryState2 : DirectoryState) (rows1 rows2 : List ListViewRow)
    (hitem1 : getBasicItemInfo s1 internalIndex = some basicItemInfo)
    (hitem2 : getBasicItemInfo s2 internalIndex = some basicItemInfo)
    (hid : s2.m_infoTipResultIDCounter = s1.m_infoTipResultIDCounter)
    (hconfig : s2.m_config = s1.m_config)
    (hvirtual : InVirtualFolder s2 = InVirtualFolder s1)
    (hmodule : s2.m_hResourceModule = s1.m_hResourceModule)
    (hint : IsInt32 (s1.m_infoTipResultIDCounter + 1))
    (hfresh1 : mapFind s1.m_infoTipResults s1.m_infoTipResultIDCounter = none)
    (hfresh2 : mapFind s2.m_infoTipResults s2.m_infoTipResultIDCounter = none) :
    mapFind
        (workerRunInfoTipTask shell
          (changedAfterSubmission (QueueInfoTipTask s1 internalIndex existingInfoTip).state
            items1 config1 directoryState1 rows1)
          s1.m_infoTipResultIDCounter).m_infoTipResults s1.m_infoTipResultIDCounter
        = some (InfoTipFuture.ready
            (runInfoTipTask shell s1
              { infoTipResultId := s1.m_infoTipResultIDCounter
                internalIndex := internalIndex
                basicItemInfo := basicItemInfo
                configCopy := s1.m_config
                virtualFolder := InVirtualFolder s1
                existingInfoTip := existingInfoTip }).2)
      ∧ mapFind
          (workerRunInfoTipTask shell
            (changedAfterSubmission (QueueInfoTipTask s1 internalIndex existingInfoTip).state
              items1 config1 directoryState1 rows1)
            s1.m_infoTipResultIDCounter).m_infoTipResults s1.m_infoTipResultIDCounter
        = mapFind
          (workerRunInfoTipTask shell
            (changedAfterSubmission (QueueInfoTipTask s2 internalIndex existingInfoTip).state
              items2 config2 directoryState2 rows2)
            s2.m_infoTipResultIDCounter).m_infoTipResults s2.m_infoTipResultIDCounter
      ∧ infoTipResultOf shell
          (changedAfterSubmission (QueueInfoTipTask s1 internalIndex existingInfoTip).state
            items1 config1 directoryState1 rows1) s1.m_infoTipResultIDCounter
        = infoTipResultOf shell
          (changedAfterSubmission (QueueInfoTipTask s2 internalIndex existingInfoTip).state
            items2 config2 directoryState2 rows2) s2.m_infoTipResultIDCounter := by
  have hint2 : IsInt32 (s2.m_infoTipResultIDCounter + 1) := by rw [hid]; exact hint
  have hq1 := QueueInfoTipTask_returned s1 internalIndex existingInfoTip basicItemInfo hitem1
    hint hfresh1
  have hq2 := QueueInfoTipTask_returned s2 internalIndex existingInfoTip basicItemInfo hitem2
    hint2 hfresh2
  rw [hconfig, hvirtual, hid] at hq2
  rw [hid] at hfresh2
  have hf1 : mapFind
      (changedAfterSubmission (QueueInfoTipTask s1 internalIndex existingInfoTip).state
        items1 config1 directoryState1 rows1).m_infoTipResults s1.m_infoTipResultIDCounter
      = some (InfoTipFuture.pending
          { infoTipResultId := s1.m_infoTipResultIDCounter
            internalIndex := internalIndex
            basicItemInfo := basicItemInfo
            configCopy := s1.m_config
            virtualFolder := InVirtualFolder s1
            existingInfoTip := existingInfoTip }) := by
    rw [hq1]
    simp [changedAfterSubmission, Outcome.state, mapFind_append, hfresh1, mapFind]
  have hf2 : mapFind
      (changedAfterSubmission (QueueInfoTipTask s2 internalIndex existingInfoTip).state
        items2 config2 directoryState2 rows2).m_infoTipResults s1.m_infoTipResultIDCounter
      = some (InfoTipFuture.pending
          { infoTipResultId := s1.m_infoTipResultIDCounter
            internalIndex := internalIndex
            basicItemInfo := basicItemInfo
            configCopy := s1.m_config
            virtualFolder := InVirtualFolder s1
            existingInfoTip := existingInfoTip }) := by
    rw [hq2]
    simp [changedAfterSubmission, Outcome.state, mapFind_append, hfresh2, mapFind]
  have hr1 : ∀ t, runInfoTipTask shell
      (changedAfterSubmission (QueueInfoTipTask s1 internalIndex existingInfoTip).state
        items1 config1 directoryState1 rows1) t = runInfoTipTask shell s1 t := by
    intro t
    apply runInfoTipTask_congr
    · rw [hq1]; rfl
    · rw [hq1]; rfl
  have hr2 : ∀ t, (runInfoTipTask shell
      (changedAfterSubmission (QueueInfoTipTask s2 internalIndex existingInfoTip).state
        items2 config2 directoryState2 rows2) t).2 = (runInfoTipTask shell s1 t).2 := by
    intro t
    apply runInfoTipTask_snd
    rw [hq2]
    exact hmodule
  have hw1 := (workerRunInfoTipTask_pending shell _ _ _ hf1).2
  have hw2 := (workerRunInfoTipTask_pending shell _ _ _ hf2).2
  rw [hid]
  refine ⟨?_, ?_, ?_⟩
  · rw [hw1, mapFind_mapSet_self, hf1, hr1]
    rfl
  · rw [hw1, hw2, mapFind_mapSet_self, mapFind_mapSet_self, hf1, hf2, hr1, hr2]
  · simp only [infoTipResultOf, hf1, hf2, Option.some_bind, InfoTipFuture.get, hr1, hr2]

/-- C8 (witness): the same job is queued in two browsers; in the first the item is then removed
and the configuration switched to custom info tips, in the second a virtual folder is entered.
Both jobs yield the text computed from the copies taken at submission. -/
theorem jobs_run_on_snapshots_witness :
    mapFind
        (workerRunInfoTipTask sampleShell
          (changedAfterSubmission
            (QueueInfoTipTask (sampleBrowser [sampleRow 5] [(5, sampleItem 9 0 ['a'])]) 5
              ['A']).state
            [] { (sampleBrowser [] []).m_config with infoTipType := InfoTipType.Custom }
            { virtualFolder := false } [])
          0).m_infoTipResults 0
        = some (InfoTipFuture.ready
            (some { itemInternalIndex := 5, infoTip := ['A', Char.ofNat 10, 't', 'i', 'p'] }))
      ∧ mapFind
          (workerRunInfoTipTask sampleShell
            (changedAfterSubmission
              (QueueInfoTipTask
                (sampleBrowser [sampleRow 6, sampleRow 5]
                  [(6, sampleItem 0 0 ['b']), (5, sampleItem 9 0 ['a'])]) 5 ['A']).state
              [(5, sampleItem 0 0 ['c'])] (sampleBrowser [] []).m_config
              { virtualFolder := true } [sampleRow 5])
            0).m_infoTipResults 0
        = some (InfoTipFuture.ready
            (some { itemInternalIndex := 5, infoTip := ['A', Char.ofNat 10, 't', 'i', 'p'] })) :=
  have h := jobs_run_on_snapshots sampleShell
    (sampleBrowser [sampleRow 5] [(5, sampleItem 9 0 ['a'])])
    (sampleBrowser [sampleRow 6, sampleRow 5]
      [(6, sampleItem 0 0 ['b']), (5, sampleItem 9 0 ['a'])])
    5 ['A'] { pidlComplete := 9, wfd := (sampleItem 9 0 ['a']).wfd }
    [] [(5, sampleItem 0 0 ['c'])]
    { (sampleBrowser [] []).m_config with infoTipType := InfoTipType.Custom }
    (sampleBrowser [] []).m_config { virtualFolder := false } { virtualFolder := true }
    [] [sampleRow 5]
    (by decide) (by decide) (by decide) (by decide) (by decide) (by decide) (by decide)
    (by decide) (by decide)
  ⟨h.1, h.2.1.symm.trans h.1⟩

/-! ## Wake-up messages -/

theorem wparamToInt_toWPARAM (i : Int) (h : IsInt32 i) : wparamToInt (toWPARAM i) = i := by
  unfold IsInt32 at h
  unfold wparamToInt toWPARAM toInt32
  rw [Int.toNat_of_nonneg (Int.emod_nonneg _ (by decide))]
  omega

theorem runInfoTipTask_fst (shell : Shell) (s : ShellBrowser) (t : InfoTipTask) :
    (runInfoTipTask shell s t).1
      = (GetInfoTipAsync shell s.m_hListView t.infoTipResultId t.internalIndex t.basicItemInfo
          t.configCopy s.m_hResourceModule t.virtualFolder).1 := by
  unfold runInfoTipTask
  dsimp only
  split
  · split <;> rfl
  · rfl

theorem GetInfoTipAsync_of_success (shell : Shell) (listView : HWND)
    (infoTipResultId internalIndex : Int) (basicItemInfo : BasicItemInfo_t) (config : Config)
    (hInstance : HINSTANCE) (virtualFolder : Bool)
    (h : lookupFails shell basicItemInfo config virtualFolder = false) :
    (GetInfoTipAsync shell listView infoTipResultId internalIndex basicItemInfo config hInstance
        virtualFolder).1 = [infoTipReadyMessage listView infoTipResultId] := by
  unfold lookupFails at h
  unfold GetInfoTipAsync
  by_cases hb : config.infoTipType = InfoTipType.System ∨ virtualFolder = true
  · simp only [hb, if_true] at h ⊢
    simp [h, infoTipReadyMessage]
  · simp only [hb, if_false] at h ⊢
    cases hc : shell.CreateFileTimeString basicItemInfo.wfd.ftLastWriteTime 256
        config.globalFolderSettings.showFriendlyDates with
    | none => simp [hc] at h
    | some text => simp [infoTipReadyMessage]

theorem runInfoTipTask_of_success (shell : Shell) (s : ShellBrowser) (t : InfoTipTask)
    (h : lookupFails shell t.basicItemInfo t.configCopy t.virtualFolder = false) :
    (runInfoTipTask shell s t).1 = [infoTipReadyMessage s.m_hListView t.infoTipResultId] := by
  rw [runInfoTipTask_fst, GetInfoTipAsync_of_success _ _ _ _ _ _ _ _ h]

theorem pendingJobSucceeds_iff (shell : Shell) (s : ShellBrowser) (id : Int) :
    pendingJobSucceeds shell s id = true ↔
      ∃ t, mapFind s.m_infoTipResults id = some (InfoTipFuture.pending t)
        ∧ t.infoTipResultId = id
        ∧ lookupFails shell t.basicItemInfo t.configCopy t.virtualFolder = false := by
  unfold pendingJobSucceeds
  cases h : mapFind s.m_infoTipResults id with
  | none => simp
  | some itr =>
    cases itr with
    | ready v => simp
    | pending t => simp

theorem workerRunInfoTipTask_of_success (shell : Shell) (s : ShellBrowser) (id : Int)
    (h : pendingJobSucceeds shell s id = true) :
    (workerRunInfoTipTask shell s id).postedMessages
        = s.postedMessages ++ [infoTipReadyMessage s.m_hListView id]
      ∧ ∀ other, other ≠ id →
          pendingJobSucceeds shell (workerRunInfoTipTask shell s id) other
            = pendingJobSucceeds shell s other := by
  obtain ⟨t, ht, hid, hok⟩ := (pendingJobSucceeds_iff shell s id).1 h
  have hw := workerRunInfoTipTask_pending shell s id t ht
  refine ⟨?_, ?_⟩
  · rw [hw.1, runInfoTipTask_of_success shell s t hok, hid]
  · intro other hne
    unfold pendingJobSucceeds
    rw [hw.2, mapFind_mapSet_ne _ _ _ _ hne]

theorem workerRunInfoTipTasks_posts (shell : Shell) (s : ShellBrowser) (ids : List Int)
    (hnodup : ids.Nodup) (hjobs : ∀ id ∈ ids, pendingJobSucceeds shell s id = true) :
    (workerRunInfoTipTasks shell s ids).postedMessages
      = s.postedMessages ++ ids.map (infoTipReadyMessage s.m_hListView) := by
  induction ids generalizing s with
  | nil => simp [workerRunInfoTipTasks]
  | cons id rest ih =>
    have hid := hjobs id (List.mem_cons_self _ _)
    have hw := workerRunInfoTipTask_of_success shell s id hid
    have hnd := List.nodup_cons.1 hnodup
    have hrest : ∀ other ∈ rest,
        pendingJobSucceeds shell (workerRunInfoTipTask shell s id) other = true := by
      intro other ho
      have hne : other ≠ id := fun hc => hnd.1 (hc ▸ ho)
      rw [hw.2 other hne]
      exact hjobs other (List.mem_cons_of_mem _ ho)
    have h := ih (workerRunInfoTipTask shell s id) hnd.2 hrest
    simp only [workerRunInfoTipTasks, List.foldl_cons] at h ⊢
    rw [h, hw.1, (workerRunInfoTipTask_frame shell s id).2.1]
    simp

theorem ListViewProc_infoTipReady (shell : Shell) (h : Helpers) (s : ShellBrowser) (id : Int)
    (hid : IsInt32 id) (listView : HWND) :
    ListViewProc shell h s (infoTipReadyMessage listView id).uMsg
        (infoTipReadyMessage listView id).wParam (infoTipReadyMessage listView id).lParam
      = ProcessInfoTipResult shell s id := by
  simp [ListViewProc, infoTipReadyMessage, wparamToInt_toWPARAM id hid]

theorem dispatchMessages_infoTipReady (shell : Shell) (h : Helpers) (s : ShellBrowser)
    (ids : List Int) (hids : ∀ id ∈ ids, IsInt32 id) (listView : HWND) :
    dispatchMessages shell h s (ids.map (infoTipReadyMessage listView))
      = processInfoTipResults shell s ids := by
  induction ids generalizing s with
  | nil => rfl
  | cons id rest ih =>
    have h1 := ListViewProc_infoTipReady shell h s id (hids id (List.mem_cons_self _ _)) listView
    have h2 := ih (ProcessInfoTipResult shell s id)
      (fun x hx => hids x (List.mem_cons_of_mem _ hx))
    simp only [dispatchMessages, processInfoTipResults, List.map_cons, List.foldl_cons] at h2 ⊢
    rw [h1, h2]

theorem processInfoTipResults_consumed (shell : Shell) (s : ShellBrowser) (ids : List Int)
    (id : Int) (h : id ∈ ids ∨ mapFind s.m_infoTipResults id = none) :
    mapFind (processInfoTipResults shell s ids).m_infoTipResults id = none := by
  induction ids generalizing s with
  | nil =>
    rcases h with h | h
    · simp at h
    · exact h
  | cons x rest ih =>
    simp only [processInfoTipResults, List.foldl_cons] at ih ⊢
    apply ih
    by_cases hx : id = x
    · right
      rw [ProcessInfoTipResult_results, hx]
      exact mapFind_mapErase_self _ _
    · rcases h with h | h
      · left
        simpa [hx] using h
      · right
        rw [ProcessInfoTipResult_results, mapFind_mapErase_ne _ _ _ hx]
        exact h

theorem ProcessInfoTipResult_calls (shell : Shell) (s : ShellBrowser) (id : Int) :
    (ProcessInfoTipResult shell s id).listViewCalls
      = s.listViewCalls ++ (infoTipCallFor shell s id).toList := by
  unfold infoTipCallFor
  cases hr : infoTipResultOf shell s id with
  | none =>
    have h := (ProcessInfoTipResult_unchanged shell s id (by simp [hr])).2
    simp [h]
  | some r =>
    cases hrow : LocateItemByInternalIndex s r.itemInternalIndex with
    | none =>
      have h := (ProcessInfoTipResult_unchanged shell s id (by
        intro r2 h2; rw [hr] at h2; cases h2; exact hrow)).2
      simp [h, hrow]
    | some row =>
      have h := (ProcessInfoTipResult_applied shell s id r row hr hrow).2
      simp [h, hrow]

theorem processInfoTipResults_calls (shell : Shell) (s : ShellBrowser) (ids : List Int)
    (hnodup : ids.Nodup) :
    (processInfoTipResults shell s ids).listViewCalls
      = s.listViewCalls ++ ids.filterMap (infoTipCallFor shell s) := by
  induction ids generalizing s with
  | nil => simp [processInfoTipResults]
  | cons id rest ih =>
    have hnd := List.nodup_cons.1 hnodup
    have h := ih (ProcessInfoTipResult shell s id) hnd.2
    have hsame : rest.filterMap (infoTipCallFor shell (ProcessInfoTipResult shell s id))
        = rest.filterMap (infoTipCallFor shell s) := by
      apply List.filterMap_congr
      intro other ho
      have hne : other ≠ id := fun hc => hnd.1 (hc ▸ ho)
      unfold infoTipCallFor
      rw [ProcessInfoTipResult_resultOf_ne _ _ _ _ hne]
      simp only [ProcessInfoTipResult_locate]
    simp only [processInfoTipResults, List.foldl_cons] at h ⊢
    rw [h, hsame, ProcessInfoTipResult_calls]
    cases hcall : infoTipCallFor shell s id <;> simp [List.filterMap_cons, hcall]

/-- C4 (counterexample): two jobs complete before any result is processed. Two wake messages are
posted, not one, and handling the first of them delivers the result of job 0 only: the row of
item 6 has no info tip yet and result 1 is still in the table. -/
theorem one_wakeup_per_burst_counterexample :
    burstQueued.postedMessages = []
      ∧ burstQueued.m_infoTipResults.map (fun e => e.1) = [0, 1]
      ∧ burstCompleted.postedMessages
          = [infoTipReadyMessage 100 0, infoTipReadyMessage 100 1]
      ∧ burstCompleted.postedMessages.length ≠ 1
      ∧ (ListViewProc sampleShell sampleHelpers burstCompleted UMsg.WM_APP_INFO_TIP_READY
          (toWPARAM 0) 0).listViewCalls = [ListViewCall.SetInfoTip 0 0 ['t', 'i', 'p']]
      ∧ (ListViewProc sampleShell sampleHelpers burstCompleted UMsg.WM_APP_INFO_TIP_READY
          (toWPARAM 0) 0).listView.map (fun r => r.infoTip) = [['t', 'i', 'p'], []]
      ∧ mapFind (ListViewProc sampleShell sampleHelpers burstCompleted
          UMsg.WM_APP_INFO_TIP_READY (toWPARAM 0) 0).m_infoTipResults 1
          = some (InfoTipFuture.ready (some { itemInternalIndex := 6, infoTip := ['t', 'i', 'p'] }))
      := by
  decide

/-- C4 (as amended): when the jobs of the distinct ids `ids` complete successfully before any
result is processed, one wake message per job is posted to the list view, in order of completion,
each with the id of its job in `wParam`, so `K` jobs post `K` messages. Handling these messages
processes the `K` results one by one: it makes, for each id, the list-view call of that result,
and afterwards none of the ids has an entry left. -/
theorem one_wakeup_per_completed_job (shell : Shell) (h : Helpers) (s : ShellBrowser)
    (ids : List Int) (hnodup : ids.Nodup) (hint : ∀ id ∈ ids, IsInt32 id)
    (hjobs : ∀ id ∈ ids, pendingJobSucceeds shell s id = true) :
    (workerRunInfoTipTasks shell s ids).postedMessages
        = s.postedMessages ++ ids.map (infoTipReadyMessage s.m_hListView)
      ∧ (ids.map (infoTipReadyMessage s.m_hListView)).length = ids.length
      ∧ dispatchMessages shell h (workerRunInfoTipTasks shell s ids)
          (ids.map (infoTipReadyMessage s.m_hListView))
        = processInfoTipResults shell (workerRunInfoTipTasks shell s ids) ids
      ∧ (dispatchMessages shell h (workerRunInfoTipTasks shell s ids)
          (ids.map (infoTipReadyMessage s.m_hListView))).listViewCalls
        = (workerRunInfoTipTasks shell s ids).listViewCalls
            ++ ids.filterMap (infoTipCallFor shell (workerRunInfoTipTasks shell s ids))
      ∧ ∀ id ∈ ids,
          mapFind (dispatchMessages shell h (workerRunInfoTipTasks shell s ids)
            (ids.map (infoTipReadyMessage s.m_hListView))).m_infoTipResults id = none := by
  have hd := dispatchMessages_infoTipReady shell h (workerRunInfoTipTasks shell s ids) ids hint
    s.m_hListView
  refine ⟨workerRunInfoTipTasks_posts shell s ids hnodup hjobs, by simp, hd, ?_, ?_⟩
  · rw [hd]
    exact processInfoTipResults_calls shell _ ids hnodup
  · intro id hid
    rw [hd]
    exact processInfoTipResults_consumed shell _ ids id (Or.inl hid)

/-- C4 (witness): the burst of two jobs posts the two messages for ids 0 and 1, and handling
both sets the info tips of both rows and empties the table. -/
theorem one_wakeup_per_completed_job_witness :
    [(0 : Int), 1].Nodup
      ∧ (∀ id ∈ [(0 : Int), 1], pendingJobSucceeds sampleShell burstQueued id = true)
      ∧ (workerRunInfoTipTasks sampleShell burstQueued [0, 1]).postedMessages
          = burstQueued.postedMessages
            ++ [(0 : Int), 1].map (infoTipReadyMessage burstQueued.m_hListView)
      ∧ (dispatchMessages sampleShell sampleHelpers
          (workerRunInfoTipTasks sampleShell burstQueued [0, 1])
          ([(0 : Int), 1].map (infoTipReadyMessage burstQueued.m_hListView))).listViewCalls
          = [ListViewCall.SetInfoTip 0 0 ['t', 'i', 'p'],
             ListViewCall.SetInfoTip 1 0 ['t', 'i', 'p']]
      ∧ (dispatchMessages sampleShell sampleHelpers
          (workerRunInfoTipTasks sampleShell burstQueued [0, 1])
          ([(0 : Int), 1].map (infoTipReadyMessage burstQueued.m_hListView))).m_infoTipResults
          = [] :=
  have h := one_wakeup_per_completed_job sampleShell sampleHelpers burstQueued [0, 1]
    (by decide) (by decide) (by decide)
  ⟨by decide, by decide, h.1, by decide, by decide⟩

/-! ## Open dispositions -/

/-- C11: `DetermineOpenDisposition` is a function of its three flags and of
`openTabsInForeground`. With the middle button or Ctrl down the result is `ForegroundTab` when
`openTabsInForeground` and Shift differ and `BackgroundTab` when they agree, so toggling Shift
swaps the two; with neither down it is `NewWindow` when Shift is down and `CurrentTab` when it
is not. -/
theorem determine_open_disposition (app : Explorerplusplus)
    (isMiddleButtonDown isCtrlKeyDown isShiftKeyDown : Bool) :
    ((isMiddleButtonDown || isCtrlKeyDown) = true →
        DetermineOpenDisposition app isMiddleButtonDown isCtrlKeyDown isShiftKeyDown
          = (if xor app.m_config.openTabsInForeground isShiftKeyDown then
              OpenFolderDisposition.ForegroundTab
            else OpenFolderDisposition.BackgroundTab))
      ∧ ((isMiddleButtonDown || isCtrlKeyDown) = true →
        (DetermineOpenDisposition app isMiddleButtonDown isCtrlKeyDown (!isShiftKeyDown)
            = OpenFolderDisposition.ForegroundTab ↔
          DetermineOpenDisposition app isMiddleButtonDown isCtrlKeyDown isShiftKeyDown
            = OpenFolderDisposition.BackgroundTab)
        ∧ (DetermineOpenDisposition app isMiddleButtonDown isCtrlKeyDown (!isShiftKeyDown)
            = OpenFolderDisposition.BackgroundTab ↔
          DetermineOpenDisposition app isMiddleButtonDown isCtrlKeyDown isShiftKeyDown
            = OpenFolderDisposition.ForegroundTab))
      ∧ ((isMiddleButtonDown || isCtrlKeyDown) = false →
        DetermineOpenDisposition app isMiddleButtonDown isCtrlKeyDown isShiftKeyDown
          = (if isShiftKeyDown then OpenFolderDisposition.NewWindow
            else OpenFolderDisposition.CurrentTab)) := by
  cases isMiddleButtonDown <;> cases isCtrlKeyDown <;> cases isShiftKeyDown <;>
    cases h : app.m_config.openTabsInForeground <;> simp [DetermineOpenDisposition, h]

/-- C11 (witness): with tabs opened in the background, Ctrl gives a background tab, Ctrl with
Shift a foreground tab, Shift alone a new window and no key the current tab. -/
theorem determine_open_disposition_witness :
    DetermineOpenDisposition (sampleApp false) false true false
        = OpenFolderDisposition.BackgroundTab
      ∧ DetermineOpenDisposition (sampleApp false) false true true
        = OpenFolderDisposition.ForegroundTab
      ∧ DetermineOpenDisposition (sampleApp false) false false true
        = OpenFolderDisposition.NewWindow
      ∧ DetermineOpenDisposition (sampleApp false) false false false
        = OpenFolderDisposition.CurrentTab :=
  ⟨(determine_open_disposition (sampleApp false) false true false).1 (by decide),
    (determine_open_disposition (sampleApp false) false true true).1 (by decide),
    (determine_open_disposition (sampleApp false) false false true).2.2 (by decide),
    (determine_open_disposition (sampleApp false) false false false).2.2 (by decide)⟩

/-! ## Zip files and shortcuts -/

/-- C19: an item whose attributes contain both `SFGAO_FOLDER` and `SFGAO_STREAM` is opened by
one call: `OpenFolderItem` with the given disposition when `handleZipFiles` is set, `OpenFileItem`
when it is not. Whether the item is a child of the control panel plays no part. -/
theorem zip_file_handling (ns : ShellNamespace) (app : Explorerplusplus) (pidlItem : PIDL)
    (openFolderDisposition : OpenFolderDisposition)
    (hquery : SUCCEEDED
      (ns.GetItemAttributes pidlItem (SFGAO_FOLDER ||| SFGAO_STREAM ||| SFGAO_LINK)).1 = true)
    (hfolder : (ns.GetItemAttributes pidlItem
      (SFGAO_FOLDER ||| SFGAO_STREAM ||| SFGAO_LINK)).2 &&& SFGAO_FOLDER ≠ 0)
    (hstream : (ns.GetItemAttributes pidlItem
      (SFGAO_FOLDER ||| SFGAO_STREAM ||| SFGAO_LINK)).2 &&& SFGAO_STREAM ≠ 0) :
    OpenItem ns app pidlItem openFolderDisposition
        = (if app.m_config.handleZipFiles then
            [OpenItemCall.OpenFolderItem pidlItem openFolderDisposition]
          else [OpenItemCall.OpenFileItem pidlItem EMPTY_STRING])
      ∧ (OpenItem ns app pidlItem openFolderDisposition
          = [OpenItemCall.OpenFolderItem pidlItem openFolderDisposition]
        ↔ app.m_config.handleZipFiles = true)
      ∧ (OpenItem ns app pidlItem openFolderDisposition
          = [OpenItemCall.OpenFileItem pidlItem EMPTY_STRING]
        ↔ app.m_config.handleZipFiles = false) := by
  have h : OpenItem ns app pidlItem openFolderDisposition
      = (if app.m_config.handleZipFiles then
          [OpenItemCall.OpenFolderItem pidlItem openFolderDisposition]
        else [OpenItemCall.OpenFileItem pidlItem EMPTY_STRING]) := by
    unfold OpenItem
    simp [hquery, hasFlag, hfolder, hstream]
  refine ⟨h, ?_, ?_⟩
  · rw [h]
    cases app.m_config.handleZipFiles <;> simp
  · rw [h]
    cases app.m_config.handleZipFiles <;> simp

/-- C19 (witness): the zip file, item 1, is passed to `OpenFolderItem` with zip handling on and
to `OpenFileItem` with zip handling off. -/
theorem zip_file_handling_witness :
    OpenItem (sampleNamespace 0) (sampleApp true) 1 OpenFolderDisposition.CurrentTab
        = [OpenItemCall.OpenFolderItem 1 OpenFolderDisposition.CurrentTab]
      ∧ OpenItem (sampleNamespace 0) (sampleApp false) 1 OpenFolderDisposition.CurrentTab
        = [OpenItemCall.OpenFileItem 1 EMPTY_STRING] :=
  ⟨(zip_file_handling (sampleNamespace 0) (sampleApp true) 1 OpenFolderDisposition.CurrentTab
      (by decide) (by decide) (by decide)).1,
    (zip_file_handling (sampleNamespace 0) (sampleApp false) 1 OpenFolderDisposition.CurrentTab
      (by decide) (by decide) (by decide)).1⟩

/-- C18: a shortcut whose resolution returns `S_FALSE` (a success code other than `S_OK`) is
neither followed nor opened as a file: `OpenItem` makes no call at all. With `S_OK` the folder
target is opened, and with `E_FAIL` the shortcut itself is opened as a file. -/
theorem shortcut_not_opened_on_S_FALSE :
    (sampleNamespace S_FALSE).GetItemAttributes 7 (SFGAO_FOLDER ||| SFGAO_STREAM ||| SFGAO_LINK)
        = (S_OK, SFGAO_LINK)
      ∧ bControlPanelParent (sampleNamespace S_FALSE) 7 = false
      ∧ OpenItem (sampleNamespace S_FALSE) (sampleApp false) 7 OpenFolderDisposition.CurrentTab
        = []
      ∧ OpenItem (sampleNamespace S_OK) (sampleApp false) 7 OpenFolderDisposition.CurrentTab
        = [OpenItemCall.OpenFolderItem 2 OpenFolderDisposition.CurrentTab]
      ∧ OpenItem (sampleNamespace E_FAIL) (sampleApp false) 7 OpenFolderDisposition.CurrentTab
        = [OpenItemCall.OpenFileItem 7 EMPTY_STRING] := by
  decide

theorem OpenItem_shortcut (ns : ShellNamespace) (app : Explorerplusplus) (pidlItem : PIDL)
    (openFolderDisposition : OpenFolderDisposition)
    (hquery : SUCCEEDED
      (ns.GetItemAttributes pidlItem (SFGAO_FOLDER ||| SFGAO_STREAM ||| SFGAO_LINK)).1 = true)
    (hfolder : (ns.GetItemAttributes pidlItem
      (SFGAO_FOLDER ||| SFGAO_STREAM ||| SFGAO_LINK)).2 &&& SFGAO_FOLDER = 0)
    (hlink : (ns.GetItemAttributes pidlItem
      (SFGAO_FOLDER ||| SFGAO_STREAM ||| SFGAO_LINK)).2 &&& SFGAO_LINK ≠ 0)
    (hparent : bControlPanelParent ns pidlItem = false) :
    OpenItem ns app pidlItem openFolderDisposition
      = (if FAILED (resolveShortcut ns app pidlItem openFolderDisposition).1 then
          (resolveShortcut ns app pidlItem openFolderDisposition).2
            ++ [OpenItemCall.OpenFileItem pidlItem EMPTY_STRING]
        else (resolveShortcut ns app pidlItem openFolderDisposition).2) := by
  unfold OpenItem
  simp [hquery, hasFlag, hfolder, hlink, hparent]

/-- The shortcut branch of `OpenItem` when the resolution returns `S_OK` or a failure code:
exactly one call is made, `OpenFolderItem` on the parsed target when the target is a folder (or a
zip file with zip handling on) and parses, `OpenFileItem` on the shortcut in every other case. -/
theorem OpenItem_shortcut_falls_back (ns : ShellNamespace) (app : Explorerplusplus)
    (pidlItem : PIDL) (openFolderDisposition : OpenFolderDisposition)
    (hquery : SUCCEEDED
      (ns.GetItemAttributes pidlItem (SFGAO_FOLDER ||| SFGAO_STREAM ||| SFGAO_LINK)).1 = true)
    (hfolder : (ns.GetItemAttributes pidlItem
      (SFGAO_FOLDER ||| SFGAO_STREAM ||| SFGAO_LINK)).2 &&& SFGAO_FOLDER = 0)
    (hlink : (ns.GetItemAttributes pidlItem
      (SFGAO_FOLDER ||| SFGAO_STREAM ||| SFGAO_LINK)).2 &&& SFGAO_LINK ≠ 0)
    (hparent : bControlPanelParent ns pidlItem = false)
    (hresolve : (ns.ResolveLink app.m_hContainer 0
        (c_str (ns.GetDisplayName pidlItem SHGDN_FORPARSING)) MAX_PATH).1 = S_OK
      ∨ FAILED (ns.ResolveLink app.m_hContainer 0
        (c_str (ns.GetDisplayName pidlItem SHGDN_FORPARSING)) MAX_PATH).1 = true) :
    (∃ pidlTarget,
        OpenItem ns app pidlItem openFolderDisposition
          = [OpenItemCall.OpenFolderItem pidlTarget openFolderDisposition])
      ∨ OpenItem ns app pidlItem openFolderDisposition
          = [OpenItemCall.OpenFileItem pidlItem EMPTY_STRING] := by
  rw [OpenItem_shortcut ns app pidlItem openFolderDisposition hquery hfolder hlink hparent]
  unfold resolveShortcut
  dsimp only
  by_cases h1 : (ns.ResolveLink app.m_hContainer 0
      (c_str (ns.GetDisplayName pidlItem SHGDN_FORPARSING)) MAX_PATH).1 = S_OK
  · simp only [h1, if_true]
    by_cases h2 : SUCCEEDED (ns.GetItemAttributesOfPath (ns.ResolveLink app.m_hContainer 0
        (c_str (ns.GetDisplayName pidlItem SHGDN_FORPARSING)) MAX_PATH).2
        (SFGAO_FOLDER ||| SFGAO_STREAM)).1 = true
    · simp only [h2, if_true]
      split
      · by_cases h4 : SUCCEEDED (ns.SHParseDisplayName (ns.ResolveLink app.m_hContainer 0
            (c_str (ns.GetDisplayName pidlItem SHGDN_FORPARSING)) MAX_PATH).2).1 = true
        · left
          have h5 : FAILED (ns.SHParseDisplayName (ns.ResolveLink app.m_hContainer 0
              (c_str (ns.GetDisplayName pidlItem SHGDN_FORPARSING)) MAX_PATH).2).1 = false := by
            simp only [SUCCEEDED, FAILED, decide_eq_true_eq, decide_eq_false_iff_not] at h4 ⊢
            omega
          simp [h4, h5]
        · right
          have h5 : FAILED (ns.SHParseDisplayName (ns.ResolveLink app.m_hContainer 0
              (c_str (ns.GetDisplayName pidlItem SHGDN_FORPARSING)) MAX_PATH).2).1 = true := by
            simp only [SUCCEEDED, FAILED, decide_eq_true_eq] at h4 ⊢
            omega
          simp [h4, h5]
      · right
        have h5 : FAILED E_FAIL = true := by decide
        simp [h5]
    · right
      have h5 : FAILED (ns.GetItemAttributesOfPath (ns.ResolveLink app.m_hContainer 0
          (c_str (ns.GetDisplayName pidlItem SHGDN_FORPARSING)) MAX_PATH).2
          (SFGAO_FOLDER ||| SFGAO_STREAM)).1 = true := by
        simp only [SUCCEEDED, FAILED, decide_eq_true_eq] at h2 ⊢
        omega
      simp [h2, h5]
  · right
    rcases hresolve with h | h
    · exact absurd h h1
    · simp [h1, h]

/-! ## Info-tip texts -/

/-- C12: `GetInfoTipAsync` takes the text from `GetItemInfoTip` exactly when the configured type
is `System` or the folder is virtual: in that case its result is the shell's text (or nothing, on
failure) and does not depend on the date lookups; otherwise its result is the date-modified label,
a colon, a blank and the formatted last-write time (or nothing, when formatting fails) and does
not depend on `GetItemInfoTip`. Every result carries the internal index passed in. -/
theorem info_tip_source_selection (shell : Shell) (listView : HWND)
    (infoTipResultId internalIndex : Int) (basicItemInfo : BasicItemInfo_t) (config : Config)
    (hInstance : HINSTANCE) (virtualFolder : Bool) :
    ((config.infoTipType = InfoTipType.System ∨ virtualFolder = true) →
        (GetInfoTipAsync shell listView infoTipResultId internalIndex basicItemInfo config
            hInstance virtualFolder).2
          = (if FAILED (shell.GetItemInfoTip basicItemInfo.pidlComplete).1 then none
            else some { itemInternalIndex := internalIndex
                        infoTip := (shell.GetItemInfoTip basicItemInfo.pidlComplete).2 })
        ∧ ∀ other : Shell, other.GetItemInfoTip = shell.GetItemInfoTip →
            GetInfoTipAsync other listView infoTipResultId internalIndex basicItemInfo config
                hInstance virtualFolder
              = GetInfoTipAsync shell listView infoTipResultId internalIndex basicItemInfo config
                hInstance virtualFolder)
      ∧ (¬ (config.infoTipType = InfoTipType.System ∨ virtualFolder = true) →
        (GetInfoTipAsync shell listView infoTipResultId internalIndex basicItemInfo config
            hInstance virtualFolder).2
          = (shell.CreateFileTimeString basicItemInfo.wfd.ftLastWriteTime 256
              config.globalFolderSettings.showFriendlyDates).map
            (fun fileModificationText =>
              { itemInternalIndex := internalIndex
                infoTip :=
                  shell.LoadString hInstance StringResource.IDS_GENERAL_DATEMODIFIED 64
                    ++ [':', ' '] ++ fileModificationText })
        ∧ ∀ other : Shell, other.LoadString = shell.LoadString →
            other.CreateFileTimeString = shell.CreateFileTimeString →
            GetInfoTipAsync other listView infoTipResultId internalIndex basicItemInfo config
                hInstance virtualFolder
              = GetInfoTipAsync shell listView infoTipResultId internalIndex basicItemInfo config
                hInstance virtualFolder)
      ∧ (∀ result,
          (GetInfoTipAsync shell listView infoTipResultId internalIndex basicItemInfo config
            hInstance virtualFolder).2 = some result →
          result.itemInternalIndex = internalIndex) := by
  refine ⟨?_, ?_, ?_⟩
  · intro hb
    refine ⟨?_, ?_⟩
    · unfold GetInfoTipAsync
      simp only [hb, if_true]
      cases FAILED (shell.GetItemInfoTip basicItemInfo.pidlComplete).1 <;> simp
    · intro other h1
      unfold GetInfoTipAsync
      simp only [hb, if_true, h1]
  · intro hb
    refine ⟨?_, ?_⟩
    · unfold GetInfoTipAsync
      simp only [hb, if_false]
      cases shell.CreateFileTimeString basicItemInfo.wfd.ftLastWriteTime 256
        config.globalFolderSettings.showFriendlyDates <;> simp
    · intro other h1 h2
      unfold GetInfoTipAsync
      simp only [hb, if_false, h1, h2]
  · intro result hr
    unfold GetInfoTipAsync at hr
    dsimp only at hr
    split at hr
    · simp at hr
    · simp only [Option.some.injEq] at hr
      rw [← hr]

/-- C12 (witness): with system info tips the text is the shell's `tip`; with custom info tips in
a real folder it is `Date: now`; both carry the index 5. -/
theorem info_tip_source_selection_witness :
    (GetInfoTipAsync sampleShell 100 0 5 { pidlComplete := 9, wfd := (sampleItem 9 0 ['a']).wfd }
        (sampleBrowser [] []).m_config 200 false).2
        = some { itemInternalIndex := 5, infoTip := ['t', 'i', 'p'] }
      ∧ (GetInfoTipAsync sampleShell 100 0 5
          { pidlComplete := 9, wfd := (sampleItem 9 0 ['a']).wfd }
          { (sampleBrowser [] []).m_config with infoTipType := InfoTipType.Custom } 200 false).2
        = some { itemInternalIndex := 5,
                 infoTip := ['D', 'a', 't', 'e', ':', ' ', 'n', 'o', 'w'] } :=
  ⟨((info_tip_source_selection sampleShell 100 0 5
      { pidlComplete := 9, wfd := (sampleItem 9 0 ['a']).wfd }
      (sampleBrowser [] []).m_config 200 false).1 (by decide)).1,
    ((info_tip_source_selection sampleShell 100 0 5
      { pidlComplete := 9, wfd := (sampleItem 9 0 ['a']).wfd }
      { (sampleBrowser [] []).m_config with infoTipType := InfoTipType.Custom } 200
      false).2.1 (by decide)).1⟩

/-- C13: the job appends the computed text to the existing info tip. When `GetInfoTipAsync`
yields a result and the existing text is not empty, the job returns that result with the text
`existingInfoTip`, a newline, the computed text; when the existing text is empty it returns the
result unchanged; and when `GetInfoTipAsync` yields nothing the job returns nothing. -/
theorem info_tip_concatenation (shell : Shell) (this : ShellBrowser) (t : InfoTipTask) :
    (∀ result,
        (GetInfoTipAsync shell this.m_hListView t.infoTipResultId t.internalIndex t.basicItemInfo
          t.configCopy this.m_hResourceModule t.virtualFolder).2 = some result →
        (t.existingInfoTip ≠ [] →
          (runInfoTipTask shell this t).2
            = some { itemInternalIndex := result.itemInternalIndex
                     infoTip := t.existingInfoTip ++ [Char.ofNat 10] ++ result.infoTip })
        ∧ (t.existingInfoTip = [] → (runInfoTipTask shell this t).2 = some result))
      ∧ ((GetInfoTipAsync shell this.m_hListView t.infoTipResultId t.internalIndex
            t.basicItemInfo t.configCopy this.m_hResourceModule t.virtualFolder).2 = none →
          (runInfoTipTask shell this t).2 = none) := by
  refine ⟨?_, ?_⟩
  · intro result hr
    refine ⟨?_, ?_⟩
    · intro he
      unfold runInfoTipTask
      simp [hr, he]
    · intro he
      unfold runInfoTipTask
      simp [hr, he]
  · intro hr
    unfold runInfoTipTask
    simp [hr]

/-- C13 (witness): the job queued with the existing text `A` returns `A`, a newline and `tip`;
the job queued with no existing text returns `tip`; the job whose lookup fails returns
nothing. -/
theorem info_tip_concatenation_witness :
    (runInfoTipTask sampleShell (sampleBrowser [] [])
        { infoTipResultId := 0, internalIndex := 5,
          basicItemInfo := { pidlComplete := 9, wfd := (sampleItem 9 0 ['a']).wfd },
          configCopy := (sampleBrowser [] []).m_config, virtualFolder := false,
          existingInfoTip := ['A'] }).2
        = some { itemInternalIndex := 5, infoTip := ['A'] ++ [Char.ofNat 10] ++ ['t', 'i', 'p'] }
      ∧ (runInfoTipTask sampleShell (sampleBrowser [] [])
        { infoTipResultId := 0, internalIndex := 5,
          basicItemInfo := { pidlComplete := 9, wfd := (sampleItem 9 0 ['a']).wfd },
          configCopy := (sampleBrowser [] []).m_config, virtualFolder := false,
          existingInfoTip := [] }).2
        = some { itemInternalIndex := 5, infoTip := ['t', 'i', 'p'] }
      ∧ (runInfoTipTask sampleShell (sampleBrowser [] [])
        { infoTipResultId := 0, internalIndex := 5,
          basicItemInfo := { pidlComplete := 0, wfd := (sampleItem 0 0 ['a']).wfd },
          configCopy := (sampleBrowser [] []).m_config, virtualFolder := false,
          existingInfoTip := ['A'] }).2 = none :=
  ⟨((info_tip_concatenation sampleShell (sampleBrowser [] [])
      { infoTipResultId := 0, internalIndex := 5,
        basicItemInfo := { pidlComplete := 9, wfd := (sampleItem 9 0 ['a']).wfd },
        configCopy := (sampleBrowser [] []).m_config, virtualFolder := false,
        existingInfoTip := ['A'] }).1
      { itemInternalIndex := 5, infoTip := ['t', 'i', 'p'] } (by decide)).1 (by decide),
    ((info_tip_concatenation sampleShell (sampleBrowser [] [])
      { infoTipResultId := 0, internalIndex := 5,
        basicItemInfo := { pidlComplete := 9, wfd := (sampleItem 9 0 ['a']).wfd },
        configCopy := (sampleBrowser [] []).m_config, virtualFolder := false,
        existingInfoTip := [] }).1
      { itemInternalIndex := 5, infoTip := ['t', 'i', 'p'] } (by decide)).2 (by decide),
    (info_tip_concatenation sampleShell (sampleBrowser [] [])
      { infoTipResultId := 0, internalIndex := 5,
        basicItemInfo := { pidlComplete := 0, wfd := (sampleItem 0 0 ['a']).wfd },
        configCopy := (sampleBrowser [] []).m_config, virtualFolder := false,
        existingInfoTip := ['A'] }).2 (by decide)⟩

/-! ## Cached icon values -/

/-- C14: for the cached value `0x02001007` (overlay index 2 in the upper eight bits, image index
`0x1007` below them) the handler reports the image 7, the low twelve bits, and not `0x001007`, the
value without its upper eight bits. `ProcessIconResult` reads the overlay index of the same value
from the upper eight bits. -/
theorem cached_icon_mask_keeps_twelve_bits :
    GetCachedIconIndex largeIconIndexBrowser (sampleItem 9 0 ['a']) = some 0x02001007
      ∧ OnListViewGetDisplayInfo sampleHelpers largeIconIndexBrowser (imageRequest 5)
        = Outcome.returned
            { largeIconIndexBrowser with iconTasks := [{ pidl := 9, internalIndex := 5 }] }
            { imageRequest 5 with iImage := 7, mask := LVIF_IMAGE ||| LVIF_DI_SETITEM }
      ∧ bitand32 0x02001007 0x00FFFFFF = 0x001007
      ∧ (7 : Int) ≠ 0x001007
      ∧ (ProcessIconResult largeIconIndexBrowser 5 0x02001007).listView
        = [{ sampleRow 5 with iImage := 0x02001007, state := INDEXTOOVERLAYMASK 2 }] := by
  decide

/-! ## Middle clicks -/

/-- C17: `OnListViewMButtonUp` creates a tab exactly when the button goes up over an item, that
item is the one `OnListViewMButtonDown` recorded in `m_middleButtonItem`, and the item has the
`DIRECTORY` or the `ARCHIVE` attribute; the tab is for that item and is switched to exactly when
`openTabsInForeground` and Shift differ. In every other case the state, and so the list of tabs,
is left as it was. `OnListViewMButtonDown` records the item hit (or -1) and creates no tab. -/
theorem middle_click_open (h : Helpers) (s : ShellBrowser) (pt : POINT) (keysDown : Nat) :
    (∀ itemInfo,
        (h.ListView_HitTest s pt).flags ≠ LVHT_NOWHERE →
        (h.ListView_HitTest s pt).iItem = s.m_middleButtonItem →
        GetItemByIndex s s.m_middleButtonItem = Except.ok itemInfo →
        itemInfo.wfd.dwFileAttributes &&& (FILE_ATTRIBUTE_DIRECTORY ||| FILE_ATTRIBUTE_ARCHIVE)
          ≠ 0 →
        OnListViewMButtonUp h s pt keysDown
          = Outcome.returned
              { s with
                createdTabs := s.createdTabs ++
                  [(itemInfo.pidlComplete,
                    xor s.m_config.openTabsInForeground
                      (decide (keysDown &&& MK_SHIFT = MK_SHIFT)))] } ())
      ∧ (((h.ListView_HitTest s pt).flags = LVHT_NOWHERE
            ∨ (h.ListView_HitTest s pt).iItem ≠ s.m_middleButtonItem
            ∨ ∀ itemInfo, GetItemByIndex s s.m_middleButtonItem = Except.ok itemInfo →
                itemInfo.wfd.dwFileAttributes
                  &&& (FILE_ATTRIBUTE_DIRECTORY ||| FILE_ATTRIBUTE_ARCHIVE) = 0) →
          (OnListViewMButtonUp h s pt keysDown).state = s)
      ∧ (OnListViewMButtonDown h s pt).m_middleButtonItem
          = (if (h.ListView_HitTest s pt).flags ≠ LVHT_NOWHERE
                ∧ (h.ListView_HitTest s pt).iItem ≠ -1 then (h.ListView_HitTest s pt).iItem
            else -1)
      ∧ (OnListViewMButtonDown h s pt).createdTabs = s.createdTabs := by
  refine ⟨?_, ?_, ?_, ?_⟩
  · intro itemInfo hflags hitem hget hattr
    unfold OnListViewMButtonUp
    simp only [hflags, if_false, hitem, ne_eq, not_true_eq_false, hget, hattr]
    cases s.m_config.openTabsInForeground <;>
      by_cases hk : keysDown &&& MK_SHIFT = MK_SHIFT <;> simp [hk]
  · intro hother
    unfold OnListViewMButtonUp
    dsimp only
    by_cases hflags : (h.ListView_HitTest s pt).flags = LVHT_NOWHERE
    · simp [hflags, Outcome.state]
    · by_cases hitem : (h.ListView_HitTest s pt).iItem = s.m_middleButtonItem
      · simp only [hflags, if_false, hitem, ne_eq, not_true_eq_false]
        cases hget : GetItemByIndex s s.m_middleButtonItem with
        | error what => rfl
        | ok itemInfo =>
          rcases hother with h1 | h1 | h1
          · exact absurd h1 hflags
          · exact absurd hitem h1
          · simp [h1 itemInfo hget, Outcome.state]
      · simp [hflags, hitem, Outcome.state]
  · unfold OnListViewMButtonDown
    dsimp only
    split <;> rfl
  · unfold OnListViewMButtonDown
    dsimp only
    split <;> rfl

/-- C17 (witness): the middle button goes down on the directory in row 0. Going up on the same
row creates a background tab for it, or a foreground tab with Shift; going up on row 1 creates
none; and a click on the plain file in row 1 creates none. -/
theorem middle_click_open_witness :
    (OnListViewMButtonUp sampleHelpers
        (OnListViewMButtonDown sampleHelpers folderAndFileBrowser { x := 0, y := 0 })
        { x := 0, y := 0 } 0).state.createdTabs = [(9, false)]
      ∧ (OnListViewMButtonUp sampleHelpers
        (OnListViewMButtonDown sampleHelpers folderAndFileBrowser { x := 0, y := 0 })
        { x := 0, y := 0 } MK_SHIFT).state.createdTabs = [(9, true)]
      ∧ (OnListViewMButtonUp sampleHelpers
        (OnListViewMButtonDown sampleHelpers folderAndFileBrowser { x := 0, y := 0 })
        { x := 0, y := 1 } 0).state
          = OnListViewMButtonDown sampleHelpers folderAndFileBrowser { x := 0, y := 0 }
      ∧ (OnListViewMButtonUp sampleHelpers
        (OnListViewMButtonDown sampleHelpers folderAndFileBrowser { x := 0, y := 1 })
        { x := 0, y := 1 } 0).state
          = OnListViewMButtonDown sampleHelpers folderAndFileBrowser { x := 0, y := 1 } :=
  have h0 := middle_click_open sampleHelpers
    (OnListViewMButtonDown sampleHelpers folderAndFileBrowser { x := 0, y := 0 })
    { x := 0, y := 0 } 0
  have h1 := middle_click_open sampleHelpers
    (OnListViewMButtonDown sampleHelpers folderAndFileBrowser { x := 0, y := 0 })
    { x := 0, y := 0 } MK_SHIFT
  have h2 := middle_click_open sampleHelpers
    (OnListViewMButtonDown sampleHelpers folderAndFileBrowser { x := 0, y := 0 })
    { x := 0, y := 1 } 0
  have h3 := middle_click_open sampleHelpers
    (OnListViewMButtonDown sampleHelpers folderAndFileBrowser { x := 0, y := 1 })
    { x := 0, y := 1 } 0
  ⟨by rw [h0.1 (sampleItem 9 FILE_ATTRIBUTE_DIRECTORY ['d']) (by decide) (by decide) (by rfl)
      (by decide)]; decide,
    by rw [h1.1 (sampleItem 9 FILE_ATTRIBUTE_DIRECTORY ['d']) (by decide) (by decide) (by rfl)
      (by decide)]; decide,
    h2.2.1 (Or.inr (Or.inl (by decide))),
    h3.2.1 (Or.inr (Or.inr (by
      intro itemInfo hget
      have hitem : GetItemByIndex
          (OnListViewMButtonDown sampleHelpers folderAndFileBrowser { x := 0, y := 1 })
          (OnListViewMButtonDown sampleHelpers folderAndFileBrowser
            { x := 0, y := 1 }).m_middleButtonItem
          = Except.ok (sampleItem 10 0 ['f']) := by rfl
      rw [hitem] at hget
      cases hget
      decide)))⟩

/-! ## The header menu -/

theorem buildHeaderMenu_eq (e : HeaderMenuHelpers) (activeColumns : List Column_t)
    (directory : WString) (headerMenu : List MENUITEMINFO) :
    buildHeaderMenu e activeColumns directory headerMenu
      = { headerMenu :=
            ((headerMenuEntries (GetColumnHeaderMenuList e directory) activeColumns).filter
                (fun p => decide (p.2.type ∈ GetColumnHeaderMenuList e directory))).map
                (fun p => headerMenuItem e p.1 p.2)
            ++ ((headerMenuEntries (GetColumnHeaderMenuList e directory) activeColumns).filter
                (fun p => !decide (p.2.type ∈ GetColumnHeaderMenuList e directory))).map
                (fun p => headerMenuItem e p.1 p.2)
            ++ headerMenu
          menuItemMappings :=
            (headerMenuEntries (GetColumnHeaderMenuList e directory) activeColumns).map
              (fun p => ((p.1 : Int), p.2.type))
          totalInserted :=
            (activeColumns.filter
              (shownInHeaderMenu (GetColumnHeaderMenuList e directory))).length
          commonColumnPosition :=
            ((headerMenuEntries (GetColumnHeaderMenuList e directory) activeColumns).filter
              (fun p => decide (p.2.type ∈ GetColumnHeaderMenuList e directory))).length } := by
  have h := headerMenu_foldl e (GetColumnHeaderMenuList e directory) activeColumns [] []
    headerMenu [] 0 (by simp) (by simp)
  simp only [List.nil_append, List.length_nil, Nat.zero_add] at h
  unfold buildHeaderMenu headerMenuEntries
  exact h

/-- C15: the header menu built by `OnListViewHeaderRightClick`. The common-column list is the one
`GetColumnHeaderMenuList` picks for the directory. The column entries are those of the active
columns that are checked or common, numbered 1, 2, ... in the order of the active columns; the
entry of a column has its number as id, is checked exactly when the column is, and carries the
name of the column. The menu shows the entries of the common columns first, then the entries of
the other columns, each group in the order of the active columns, and then the items it was
loaded with. The ids are mapped, in that order, to the types of their columns. -/
theorem header_menu_order (e : HeaderMenuHelpers) (activeColumns : List Column_t)
    (directory : WString) (headerMenu : List MENUITEMINFO) :
    GetColumnHeaderMenuList e directory
        = (if e.CompareVirtualFolders (c_str directory) CSIDL_DRIVES then
            [e.columnTypes.Name, e.columnTypes.Type_, e.columnTypes.TotalSize,
              e.columnTypes.FreeSpace, e.columnTypes.VirtualComments, e.columnTypes.FileSystem]
          else if e.CompareVirtualFolders (c_str directory) CSIDL_CONTROLS then
            [e.columnTypes.Name, e.columnTypes.VirtualComments]
          else if e.CompareVirtualFolders (c_str directory) CSIDL_BITBUCKET then
            [e.columnTypes.Name, e.columnTypes.OriginalLocation, e.columnTypes.DateDeleted,
              e.columnTypes.Size, e.columnTypes.Type_, e.columnTypes.DateModified]
          else if e.CompareVirtualFolders (c_str directory) CSIDL_CONNECTIONS then
            [e.columnTypes.Name, e.columnTypes.Type_, e.columnTypes.NetworkAdaptorStatus,
              e.columnTypes.Owner]
          else if e.CompareVirtualFolders (c_str directory) CSIDL_NETWORK then
            [e.columnTypes.Name, e.columnTypes.VirtualComments]
          else if e.CompareVirtualFolders (c_str directory) CSIDL_PRINTERS then
            [e.columnTypes.Name, e.columnTypes.PrinterNumDocuments,
              e.columnTypes.PrinterStatus, e.columnTypes.PrinterComments,
              e.columnTypes.PrinterLocation]
          else
            [e.columnTypes.Name, e.columnTypes.Type_, e.columnTypes.Size,
              e.columnTypes.DateModified, e.columnTypes.Authors, e.columnTypes.Title])
      ∧ (buildHeaderMenu e activeColumns directory headerMenu).headerMenu
        = ((headerMenuEntries (GetColumnHeaderMenuList e directory) activeColumns).filter
              (fun p => decide (p.2.type ∈ GetColumnHeaderMenuList e directory))).map
              (fun p =>
                { fMask := MIIM_STRING_STATE_ID
                  fState := if p.2.bChecked then MFS_CHECKED else MFS_ENABLED
                  wID := p.1
                  dwTypeData := e.columnName p.2.type })
          ++ ((headerMenuEntries (GetColumnHeaderMenuList e directory) activeColumns).filter
              (fun p => !decide (p.2.type ∈ GetColumnHeaderMenuList e directory))).map
              (fun p =>
                { fMask := MIIM_STRING_STATE_ID
                  fState := if p.2.bChecked then MFS_CHECKED else MFS_ENABLED
                  wID := p.1
                  dwTypeData := e.columnName p.2.type })
          ++ headerMenu
      ∧ (headerMenuEntries (GetColumnHeaderMenuList e directory) activeColumns).map
          (fun p => p.2)
        = activeColumns.filter (fun column =>
            column.bChecked || decide (column.type ∈ GetColumnHeaderMenuList e directory))
      ∧ (headerMenuEntries (GetColumnHeaderMenuList e directory) activeColumns).map
          (fun p => p.1)
        = List.range' 1
            (activeColumns.filter (fun column =>
              column.bChecked
                || decide (column.type ∈ GetColumnHeaderMenuList e directory))).length
      ∧ (buildHeaderMenu e activeColumns directory headerMenu).menuItemMappings
        = (headerMenuEntries (GetColumnHeaderMenuList e directory) activeColumns).map
            (fun p => ((p.1 : Int), p.2.type)) := by
  refine ⟨rfl, ?_, ?_, ?_, ?_⟩
  · rw [buildHeaderMenu_eq]
    rfl
  · unfold headerMenuEntries
    rw [List.enumFrom_map_snd]
    rfl
  · unfold headerMenuEntries
    rw [List.enumFrom_map_fst]
    rfl
  · rw [buildHeaderMenu_eq]

/-- C15 (witness): of the active columns 5, 1, 6, 3, 7 (6 and 3 unchecked; 1 and 3 common in a
real folder) the menu lists 1 and 3 first, with the ids 2 and 3, then 5 and 7, with the ids 1
and 4, then the item it was loaded with; the unchecked column 3 is shown unchecked. -/
theorem header_menu_order_witness :
    GetColumnHeaderMenuList sampleHeaderMenuHelpers [] = [1, 2, 3, 4, 21, 19]
      ∧ (buildHeaderMenu sampleHeaderMenuHelpers mixedColumns [] [moreItem]).headerMenu
        = [{ fMask := MIIM_STRING_STATE_ID, fState := MFS_CHECKED, wID := 2, dwTypeData := [] },
           { fMask := MIIM_STRING_STATE_ID, fState := MFS_ENABLED, wID := 3, dwTypeData := [] },
           { fMask := MIIM_STRING_STATE_ID, fState := MFS_CHECKED, wID := 1, dwTypeData := [] },
           { fMask := MIIM_STRING_STATE_ID, fState := MFS_CHECKED, wID := 4, dwTypeData := [] },
           { fMask := MIIM_STRING_STATE_ID, fState := MFS_ENABLED, wID := 1000,
             dwTypeData := ['M', 'o', 'r', 'e'] }]
      ∧ (buildHeaderMenu sampleHeaderMenuHelpers mixedColumns [] [moreItem]).menuItemMappings
        = [(1, 5), (2, 1), (3, 3), (4, 7)] :=
  have h := header_menu_order sampleHeaderMenuHelpers mixedColumns [] [moreItem]
  ⟨h.1.trans (by decide), h.2.1.trans (by decide), h.2.2.2.2.trans (by decide)⟩

theorem toggleColumn_some (columns toggled : List Column_t) (columnType : ColumnType)
    (h : toggleColumn columns columnType = some toggled) :
    (∃ before column after,
        columns = before ++ column :: after
          ∧ (∀ x ∈ before, x.type ≠ columnType)
          ∧ column.type = columnType
          ∧ toggled = before ++ { column with bChecked := !column.bChecked } :: after)
      ∧ toggleColumn toggled columnType = some columns := by
  induction columns generalizing toggled with
  | nil => simp [toggleColumn] at h
  | cons column rest ih =>
    by_cases hc : column.type = columnType
    · subst hc
      simp only [toggleColumn, if_true, Option.some.injEq] at h
      subst h
      refine ⟨⟨[], column, rest, rfl, by simp, rfl, rfl⟩, ?_⟩
      cases column
      simp [toggleColumn]
    · simp only [toggleColumn, hc, if_false, Option.map_eq_some'] at h
      obtain ⟨inner, hinner, rfl⟩ := h
      obtain ⟨⟨before, found, after, h1, h2, h3, h4⟩, h5⟩ := ih inner hinner
      refine ⟨⟨column :: before, found, after, by simp [h1], ?_, h3, by simp [h4]⟩, ?_⟩
      · intro x hx
        rcases List.mem_cons.1 hx with hx | hx
        · rw [hx]; exact hc
        · exact h2 x hx
      · simp [toggleColumn, hc, h5]

/-- C16 (counterexample): the first active column, of type 5, is neither checked nor common, so
the header menu gives id 1 to the second column, `Name`. Selecting id 1 flips `Name`, the second
column of the current columns, and a refresh is triggered although the first column was not
changed. -/
theorem refresh_on_first_column_counterexample :
    (buildHeaderMenu sampleHeaderMenuHelpers hiddenFirstColumn [] [moreItem]).menuItemMappings
        = [(1, 1)]
      ∧ (OnListViewHeaderRightClick sampleHeaderMenuHelpers hiddenFirstColumn [] [moreItem] 1
          hiddenFirstColumn).2
        = Except.ok
            { setCurrentColumns := some [sampleColumn 5 false, sampleColumn 1 false]
              refresh := true
              showMoreColumns := false }
      ∧ hiddenFirstColumn.head? = some (sampleColumn 5 false)
      ∧ [sampleColumn 5 false, sampleColumn 1 false].head? = hiddenFirstColumn.head? :=
  ⟨by decide, by rfl, by decide, by decide⟩

/-- C16 (as amended): for a menu id mapped to a column type, `OnColumnMenuItemSelected` flips the
checked flag of the first current column of that type and leaves every other column as it was;
selecting the same id again restores the list. A refresh is triggered exactly when the id is 1
(and a column was flipped); when no current column has the type nothing is set and nothing is
refreshed. In the mappings built by `OnListViewHeaderRightClick`, id 1 belongs to the first active
column that is checked or common. -/
theorem column_toggle_from_header_menu (e : HeaderMenuHelpers) (activeColumns : List Column_t)
    (directory : WString) (headerMenu : List MENUITEMINFO) (currentColumns : List Column_t)
    (menuItemId : Int) (menuItemMappings : List (Int × ColumnType)) (columnType : ColumnType)
    (hmapped : mapFind menuItemMappings menuItemId = some columnType) :
    (∀ toggled, toggleColumn currentColumns columnType = some toggled →
        OnColumnMenuItemSelected currentColumns menuItemId menuItemMappings
            = Except.ok
                { setCurrentColumns := some toggled
                  refresh := decide (menuItemId = 1)
                  showMoreColumns := false }
          ∧ (∃ before column after,
              currentColumns = before ++ column :: after
                ∧ (∀ x ∈ before, x.type ≠ columnType)
                ∧ column.type = columnType
                ∧ toggled = before ++ { column with bChecked := !column.bChecked } :: after)
          ∧ OnColumnMenuItemSelected toggled menuItemId menuItemMappings
            = Except.ok
                { setCurrentColumns := some currentColumns
                  refresh := decide (menuItemId = 1)
                  showMoreColumns := false })
      ∧ (toggleColumn currentColumns columnType = none →
          OnColumnMenuItemSelected currentColumns menuItemId menuItemMappings
            = Except.ok { setCurrentColumns := none, refresh := false, showMoreColumns := false })
      ∧ mapFind (buildHeaderMenu e activeColumns directory headerMenu).menuItemMappings 1
        = ((activeColumns.filter
              (shownInHeaderMenu (GetColumnHeaderMenuList e directory))).head?).map
            (fun column => column.type) := by
  refine ⟨?_, ?_, ?_⟩
  · intro toggled ht
    have hs := toggleColumn_some currentColumns toggled columnType ht
    refine ⟨?_, hs.1, ?_⟩
    · simp [OnColumnMenuItemSelected, hmapped, ht]
    · simp [OnColumnMenuItemSelected, hmapped, hs.2]
  · intro hn
    simp [OnColumnMenuItemSelected, hmapped, hn]
  · rw [buildHeaderMenu_eq]
    unfold headerMenuEntries
    cases activeColumns.filter (shownInHeaderMenu (GetColumnHeaderMenuList e directory)) with
    | nil => rfl
    | cons first rest => simp [List.enumFrom_cons, mapFind]

/-- C16 (witness): with `Name` first, id 1 is mapped to `Name`; selecting it unchecks the first
column and triggers a refresh, and selecting id 2 checks the second column without a refresh. -/
theorem column_toggle_from_header_menu_witness :
    mapFind [((1 : Int), (1 : ColumnType)), (2, 2)] 1 = some 1
      ∧ OnColumnMenuItemSelected [sampleColumn 1 true, sampleColumn 2 false] 1 [(1, 1), (2, 2)]
        = Except.ok
            { setCurrentColumns := some [sampleColumn 1 false, sampleColumn 2 false]
              refresh := true
              showMoreColumns := false }
      ∧ OnColumnMenuItemSelected [sampleColumn 1 true, sampleColumn 2 false] 2 [(1, 1), (2, 2)]
        = Except.ok
            { setCurrentColumns := some [sampleColumn 1 true, sampleColumn 2 true]
              refresh := false
              showMoreColumns := false } :=
  ⟨by decide,
    ((column_toggle_from_header_menu sampleHeaderMenuHelpers
        [sampleColumn 1 true, sampleColumn 2 false] [] [moreItem]
        [sampleColumn 1 true, sampleColumn 2 false] 1 [(1, 1), (2, 2)] 1 (by decide)).1
      [sampleColumn 1 false, sampleColumn 2 false] (by decide)).1,
    ((column_toggle_from_header_menu sampleHeaderMenuHelpers
        [sampleColumn 1 true, sampleColumn 2 false] [] [moreItem]
        [sampleColumn 1 true, sampleColumn 2 false] 2 [(1, 1), (2, 2)] 2 (by decide)).1
      [sampleColumn 1 true, sampleColumn 2 true] (by decide)).1⟩

end ExplorerPlusPlus
